import Mathlib

/-!
# maya-usd: scene delegate, shader attribute definitions and rotate command

A shallow embedding of

* `lib/usd/hdMaya/delegates/sceneDelegate.cpp` (`HdMayaSceneDelegate`),
* `lib/mayaUsd/ufe/UsdShaderAttributeDef.cpp` (`UsdShaderAttributeDef`), and
* `lib/mayaUsd/ufe/UsdRotateUndoableCommand.cpp` (`UsdRotateUndoableCommand`),

followed by theorems about the embedded functions.

Conventions of the embedding:

* C++ member functions that mutate the object take the object state and return the new state
  together with the result;
* `std::unordered_map` is an association list whose lookup returns the first entry with the key;
  the operations that add entries (`emplace`, `insert`) keep keys unique, as the C++ container does;
* a pointer that may be null is an `Option`;
* virtual methods of adapters (defined outside of the embedded files) are fields of the adapter
  record, and the calls the delegate makes to their state-changing methods are recorded in a call log.
-/

set_option autoImplicit false

/-! ## External vocabulary: paths, tokens, values, Maya objects -/

/-- Token of the scene-description library (`TfToken`): an interned string, compared by content. -/
abbrev TfToken := String

/-- Scene path (`SdfPath`), restricted to the three shapes the embedded code distinguishes: the
empty path `SdfPath()`, an absolute prim path, and a property path below a prim. -/
inductive SdfPath where
  | empty : SdfPath
  | prim (elements : List String) : SdfPath
  | property (elements : List String) (name : String) : SdfPath
  deriving DecidableEq, Repr, Inhabited

namespace SdfPath

/-- Whether the path names a property (`SdfPath::IsPropertyPath`). -/
def IsPropertyPath : SdfPath → Bool
  | property _ _ => true
  | _ => false

/-- Prim part of a path (`SdfPath::GetPrimPath`): a property path loses its property name, every
other path is returned as it is. -/
def GetPrimPath : SdfPath → SdfPath
  | property elements _ => prim elements
  | p => p

/-- Path of a child prim (`SdfPath::AppendChild`); the empty path and property paths have no
children and give the empty path. -/
def AppendChild : SdfPath → TfToken → SdfPath
  | prim elements, child => prim (elements ++ [child])
  | _, _ => empty

end SdfPath

/-- Type-erased value of the scene-description library (`VtValue`): empty, or holding a payload. -/
inductive VtValue where
  | empty : VtValue
  | held (payload : String) : VtValue
  deriving DecidableEq, Repr

instance : Inhabited VtValue := ⟨VtValue.empty⟩

/-- Test of `VtValue::IsEmpty`. -/
def VtValue.IsEmpty : VtValue → Bool
  | VtValue.empty => true
  | VtValue.held _ => false

/-- Handle to a Maya node (`MObject`); `kNullObj` is the null handle. -/
inductive MObject where
  | kNullObj : MObject
  | node (handle : Nat) : MObject
  deriving DecidableEq, Repr, Inhabited

/-- Null test of a Maya handle (`MObject::isNull`). -/
def MObject.isNull : MObject → Bool
  | MObject.kNullObj => true
  | MObject.node _ => false

/-- Element type of the `float* times` buffers. The delegate itself only ever writes the literal
`0.0f`; every other time is written by an adapter. -/
abbrev TimeSample := ℚ

/-- Matrix of the scene-description library (`GfMatrix4d`), by rows. The delegate only passes
matrices on. -/
structure GfMatrix4d where
  rows : List (List ℚ)
  deriving DecidableEq, Repr

/-- Integer array of the scene-description library (`VtIntArray`). -/
abbrev VtIntArray := List Int

/-! ## Adapters -/

/-- State-changing methods the delegate calls on an adapter, and `MarkRprimDirty`, which it calls
on the change tracker of the render index for the id of an rprim. -/
inductive AdapterMethod where
  | Populate
  | CreateCallbacks
  | RemoveCallbacks
  | RemovePrim
  | InvalidateTransform
  | MarkDirty (bits : Nat)
  | UpdateMaterialTag
  | SetShadowProjectionMatrix (matrix : GfMatrix4d)
  | MarkRprimDirty (bits : Nat)
  deriving DecidableEq, Repr

/-- One recorded call: the id of the adapter and the method called on it. -/
abbrev AdapterCall := SdfPath × AdapterMethod

/-- Base adapter (`HdMayaAdapter`): its id and the virtual methods the delegate reads. -/
structure HdMayaAdapter where
  GetID : SdfPath
  IsSupported : Bool
  Get : TfToken → VtValue
  HasType : TfToken → Bool

/-- Output buffers of a transform sampling call: the array `times` and the array `samples`. -/
abbrev TransformBuffers := List TimeSample × List GfMatrix4d

/-- Adapter of a DAG node (`HdMayaDagAdapter`). `SampleTransform` receives the maximal sample
count, may write to the two output buffers, and gives the number of samples. -/
structure HdMayaDagAdapter extends HdMayaAdapter where
  GetInstancePrimvar : TfToken → VtValue
  GetVisible : Bool
  IsInstanced : Bool
  GetInstanceIndices : SdfPath → VtIntArray
  SampleTransform : Nat → StateM TransformBuffers Nat

/-- Output buffers of a sampling call: the array `times` and the array `samples`. -/
abbrev SampleBuffers := List TimeSample × List VtValue

/-- Adapter of a shape (`HdMayaShapeAdapter`). `SamplePrimvar` receives the key and the maximal
sample count, may write to the two output buffers, and gives the number of samples. -/
structure HdMayaShapeAdapter extends HdMayaDagAdapter where
  GetMaterial : MObject
  GetDoubleSided : Bool
  SamplePrimvar : TfToken → Nat → StateM SampleBuffers Nat

/-- Adapter of a light (`HdMayaLightAdapter`). -/
structure HdMayaLightAdapter extends HdMayaDagAdapter where

/-- Adapter of a camera (`HdMayaCameraAdapter`). -/
structure HdMayaCameraAdapter extends HdMayaDagAdapter where

/-- Adapter of a material (`HdMayaMaterialAdapter`). -/
structure HdMayaMaterialAdapter extends HdMayaAdapter where
  GetMaterialResource : VtValue
  UpdateMaterialTag : Bool

/-- Adapter container of the delegate (`AdapterMap<T>`, an `std::unordered_map` keyed by path). -/
abbrev AdapterMap (T : Type) := List (SdfPath × T)

/-- Pointer to the value stored under a key, null when the key is absent (`TfMapLookupPtr`). -/
def TfMapLookupPtr {T : Type} : AdapterMap T → SdfPath → Option T
  | [], _ => none
  | (k, v) :: rest, id => if k = id then some v else TfMapLookupPtr rest id

/-- Insertion that keeps an existing entry (`unordered_map::emplace` / `insert`). -/
def AdapterMap.emplace {T : Type} (m : AdapterMap T) (id : SdfPath) (a : T) : AdapterMap T :=
  match TfMapLookupPtr m id with
  | some _ => m
  | none => m ++ [(id, a)]

/-- Removal of a key (`unordered_map::erase`). -/
def AdapterMap.erase {T : Type} (m : AdapterMap T) (id : SdfPath) : AdapterMap T :=
  m.filter (fun entry => decide (entry.1 ≠ id))

/-- Value a getter gives when no adapter is found (`_GetDefaultValue<R>`, i.e. `R{}`). -/
def _GetDefaultValue (R : Type) [Inhabited R] : R := default

/-- Lookup of an id in a sequence of adapter maps, applying `f` to the first adapter found
(`_GetValue<T, R>`); the maps have been cast to the common adapter type `T`. The getter `f` runs
in a monad `m`: `Id` for a getter that only reads, a state monad for a getter that writes to the
buffers of its caller. -/
def _GetValue {m : Type → Type} [Monad m] {T R : Type} [Inhabited R] (id : SdfPath)
    (f : T → m R) : List (AdapterMap T) → m R
  | [] => pure (_GetDefaultValue R)
  | m0 :: rest =>
    match TfMapLookupPtr m0 id with
    | none => _GetValue id f rest
    | some adapter => f adapter

/-- Cast of the adapters of a map to a base type (the `static_cast<T*>` of the map helpers). -/
def AdapterMap.cast {S T : Type} (up : S → T) (m : AdapterMap S) : AdapterMap T :=
  m.map (fun entry => (entry.1, up entry.2))

/-- Parameters of the delegate (`HdMayaParams`, declared outside of `sceneDelegate.cpp`): the five
members `SetParams` compares. The two motion sample bounds are `float` members, carried as
rationals. -/
structure HdMayaParams where
  textureMemoryPerTexture : Int
  maximumShadowMapResolution : Int
  motionSampleStart : ℚ
  motionSampleEnd : ℚ
  displaySmoothMeshes : Bool
  deriving DecidableEq, Repr

/-! ## The scene delegate -/

/-- Function that builds a material adapter for an id and a Maya object; the result may be null. -/
abbrev MaterialAdapterCreator := SdfPath → MObject → Option HdMayaMaterialAdapter

/-- Services of the delegate context and of the adapter registry, which are defined outside of
`sceneDelegate.cpp`: `HdMayaDelegateCtx::GetMaterialPath` and
`HdMayaAdapterRegistry::GetMaterialAdapterCreator` (null when no creator is registered). -/
structure DelegateCtx where
  GetMaterialPath : MObject → SdfPath
  GetMaterialAdapterCreator : MObject → Option MaterialAdapterCreator

/-- Members of `HdMayaSceneDelegate` the embedded functions use, and the log of the state-changing
adapter calls made so far (oldest first). The four pending lists are empty in a new delegate.
`_params` is the member of the base class `HdMayaDelegate` that holds the parameters. -/
structure HdMayaSceneDelegate where
  _shapeAdapters : AdapterMap HdMayaShapeAdapter
  _lightAdapters : AdapterMap HdMayaLightAdapter
  _cameraAdapters : AdapterMap HdMayaCameraAdapter
  _materialAdapters : AdapterMap HdMayaMaterialAdapter
  _fallbackMaterial : SdfPath
  _enableMaterials : Bool
  calls : List AdapterCall
  warnings : List String
  _addedNodes : List MObject := []
  _adaptersToRecreate : List (SdfPath × MObject) := []
  _adaptersToRebuild : List (SdfPath × Nat) := []
  _materialTagsChanged : List SdfPath := []
  _params : HdMayaParams

namespace HdMayaSceneDelegate

/-- Embedding of `HdMayaSceneDelegate::_CreateMaterial`: whether a material adapter was created, and the delegate
afterwards. -/
def _CreateMaterial (ctx : DelegateCtx) (self : HdMayaSceneDelegate) (id : SdfPath)
    (obj : MObject) : Bool × HdMayaSceneDelegate :=
  match ctx.GetMaterialAdapterCreator obj with
  | none => (false, self)
  | some materialCreator =>
    match materialCreator id obj with
    | none => (false, self)
    | some materialAdapter =>
      if !materialAdapter.IsSupported then (false, self)
      else
        (true,
          { self with
            calls := self.calls ++ [(materialAdapter.GetID, AdapterMethod.Populate),
              (materialAdapter.GetID, AdapterMethod.CreateCallbacks)]
            _materialAdapters := self._materialAdapters.emplace id materialAdapter })

/-- Embedding of `HdMayaSceneDelegate::GetMaterialId`: the material path, and the delegate afterwards. -/
def GetMaterialId (ctx : DelegateCtx) (self : HdMayaSceneDelegate) (id : SdfPath) :
    SdfPath × HdMayaSceneDelegate :=
  if !self._enableMaterials then (SdfPath.empty, self)
  else
    match TfMapLookupPtr self._shapeAdapters id with
    | none => (self._fallbackMaterial, self)
    | some shapeAdapter =>
      let material := shapeAdapter.GetMaterial
      if material = MObject.kNullObj then (self._fallbackMaterial, self)
      else
        let materialId := ctx.GetMaterialPath material
        if (TfMapLookupPtr self._materialAdapters materialId).isSome then (materialId, self)
        else
          let created := _CreateMaterial ctx self materialId material
          (if created.1 then materialId else created.2._fallbackMaterial, created.2)

/-- Embedding of `HdMayaSceneDelegate::SamplePrimvar`: the sample count, computed over the output buffers `times`
and `samples`. -/
def SamplePrimvar (self : HdMayaSceneDelegate) (id : SdfPath) (key : TfToken)
    (maxSampleCount : Nat) : StateM SampleBuffers Nat :=
  if maxSampleCount < 1 then pure 0
  else if id.IsPropertyPath then do
    modify (fun buffers => (buffers.1.set 0 0, buffers.2))
    let value : VtValue :=
      Id.run (_GetValue id.GetPrimPath
        (fun a : HdMayaDagAdapter => (pure (a.GetInstancePrimvar key) : Id VtValue))
        [self._shapeAdapters.cast HdMayaShapeAdapter.toHdMayaDagAdapter])
    modify (fun buffers => (buffers.1, buffers.2.set 0 value))
    pure 1
  else
    _GetValue id (fun a : HdMayaShapeAdapter => a.SamplePrimvar key maxSampleCount)
      [self._shapeAdapters]

/-- Option token of the render index (`HdOptionTokens->parallelRprimSync`). -/
def parallelRprimSync : TfToken := "parallelRprimSync"

/-- Embedding of `HdMayaSceneDelegate::IsEnabled`: the answer, and the warnings issued by the call. -/
def IsEnabled (option : TfToken) : Bool × List String :=
  if option = parallelRprimSync then (false, [])
  else (false, ["HdMayaSceneDelegate::IsEnabled(" ++ option ++ ") -- Unsupported option.\n"])

end HdMayaSceneDelegate

/-! ## The scene delegate: removal, getters, creation of adapters -/

/-- Text of a path (`SdfPath::GetText`). -/
def SdfPath.GetText : SdfPath → String
  | SdfPath.empty => ""
  | SdfPath.prim elements => "/" ++ "/".intercalate elements
  | SdfPath.property elements name => "/" ++ "/".intercalate elements ++ "." ++ name

/-- Path to a node in Maya's DAG (`MDagPath`): the nodes from the root down to the node. The
queries on a path are services of the scene, see `MayaScene`. -/
structure MDagPath where
  nodes : List MObject
  deriving DecidableEq, Repr

/-- Matrix of Maya (`MMatrix`), by rows. -/
structure MMatrix where
  rows : List (List ℚ)
  deriving DecidableEq, Repr

/-- Queries on Maya's DAG the delegate makes. A query that reports failure through an `MStatus`
gives `none`. -/
structure MayaScene where
  /-- `MDagPath::getAPathTo(obj, dag)`; `none` when the status is a failure. -/
  getAPathTo : MObject → Option MDagPath
  /-- `MDagPath::getAllPathsTo(obj, dags)`. -/
  getAllPathsTo : MObject → List MDagPath
  /-- `dag.hasFn(MFn::kTransform)`. -/
  hasFnTransform : MDagPath → Bool
  /-- Children of a path: `dag.child(0)`, ..., `dag.child(dag.childCount() - 1)`. -/
  children : MDagPath → List MObject
  /-- `dag.push(child)`. -/
  push : MDagPath → MObject → MDagPath
  /-- `dag.isInstanced()`. -/
  isInstanced : MDagPath → Bool
  /-- `dag.instanceNumber()`. -/
  instanceNumber : MDagPath → Nat
  /-- `dag.node()`. -/
  node : MDagPath → MObject
  /-- `dag.isValid()`. -/
  isValid : MDagPath → Bool
  /-- `MFnDagNode(dag).isIntermediateObject()`. -/
  isIntermediateObject : MDagPath → Bool
  /-- Text of the plug `ufeRuntime` of the node; `none` when the node has no such plug. -/
  ufeRuntime : MDagPath → Option String
  /-- `MFnDagNode(obj).getPath(path)`. -/
  getPath : MObject → MDagPath
  /-- `MObjectHandle(obj).isValid()`. -/
  isValidHandle : MObject → Bool

/-- Function that builds an adapter for a DAG path; the result may be null. -/
abbrev AdapterCreator (A : Type) := MDagPath → Option A

/-- Rprim of the render index (`HdRprim`): its id and its material id. -/
structure HdRprim where
  GetId : SdfPath
  GetMaterialId : SdfPath

/-- Services the delegate takes from its base classes, from the adapter registry and from the
render index, all defined outside of `sceneDelegate.cpp`; a creator of the registry is `none` when
the registry has no creator for the path. `RebuildFlagPrim` and `RebuildFlagCallbacks` are the two
flags of `HdMayaDelegateCtx::RebuildFlags`. -/
structure SceneCtx extends DelegateCtx where
  scene : MayaScene
  GetPrimPath : MDagPath → Bool → SdfPath
  GetLightsEnabled : Bool
  IsHdSt : Bool
  GetLightAdapterCreator : MDagPath → Option (AdapterCreator HdMayaLightAdapter)
  GetCameraAdapterCreator : MDagPath → Option (AdapterCreator HdMayaCameraAdapter)
  GetShapeAdapterCreator : MDagPath → Option (AdapterCreator HdMayaShapeAdapter)
  GetProxyShapeAdapterCreator : MDagPath → Option (AdapterCreator HdMayaShapeAdapter)
  GetRprimIds : List SdfPath
  GetRprim : SdfPath → Option HdRprim
  GetGfMatrixFromMaya : MMatrix → GfMatrix4d
  RebuildFlagPrim : Nat
  RebuildFlagCallbacks : Nat

namespace HdChangeTracker

/-- Dirty bit `HdChangeTracker::DirtyPrimvar`. -/
def DirtyPrimvar : Nat := 1 <<< 6
/-- Dirty bit `HdChangeTracker::DirtyMaterialId`. -/
def DirtyMaterialId : Nat := 1 <<< 7
/-- Dirty bit `HdChangeTracker::DirtyInstancer`. -/
def DirtyInstancer : Nat := 1 <<< 16
/-- Dirty bit `HdChangeTracker::DirtyInstanceIndex`. -/
def DirtyInstanceIndex : Nat := 1 <<< 17

end HdChangeTracker

/-- Base adapter of a shape adapter (the cast to `HdMayaAdapter*`). -/
def HdMayaShapeAdapter.toAdapter (a : HdMayaShapeAdapter) : HdMayaAdapter :=
  a.toHdMayaDagAdapter.toHdMayaAdapter

/-- Base adapter of a light adapter (the cast to `HdMayaAdapter*`). -/
def HdMayaLightAdapter.toAdapter (a : HdMayaLightAdapter) : HdMayaAdapter :=
  a.toHdMayaDagAdapter.toHdMayaAdapter

/-- Base adapter of a camera adapter (the cast to `HdMayaAdapter*`). -/
def HdMayaCameraAdapter.toAdapter (a : HdMayaCameraAdapter) : HdMayaAdapter :=
  a.toHdMayaDagAdapter.toHdMayaAdapter

/-- One level of the template `_RemoveAdapter<T>`, on its first map `m0`: when the map holds the
id, the calls `f` makes on the adapter and the map without the id; `none` when the map does not
hold the id, in which case the template goes on with the maps that follow. -/
def _RemoveAdapter {S : Type} (id : SdfPath) (f : S → List AdapterCall) (m0 : AdapterMap S) :
    Option (List AdapterCall × AdapterMap S) :=
  match TfMapLookupPtr m0 id with
  | none => none
  | some adapter => some (f adapter, m0.erase id)

/-- One level of the template `_FindAdapter<T>`, on its first map `m0`: the calls `f` makes on the
adapter stored under the id, `none` when the map does not hold the id. -/
def _FindAdapter {S : Type} (id : SdfPath) (f : S → List AdapterCall) (m0 : AdapterMap S) :
    Option (List AdapterCall) :=
  match TfMapLookupPtr m0 id with
  | none => none
  | some adapter => some (f adapter)

namespace HdMayaSceneDelegate

/-- Calls of the function object that `RemoveAdapter` and `RecreateAdapter` pass to
`_RemoveAdapter`: `RemoveCallbacks`, then `RemovePrim`. -/
def removeCalls (a : HdMayaAdapter) : List AdapterCall :=
  [(a.GetID, AdapterMethod.RemoveCallbacks), (a.GetID, AdapterMethod.RemovePrim)]

/-- Embedding of `HdMayaSceneDelegate::RemoveAdapter`: `_RemoveAdapter` over the shape, light and material maps, and
a warning when none of them holds the id. -/
def RemoveAdapter (self : HdMayaSceneDelegate) (id : SdfPath) : HdMayaSceneDelegate :=
  match _RemoveAdapter id (fun a : HdMayaShapeAdapter => removeCalls a.toAdapter)
      self._shapeAdapters with
  | some (made, m) => { self with calls := self.calls ++ made, _shapeAdapters := m }
  | none =>
    match _RemoveAdapter id (fun a : HdMayaLightAdapter => removeCalls a.toAdapter)
        self._lightAdapters with
    | some (made, m) => { self with calls := self.calls ++ made, _lightAdapters := m }
    | none =>
      match _RemoveAdapter id (fun a : HdMayaMaterialAdapter => removeCalls a.toHdMayaAdapter)
          self._materialAdapters with
      | some (made, m) => { self with calls := self.calls ++ made, _materialAdapters := m }
      | none =>
        { self with
          warnings := self.warnings ++
            ["HdMayaSceneDelegate::RemoveAdapter(" ++ id.GetText ++
              ") -- Adapter does not exists"] }

/-- Embedding of `HdMayaSceneDelegate::GetVisible`. -/
def GetVisible (self : HdMayaSceneDelegate) (id : SdfPath) : Bool :=
  Id.run (_GetValue id (fun a : HdMayaDagAdapter => (pure a.GetVisible : Id Bool))
    [self._shapeAdapters.cast HdMayaShapeAdapter.toHdMayaDagAdapter,
      self._lightAdapters.cast HdMayaLightAdapter.toHdMayaDagAdapter])

/-- Embedding of `HdMayaSceneDelegate::GetDoubleSided`. -/
def GetDoubleSided (self : HdMayaSceneDelegate) (id : SdfPath) : Bool :=
  Id.run (_GetValue id (fun a : HdMayaShapeAdapter => (pure a.GetDoubleSided : Id Bool))
    [self._shapeAdapters])

/-- Embedding of `HdMayaSceneDelegate::SampleTransform`: the sample count, computed over the output buffers `times`
and `samples`. -/
def SampleTransform (self : HdMayaSceneDelegate) (id : SdfPath) (maxSampleCount : Nat) :
    StateM TransformBuffers Nat :=
  _GetValue id (fun a : HdMayaDagAdapter => a.SampleTransform maxSampleCount)
    [self._shapeAdapters.cast HdMayaShapeAdapter.toHdMayaDagAdapter,
      self._cameraAdapters.cast HdMayaCameraAdapter.toHdMayaDagAdapter,
      self._lightAdapters.cast HdMayaLightAdapter.toHdMayaDagAdapter]

/-- Embedding of `HdMayaSceneDelegate::Get`. -/
def Get (self : HdMayaSceneDelegate) (id : SdfPath) (key : TfToken) : VtValue :=
  if id.IsPropertyPath then
    Id.run (_GetValue id.GetPrimPath
      (fun a : HdMayaDagAdapter => (pure (a.GetInstancePrimvar key) : Id VtValue))
      [self._shapeAdapters.cast HdMayaShapeAdapter.toHdMayaDagAdapter])
  else
    Id.run (_GetValue id (fun a : HdMayaAdapter => (pure (a.Get key) : Id VtValue))
      [self._shapeAdapters.cast HdMayaShapeAdapter.toAdapter,
        self._cameraAdapters.cast HdMayaCameraAdapter.toAdapter,
        self._lightAdapters.cast HdMayaLightAdapter.toAdapter,
        self._materialAdapters.cast HdMayaMaterialAdapter.toHdMayaAdapter])

/-- Embedding of `HdMayaSceneDelegate::GetInstanceIndices`. -/
def GetInstanceIndices (self : HdMayaSceneDelegate) (instancerId prototypeId : SdfPath) :
    VtIntArray :=
  Id.run (_GetValue instancerId.GetPrimPath
    (fun a : HdMayaDagAdapter => (pure (a.GetInstanceIndices prototypeId) : Id VtIntArray))
    [self._shapeAdapters.cast HdMayaShapeAdapter.toHdMayaDagAdapter])

/-- Embedding of `HdMayaSceneDelegate::GetMaterialResource`; `GetPreviewMaterialResource` is the static function of
`HdMayaMaterialAdapter`, which is defined outside of `sceneDelegate.cpp`. -/
def GetMaterialResource (GetPreviewMaterialResource : SdfPath → VtValue)
    (self : HdMayaSceneDelegate) (id : SdfPath) : VtValue :=
  if id = self._fallbackMaterial then GetPreviewMaterialResource id
  else
    let ret : VtValue :=
      Id.run (_GetValue id
        (fun a : HdMayaMaterialAdapter => (pure a.GetMaterialResource : Id VtValue))
        [self._materialAdapters])
    if ret.IsEmpty then GetPreviewMaterialResource id else ret

/-- Embedding of the member template `HdMayaSceneDelegate::Create`: the adapter it returns (null as `none`), the map
afterwards, and the calls it makes on the new adapter. `up` is the cast of the adapter to its
base. -/
def Create {A : Type} (up : A → HdMayaAdapter) (ctx : SceneCtx) (dag : MDagPath)
    (adapterCreator : Option (AdapterCreator A)) (adapterMap : AdapterMap A) (isSprim : Bool) :
    Option A × AdapterMap A × List AdapterCall :=
  match adapterCreator with
  | none => (none, adapterMap, [])
  | some creator =>
    let id := ctx.GetPrimPath dag isSprim
    if (TfMapLookupPtr adapterMap id).isSome then (none, adapterMap, [])
    else
      match creator dag with
      | none => (none, adapterMap, [])
      | some adapter =>
        if !(up adapter).IsSupported then (none, adapterMap, [])
        else
          (some adapter, adapterMap.emplace id adapter,
            [((up adapter).GetID, AdapterMethod.Populate),
              ((up adapter).GetID, AdapterMethod.CreateCallbacks)])

/-- Embedding of `HdMayaSceneDelegate::NodeAdded`. -/
def NodeAdded (self : HdMayaSceneDelegate) (obj : MObject) : HdMayaSceneDelegate :=
  { self with _addedNodes := self._addedNodes ++ [obj] }

/-- Embedding of `HdMayaSceneDelegate::NodeRemoved`: `std::remove_if` followed by `erase`. -/
def NodeRemoved (self : HdMayaSceneDelegate) (obj : MObject) : HdMayaSceneDelegate :=
  { self with _addedNodes := self._addedNodes.filter (fun item => !decide (item = obj)) }

end HdMayaSceneDelegate


/-! ## The scene delegate: insertion of DAG nodes and the work done before a frame -/

/-- Parameters of one active light of the draw context (`MLightParameterInformation`). A
parameter that `getParameter` fails to fetch is `none`. -/
structure MLightParameterInformation where
  lightPath : MDagPath
  kShadowOn : Option (List Int)
  kShadowViewProj : Option MMatrix

/-- Part of Maya's draw context (`MHWRender::MDrawContext`) that `PreFrame` reads.
`numberOfActiveLights` is `none` when its status is a failure. -/
structure MDrawContext where
  getDisplayStyle : Nat
  numberOfActiveLights : Option Nat
  getLightParameterInformation : Nat → Option MLightParameterInformation

/-- Display style bit `MHWRender::MFrameContext::kDefaultMaterial`. -/
def MFrameContext.kDefaultMaterial : Nat := 1 <<< 4

namespace HdMayaSceneDelegate

/-- Embedding of `HdMayaSceneDelegate::InsertDag`. -/
def InsertDag (ctx : SceneCtx) (self : HdMayaSceneDelegate) (dag : MDagPath) :
    HdMayaSceneDelegate :=
  if ctx.scene.hasFnTransform dag then self
  else if ctx.scene.isIntermediateObject dag then self
  else if ctx.scene.ufeRuntime dag = some "USD" then self
  else
    let light :=
      if ctx.GetLightsEnabled then
        Create HdMayaLightAdapter.toAdapter ctx dag (ctx.GetLightAdapterCreator dag)
          self._lightAdapters true
      else (none, self._lightAdapters, [])
    let s1 := { self with _lightAdapters := light.2.1, calls := self.calls ++ light.2.2 }
    if light.1.isSome then s1
    else
      let camera :=
        Create HdMayaCameraAdapter.toAdapter ctx dag (ctx.GetCameraAdapterCreator dag)
          s1._cameraAdapters true
      let s2 := { s1 with _cameraAdapters := camera.2.1, calls := s1.calls ++ camera.2.2 }
      if camera.1.isSome then s2
      else if ctx.scene.isInstanced dag && decide (ctx.scene.instanceNumber dag > 0) then s2
      else
        let shape :=
          Create HdMayaShapeAdapter.toAdapter ctx dag (ctx.GetShapeAdapterCreator dag)
            s2._shapeAdapters false
        let s3 := { s2 with _shapeAdapters := shape.2.1, calls := s2.calls ++ shape.2.2 }
        let proxy :=
          if shape.1.isSome then (shape.1, s3._shapeAdapters, [])
          else
            Create HdMayaShapeAdapter.toAdapter ctx dag (ctx.GetProxyShapeAdapterCreator dag)
              s3._shapeAdapters false
        let s4 := { s3 with _shapeAdapters := proxy.2.1, calls := s3.calls ++ proxy.2.2 }
        match proxy.1 with
        | none => s4
        | some adapter =>
          let material := adapter.GetMaterial
          if material = MObject.kNullObj then s4
          else
            let materialId := ctx.GetMaterialPath material
            if (TfMapLookupPtr s4._materialAdapters materialId).isSome then s4
            else (_CreateMaterial ctx.toDelegateCtx s4 materialId material).2

/-- Loop of `RecreateAdapterOnIdle` over the pending list: the first entry with the id gets the
object; when there is none, an entry is added at the end. -/
def recreateOnIdle : List (SdfPath × MObject) → SdfPath → MObject → List (SdfPath × MObject)
  | [], id, obj => [(id, obj)]
  | (k, o) :: rest, id, obj =>
    if k = id then (k, obj) :: rest else (k, o) :: recreateOnIdle rest id obj

/-- Embedding of `HdMayaSceneDelegate::RecreateAdapterOnIdle`. -/
def RecreateAdapterOnIdle (self : HdMayaSceneDelegate) (id : SdfPath) (obj : MObject) :
    HdMayaSceneDelegate :=
  { self with _adaptersToRecreate := recreateOnIdle self._adaptersToRecreate id obj }

/-- Loop of `RebuildAdapterOnIdle` over the pending list: the first entry with the id gets the
flags or-ed into its own; when there is none, an entry is added at the end. -/
def rebuildOnIdle : List (SdfPath × Nat) → SdfPath → Nat → List (SdfPath × Nat)
  | [], id, flags => [(id, flags)]
  | (k, f) :: rest, id, flags =>
    if k = id then (k, f ||| flags) :: rest else (k, f) :: rebuildOnIdle rest id flags

/-- Embedding of `HdMayaSceneDelegate::RebuildAdapterOnIdle`. -/
def RebuildAdapterOnIdle (self : HdMayaSceneDelegate) (id : SdfPath) (flags : Nat) :
    HdMayaSceneDelegate :=
  { self with _adaptersToRebuild := rebuildOnIdle self._adaptersToRebuild id flags }

/-- Embedding of `HdMayaSceneDelegate::AddNewInstance`. -/
def AddNewInstance (ctx : SceneCtx) (self : HdMayaSceneDelegate) (dag : MDagPath) :
    HdMayaSceneDelegate :=
  let dags := ctx.scene.getAllPathsTo (ctx.scene.node dag)
  match dags with
  | [] => self
  | masterDag :: _ =>
    let id := ctx.GetPrimPath masterDag false
    match TfMapLookupPtr self._shapeAdapters id with
    | none => self
    | some masterAdapter =>
      if dags.length = 1 ∨ masterAdapter.IsInstanced = false then
        RecreateAdapterOnIdle self id (ctx.scene.node masterDag)
      else
        let s := RebuildAdapterOnIdle self id ctx.RebuildFlagCallbacks
        { s with
          calls := s.calls ++
            [(masterAdapter.GetID,
              AdapterMethod.MarkDirty
                (HdChangeTracker.DirtyInstancer ||| HdChangeTracker.DirtyInstanceIndex |||
                  HdChangeTracker.DirtyPrimvar))] }

/-- Part of `RecreateAdapter` that follows the removal of a shape or light adapter: the DAG path of
the object is inserted again when the path and the object are still valid. -/
def RecreateAdapter.reinsert (ctx : SceneCtx) (s : HdMayaSceneDelegate) (obj : MObject) :
    HdMayaSceneDelegate :=
  let path := ctx.scene.getPath obj
  if ctx.scene.isValid path && ctx.scene.isValidHandle obj then InsertDag ctx s path else s

/-- Calls of the loop of `RecreateAdapter` over the rprims of the render index: every rprim that
uses the material is marked dirty for its material id. -/
def RecreateAdapter.markRprims (ctx : SceneCtx) (id : SdfPath) : List AdapterCall :=
  ctx.GetRprimIds.filterMap (fun rprimId =>
    match ctx.GetRprim rprimId with
    | none => none
    | some rprim =>
      if rprim.GetMaterialId = id then
        some (rprimId, AdapterMethod.MarkRprimDirty HdChangeTracker.DirtyMaterialId)
      else none)

/-- Embedding of `HdMayaSceneDelegate::RecreateAdapter`. -/
def RecreateAdapter (ctx : SceneCtx) (self : HdMayaSceneDelegate) (id : SdfPath) (obj : MObject) :
    HdMayaSceneDelegate :=
  match _RemoveAdapter id (fun a : HdMayaShapeAdapter => removeCalls a.toAdapter)
      self._shapeAdapters with
  | some (made, m) =>
    RecreateAdapter.reinsert ctx
      { self with calls := self.calls ++ made, _shapeAdapters := m } obj
  | none =>
    match _RemoveAdapter id (fun a : HdMayaLightAdapter => removeCalls a.toAdapter)
        self._lightAdapters with
    | some (made, m) =>
      RecreateAdapter.reinsert ctx
        { self with calls := self.calls ++ made, _lightAdapters := m } obj
    | none =>
      match _RemoveAdapter id (fun a : HdMayaMaterialAdapter => removeCalls a.toHdMayaAdapter)
          self._materialAdapters with
      | some (made, m) =>
        let s : HdMayaSceneDelegate :=
          { self with
            calls := self.calls ++ made ++ RecreateAdapter.markRprims ctx id
            _materialAdapters := m }
        if ctx.scene.isValidHandle obj then
          (_CreateMaterial ctx.toDelegateCtx s (ctx.GetMaterialPath obj) obj).2
        else s
      | none =>
        { self with
          warnings := self.warnings ++
            ["HdMayaSceneDelegate::RecreateAdapterOnIdle(" ++ id.GetText ++
              ") -- Adapter does not exists"] }

end HdMayaSceneDelegate


namespace HdMayaSceneDelegate

namespace PreFrame

/-- Value of the local `enableMaterials` of `PreFrame`: the display style does not have the
default-material bit. -/
def enableMaterials (context : MDrawContext) : Bool :=
  decide (context.getDisplayStyle &&& MFrameContext.kDefaultMaterial = 0)

/-- First block of `PreFrame`: when the flag for materials changes it is stored and every shape
adapter is marked dirty for its material id. -/
def materials (self : HdMayaSceneDelegate) (context : MDrawContext) : HdMayaSceneDelegate :=
  if enableMaterials context ≠ self._enableMaterials then
    { self with
      _enableMaterials := enableMaterials context
      calls := self.calls ++
        self._shapeAdapters.map (fun shape =>
          (shape.2.GetID, AdapterMethod.MarkDirty HdChangeTracker.DirtyMaterialId)) }
  else self

/-- Body of the loop of `PreFrame` over `_materialTagsChanged`, for one id: the material adapter of
the id, when there is one, updates its material tag, and when it reports a change every rprim that
uses the material is scheduled for a rebuild of its prim. -/
def materialTag (ctx : SceneCtx) (s : HdMayaSceneDelegate) (id : SdfPath) :
    HdMayaSceneDelegate :=
  match TfMapLookupPtr s._materialAdapters id with
  | none => s
  | some a =>
    let s1 := { s with calls := s.calls ++ [(a.GetID, AdapterMethod.UpdateMaterialTag)] }
    if a.UpdateMaterialTag then
      ctx.GetRprimIds.foldl (fun acc rprimId =>
        match ctx.GetRprim rprimId with
        | none => acc
        | some rprim =>
          if rprim.GetMaterialId = id then
            RebuildAdapterOnIdle acc rprim.GetId ctx.RebuildFlagPrim
          else acc) s1
    else s1

/-- Second block of `PreFrame`: the pending material tag changes. -/
def materialTags (ctx : SceneCtx) (self : HdMayaSceneDelegate) : HdMayaSceneDelegate :=
  if self._materialTagsChanged ≠ [] then
    let s := if ctx.IsHdSt then self._materialTagsChanged.foldl (materialTag ctx) self else self
    { s with _materialTagsChanged := [] }
  else self

/-- Body of the loop of `PreFrame` over `_addedNodes` for a node whose DAG path is resolved: below
a transform every instanced child of instance number above 0 is added as a new instance, and any
other path is inserted. -/
def addNode (ctx : SceneCtx) (s : HdMayaSceneDelegate) (dag : MDagPath) : HdMayaSceneDelegate :=
  if ctx.scene.hasFnTransform dag then
    (ctx.scene.children dag).foldl (fun acc child =>
      let dagCopy := ctx.scene.push dag child
      if ctx.scene.isInstanced dagCopy && decide (ctx.scene.instanceNumber dagCopy > 0) then
        AddNewInstance ctx acc dagCopy
      else acc) s
  else InsertDag ctx s dag

/-- Loop of `PreFrame` over `_addedNodes`. The Boolean is false when the loop has left `PreFrame`
through the `return` that follows a failure of `MDagPath::getAPathTo`. -/
def addedNodesLoop (ctx : SceneCtx) : List MObject → HdMayaSceneDelegate →
    Bool × HdMayaSceneDelegate
  | [], s => (true, s)
  | obj :: rest, s =>
    if obj.isNull then addedNodesLoop ctx rest s
    else
      match ctx.scene.getAPathTo obj with
      | none => (false, s)
      | some dag => addedNodesLoop ctx rest (addNode ctx s dag)

/-- Inner loop of the fourth block of `PreFrame`: the first entry with the id is erased from the
pending rebuilds. -/
def eraseRebuild : List (SdfPath × Nat) → SdfPath → List (SdfPath × Nat)
  | [], _ => []
  | (k, f) :: rest, id => if id = k then rest else (k, f) :: eraseRebuild rest id

/-- Fourth block of `PreFrame`: every pending adapter is recreated and is dropped from the pending
rebuilds, then the pending list is cleared. -/
def recreate (ctx : SceneCtx) (self : HdMayaSceneDelegate) : HdMayaSceneDelegate :=
  if self._adaptersToRecreate ≠ [] then
    let s := self._adaptersToRecreate.foldl (fun acc it =>
      let s1 := RecreateAdapter ctx acc it.1 it.2
      { s1 with _adaptersToRebuild := eraseRebuild s1._adaptersToRebuild it.1 }) self
    { s with _adaptersToRecreate := [] }
  else self

/-- Calls of the function object of the fifth block of `PreFrame` on the adapter it finds. -/
def rebuildCalls (ctx : SceneCtx) (flags : Nat) (a : HdMayaAdapter) : List AdapterCall :=
  (if flags &&& ctx.RebuildFlagCallbacks ≠ 0 then
    [(a.GetID, AdapterMethod.RemoveCallbacks), (a.GetID, AdapterMethod.CreateCallbacks)]
  else []) ++
  (if flags &&& ctx.RebuildFlagPrim ≠ 0 then
    [(a.GetID, AdapterMethod.RemovePrim), (a.GetID, AdapterMethod.Populate)]
  else [])

/-- Body of the loop of the fifth block of `PreFrame`: `_FindAdapter` over the shape, light and
material maps. -/
def rebuildOne (ctx : SceneCtx) (s : HdMayaSceneDelegate) (it : SdfPath × Nat) :
    HdMayaSceneDelegate :=
  match _FindAdapter it.1 (fun a : HdMayaShapeAdapter => rebuildCalls ctx it.2 a.toAdapter)
      s._shapeAdapters with
  | some made => { s with calls := s.calls ++ made }
  | none =>
    match _FindAdapter it.1 (fun a : HdMayaLightAdapter => rebuildCalls ctx it.2 a.toAdapter)
        s._lightAdapters with
    | some made => { s with calls := s.calls ++ made }
    | none =>
      match _FindAdapter it.1
          (fun a : HdMayaMaterialAdapter => rebuildCalls ctx it.2 a.toHdMayaAdapter)
          s._materialAdapters with
      | some made => { s with calls := s.calls ++ made }
      | none => s

/-- Fifth block of `PreFrame`: every pending adapter is rebuilt, then the pending list is
cleared. -/
def rebuild (ctx : SceneCtx) (self : HdMayaSceneDelegate) : HdMayaSceneDelegate :=
  if self._adaptersToRebuild ≠ [] then
    let s := self._adaptersToRebuild.foldl (rebuildOne ctx) self
    { s with _adaptersToRebuild := [] }
  else self

/-- Body of the loop of the last block of `PreFrame`, for the light of index `i`. -/
def shadowOne (ctx : SceneCtx) (context : MDrawContext) (s : HdMayaSceneDelegate) (i : Nat) :
    HdMayaSceneDelegate :=
  match context.getLightParameterInformation i with
  | none => s
  | some lightParam =>
    if !ctx.scene.isValid lightParam.lightPath then s
    else
      match lightParam.kShadowOn with
      | none => s
      | some intVals =>
        if intVals.length < 1 ∨ intVals.head? ≠ some 1 then s
        else
          match lightParam.kShadowViewProj with
          | none => s
          | some matrixVal =>
            match _FindAdapter (ctx.GetPrimPath lightParam.lightPath true)
                (fun a : HdMayaLightAdapter =>
                  [(a.GetID,
                    AdapterMethod.SetShadowProjectionMatrix
                      (ctx.GetGfMatrixFromMaya matrixVal))])
                s._lightAdapters with
            | some made => { s with calls := s.calls ++ made }
            | none => s

/-- Last block of `PreFrame`: the shadow projection matrices of the active lights. -/
def shadows (ctx : SceneCtx) (context : MDrawContext) (self : HdMayaSceneDelegate) :
    HdMayaSceneDelegate :=
  if !ctx.IsHdSt then self
  else
    match context.numberOfActiveLights with
    | none => self
    | some numLights =>
      if numLights = 0 then self
      else (List.range numLights).foldl (shadowOne ctx context) self

/-- Third block of `PreFrame`, the pending added nodes: the Boolean is false when `PreFrame`
returns from inside the loop, in which case `_addedNodes` is not cleared. -/
def addedNodes (ctx : SceneCtx) (self : HdMayaSceneDelegate) : Bool × HdMayaSceneDelegate :=
  if self._addedNodes ≠ [] then
    match addedNodesLoop ctx self._addedNodes self with
    | (false, s) => (false, s)
    | (true, s) => (true, { s with _addedNodes := [] })
  else (true, self)

end PreFrame

/-- Embedding of `HdMayaSceneDelegate::PreFrame`: its six blocks in order, the blocks after the third being skipped
when the third returns. -/
def PreFrame (ctx : SceneCtx) (self : HdMayaSceneDelegate) (context : MDrawContext) :
    HdMayaSceneDelegate :=
  let s2 := PreFrame.materialTags ctx (PreFrame.materials self context)
  match PreFrame.addedNodes ctx s2 with
  | (false, s3) => s3
  | (true, s3) => PreFrame.shadows ctx context (PreFrame.rebuild ctx (PreFrame.recreate ctx s3))

end HdMayaSceneDelegate


/-! ## The scene delegate: parameters -/

namespace HdChangeTracker

/-- Dirty bit `HdChangeTracker::DirtyPoints`. -/
def DirtyPoints : Nat := 1 <<< 5
/-- Dirty bit `HdChangeTracker::DirtyTopology`. -/
def DirtyTopology : Nat := 1 <<< 8
/-- Dirty bit `HdChangeTracker::DirtyTransform`. -/
def DirtyTransform : Nat := 1 <<< 9

end HdChangeTracker

namespace HdPrimTypeTokens

/-- Prim type token `HdPrimTypeTokens->mesh`. -/
def mesh : TfToken := "mesh"
/-- Prim type token `HdPrimTypeTokens->camera`. -/
def camera : TfToken := "camera"

end HdPrimTypeTokens

/-- Dirty bits of the state prims that `SetParams` names: `HdCamera::DirtyParams`,
`HdMaterial::AllDirty` and `HdLight::AllDirty`. Their values are those of the rendering library
the delegate is built against, and are left open. -/
structure SprimDirtyBits where
  HdCamera_DirtyParams : Nat
  HdMaterial_AllDirty : Nat
  HdLight_AllDirty : Nat

/-- Calls of the template `_MapAdapter<T>`: the function object `f` on every adapter of every map,
map after map, each map in its own order; the maps have been cast to the common adapter type
`T`. -/
def _MapAdapter {T : Type} (f : T → List AdapterCall) : List (AdapterMap T) → List AdapterCall
  | [] => []
  | m0 :: m => (m0.map (fun it => f it.2)).flatten ++ _MapAdapter f m

namespace HdMayaDelegate

/-- Modelled from the spec: the method `GetParams` of the base class `HdMayaDelegate`, which is
defined outside of `sceneDelegate.cpp`, gives the parameters the delegate has stored. -/
def GetParams (self : HdMayaSceneDelegate) : HdMayaParams := self._params

/-- Modelled from the spec: the method `SetParams` of the base class `HdMayaDelegate`, which is
defined outside of `sceneDelegate.cpp`, stores the new parameters. -/
def SetParams (self : HdMayaSceneDelegate) (params : HdMayaParams) : HdMayaSceneDelegate :=
  { self with _params := params }

end HdMayaDelegate

namespace HdMayaSceneDelegate

namespace SetParams

/-- Function object of the first block of `SetParams`: a mesh is marked dirty for its topology. -/
def smoothMeshes (a : HdMayaDagAdapter) : List AdapterCall :=
  if a.HasType HdPrimTypeTokens.mesh then
    [(a.GetID, AdapterMethod.MarkDirty HdChangeTracker.DirtyTopology)]
  else []

/-- Function object of the second block of `SetParams`: a mesh is marked dirty for its points,
else a camera for its parameters; then the transform is invalidated and marked dirty. -/
def motionSamples (bits : SprimDirtyBits) (a : HdMayaDagAdapter) : List AdapterCall :=
  (if a.HasType HdPrimTypeTokens.mesh then
    [(a.GetID, AdapterMethod.MarkDirty HdChangeTracker.DirtyPoints)]
  else if a.HasType HdPrimTypeTokens.camera then
    [(a.GetID, AdapterMethod.MarkDirty bits.HdCamera_DirtyParams)]
  else []) ++
  [(a.GetID, AdapterMethod.InvalidateTransform),
    (a.GetID, AdapterMethod.MarkDirty HdChangeTracker.DirtyTransform)]

/-- Function object of the third block of `SetParams`. -/
def textureMemory (bits : SprimDirtyBits) (a : HdMayaMaterialAdapter) : List AdapterCall :=
  [(a.GetID, AdapterMethod.MarkDirty bits.HdMaterial_AllDirty)]

/-- Function object of the fourth block of `SetParams`. -/
def shadowMapResolution (bits : SprimDirtyBits) (a : HdMayaLightAdapter) : List AdapterCall :=
  [(a.GetID, AdapterMethod.MarkDirty bits.HdLight_AllDirty)]

end SetParams

/-- Embedding of `HdMayaSceneDelegate::SetParams`: the calls of its four blocks, each made when the parameters it
compares differ, then the call of the base `SetParams` with the new parameters. -/
def SetParams (bits : SprimDirtyBits) (self : HdMayaSceneDelegate) (params : HdMayaParams) :
    HdMayaSceneDelegate :=
  let oldParams := HdMayaDelegate.GetParams self
  let made1 :=
    if oldParams.displaySmoothMeshes ≠ params.displaySmoothMeshes then
      _MapAdapter SetParams.smoothMeshes
        [self._shapeAdapters.cast HdMayaShapeAdapter.toHdMayaDagAdapter]
    else []
  let made2 :=
    if oldParams.motionSampleStart ≠ params.motionSampleStart
        ∨ oldParams.motionSampleEnd ≠ params.motionSampleEnd then
      _MapAdapter (SetParams.motionSamples bits)
        [self._shapeAdapters.cast HdMayaShapeAdapter.toHdMayaDagAdapter,
          self._lightAdapters.cast HdMayaLightAdapter.toHdMayaDagAdapter,
          self._cameraAdapters.cast HdMayaCameraAdapter.toHdMayaDagAdapter]
    else []
  let made3 :=
    if oldParams.textureMemoryPerTexture ≠ params.textureMemoryPerTexture then
      _MapAdapter (SetParams.textureMemory bits) [self._materialAdapters]
    else []
  let made4 :=
    if oldParams.maximumShadowMapResolution ≠ params.maximumShadowMapResolution then
      _MapAdapter (SetParams.shadowMapResolution bits) [self._lightAdapters]
    else []
  HdMayaDelegate.SetParams
    { self with calls := self.calls ++ made1 ++ made2 ++ made3 ++ made4 } params

end HdMayaSceneDelegate


/-! ## Vocabulary of the statements about `PreFrame` -/

/-- Calls that remove the callbacks or the prim of an adapter, which is what the recreation and
the rebuild of an adapter start with, and the update of a shadow matrix. -/
def AdapterMethod.removesOrShadows : AdapterMethod → Bool
  | AdapterMethod.RemoveCallbacks => true
  | AdapterMethod.RemovePrim => true
  | AdapterMethod.SetShadowProjectionMatrix _ => true
  | _ => false

namespace HdMayaSceneDelegate

/-- Relation between the delegate before and after a piece of work that leaves the pending work
pending: the added nodes are the same; every id pending for recreation or for rebuild is still
pending, at the same place, ids being added at the end only; and the calls made are added to the
log, none of them removing callbacks or a prim or updating a shadow matrix. -/
def LeftPending (s s' : HdMayaSceneDelegate) : Prop :=
  s'._addedNodes = s._addedNodes ∧
  s._adaptersToRecreate.map Prod.fst <+: s'._adaptersToRecreate.map Prod.fst ∧
  s._adaptersToRebuild.map Prod.fst <+: s'._adaptersToRebuild.map Prod.fst ∧
  ∃ made, s'.calls = s.calls ++ made ∧ ∀ call ∈ made, call.2.removesOrShadows = false

/-- Relation between the delegate before and after a piece of work that keeps the flag for
materials and leaves the pending work pending. -/
def Scheduled (s s' : HdMayaSceneDelegate) : Prop :=
  s'._enableMaterials = s._enableMaterials ∧ LeftPending s s'

/-- Relation between the delegate before and after a piece of work that keeps the flag for
materials and only adds to the log of calls. -/
def KeepsMaterialsFlag (s s' : HdMayaSceneDelegate) : Prop :=
  s'._enableMaterials = s._enableMaterials ∧ s.calls <+: s'.calls

/-- The DAG paths of the nodes of a list that are not null and whose path is resolved, in the order
of the list. -/
def resolvedPaths (ctx : SceneCtx) (nodes : List MObject) : List MDagPath :=
  nodes.filterMap (fun obj => if obj.isNull then none else ctx.scene.getAPathTo obj)

end HdMayaSceneDelegate


/-- The context in which `MDagPath::getAPathTo` answers `path` for the node `obj` and is as in
`ctx` for every other node. -/
def SceneCtx.withPathTo (ctx : SceneCtx) (obj : MObject) (path : Option MDagPath) : SceneCtx :=
  { ctx with
    scene :=
      { ctx.scene with
        getAPathTo := fun node => if node = obj then path else ctx.scene.getAPathTo node } }


/-! ## Shader attribute definitions (`UsdShaderAttributeDef.cpp`) -/

namespace Ufe

/-- Value of the generic scene-editing interface (`Ufe::Value`), restricted to the two kinds the
embedded code produces: the empty value `Ufe::Value()` and a value holding a string. A value that
holds the empty string is not the empty value. -/
inductive Value where
  | none : Value
  | string (s : String) : Value
  deriving DecidableEq, Repr

/-- Test of `Ufe::Value::empty()`: the value holds nothing. -/
def Value.empty : Value → Bool
  | Value.none => true
  | Value.string _ => false

namespace Attribute

/-- Type name `Ufe::Attribute::kFloat`. -/
def kFloat : String := "Float"
/-- Type name `Ufe::Attribute::kFloat3`. -/
def kFloat3 : String := "Float3"
/-- Type name `Ufe::Attribute::kColorFloat3`. -/
def kColorFloat3 : String := "ColorFloat3"
/-- Type name `Ufe::Attribute::kDouble`. -/
def kDouble : String := "Double"
/-- Type name `Ufe::Attribute::kFloat2`. -/
def kFloat2 : String := "Float2"
/-- Type name `Ufe::Attribute::kFloat4`. -/
def kFloat4 : String := "Float4"
/-- Type name `Ufe::Attribute::kColorFloat4`. -/
def kColorFloat4 : String := "ColorFloat4"

end Attribute

/-- Direction of an attribute (`Ufe::AttributeDef::IOType`). -/
inductive AttributeDef.IOType where
  | INPUT_ATTR
  | OUTPUT_ATTR
  deriving DecidableEq, Repr

end Ufe

/-- String map keyed by token (`NdrTokenMap`, an `std::unordered_map<TfToken, std::string>`). -/
abbrev NdrTokenMap := List (TfToken × String)

/-- Entry stored under a key (`find` compared with `cend()`): the first entry with the key. -/
def NdrTokenMap.find : NdrTokenMap → TfToken → Option String
  | [], _ => none
  | (k, v) :: rest, key => if k = key then some v else NdrTokenMap.find rest key

/-- Accessors of a shader property (`SdrShaderProperty`) the embedded code reads. -/
structure SdrShaderProperty where
  GetName : TfToken
  GetLabel : TfToken
  GetHelp : String
  GetPage : TfToken
  GetOptions : List (TfToken × TfToken)
  GetMetadata : NdrTokenMap
  GetHints : NdrTokenMap
  GetDefaultValue : VtValue
  IsOutput : Bool

/-- Metadata tokens of `mayaUsd/base/tokens.h` that `UsdShaderAttributeDef.cpp` names; the header
is not part of the embedded files, so their strings are left open. -/
structure MayaUsdMetadataTokens where
  UIName : TfToken
  UIFolder : TfToken
  UIMin : TfToken
  UIMax : TfToken
  UISoftMin : TfToken
  UISoftMax : TfToken

/-- What `UsdShaderAttributeDef.cpp` takes from other files: the metadata tokens, the helpers
`UsdMayaUtil::prettifyName` and `usdTypeToUfe`, the streaming of a default value into text, and
whether the build defines `UFE_V4_FEATURES_AVAILABLE`. -/
structure ShaderEnv where
  MayaUsdMetadata : MayaUsdMetadataTokens
  prettifyName : String → String
  usdTypeToUfe : SdrShaderProperty → String
  streamValue : VtValue → String
  UFE_V4_FEATURES_AVAILABLE : Bool

namespace MetaMap

/-- Conversion registered under the UI name token: the label, or the prettified name when the
label is empty. -/
def uiName (env : ShaderEnv) (p : SdrShaderProperty) : Ufe.Value :=
  if ¬ p.GetLabel = "" then Ufe.Value.string p.GetLabel
  else Ufe.Value.string (env.prettifyName p.GetName)

/-- Conversion registered under `"doc"`: the help text when there is one. -/
def doc (p : SdrShaderProperty) : Ufe.Value :=
  if ¬ p.GetHelp = "" then Ufe.Value.string p.GetHelp else Ufe.Value.none

/-- Conversion registered under the UI folder token: the page when there is one. -/
def uiFolder (p : SdrShaderProperty) : Ufe.Value :=
  if ¬ p.GetPage = "" then Ufe.Value.string p.GetPage else Ufe.Value.none

/-- One round of the loop of the `"enum"` conversion. -/
def enumStep (r : String) (opt : TfToken × TfToken) : String :=
  (if ¬ r = "" then r ++ ", " else r) ++ opt.1

/-- Conversion registered under `"enum"`. -/
def enum (p : SdrShaderProperty) : Ufe.Value :=
  let r := p.GetOptions.foldl enumStep ""
  if ¬ r = "" then Ufe.Value.string r else Ufe.Value.none

/-- One round of the loop of the `"enumvalues"` conversion. -/
def enumvaluesStep (r : String) (opt : TfToken × TfToken) : String :=
  if opt.2 = "" then r
  else (if ¬ r = "" then r ++ ", " else r) ++ opt.2

/-- Conversion registered under `"enumvalues"`. -/
def enumvalues (p : SdrShaderProperty) : Ufe.Value :=
  let r := p.GetOptions.foldl enumvaluesStep ""
  if ¬ r = "" then Ufe.Value.string r else Ufe.Value.none

/-- Entry stored under a type name in a table of defaults: the first entry with the name. -/
def findDefault : List (String × Ufe.Value) → String → Option Ufe.Value
  | [], _ => none
  | (k, v) :: rest, key => if k = key then some v else findDefault rest key

/-- Table `defaultSoftMin` of the soft-min conversion. -/
def defaultSoftMin (env : ShaderEnv) : List (String × Ufe.Value) :=
  [ (Ufe.Attribute.kFloat, Ufe.Value.string "0"),
    (Ufe.Attribute.kFloat3, Ufe.Value.string "0,0,0"),
    (Ufe.Attribute.kColorFloat3, Ufe.Value.string "0,0,0"),
    (Ufe.Attribute.kDouble, Ufe.Value.string "0") ] ++
  (if env.UFE_V4_FEATURES_AVAILABLE then
    [ (Ufe.Attribute.kFloat2, Ufe.Value.string "0,0"),
      (Ufe.Attribute.kFloat4, Ufe.Value.string "0,0,0,0"),
      (Ufe.Attribute.kColorFloat4, Ufe.Value.string "0,0,0,0") ]
  else [])

/-- Table `defaultSoftMax` of the soft-max conversion. -/
def defaultSoftMax (env : ShaderEnv) : List (String × Ufe.Value) :=
  [ (Ufe.Attribute.kFloat, Ufe.Value.string "1"),
    (Ufe.Attribute.kFloat3, Ufe.Value.string "1,1,1"),
    (Ufe.Attribute.kColorFloat3, Ufe.Value.string "1,1,1"),
    (Ufe.Attribute.kDouble, Ufe.Value.string "1") ] ++
  (if env.UFE_V4_FEATURES_AVAILABLE then
    [ (Ufe.Attribute.kFloat2, Ufe.Value.string "1,1"),
      (Ufe.Attribute.kFloat4, Ufe.Value.string "1,1,1,1"),
      (Ufe.Attribute.kColorFloat4, Ufe.Value.string "1,1,1,1") ]
  else [])

/-- Conversion registered under the soft-min token. -/
def uiSoftMin (env : ShaderEnv) (p : SdrShaderProperty) : Ufe.Value :=
  match p.GetMetadata.find env.MayaUsdMetadata.UIMin with
  | some v => Ufe.Value.string v
  | none =>
    match findDefault (defaultSoftMin env) (env.usdTypeToUfe p) with
    | some d => d
    | none => Ufe.Value.none

/-- Conversion registered under the soft-max token. -/
def uiSoftMax (env : ShaderEnv) (p : SdrShaderProperty) : Ufe.Value :=
  match p.GetMetadata.find env.MayaUsdMetadata.UIMax with
  | some v => Ufe.Value.string v
  | none =>
    match findDefault (defaultSoftMax env) (env.usdTypeToUfe p) with
    | some d => d
    | none => Ufe.Value.none

end MetaMap

/-- Table of conversions (`MetadataMap`): key and conversion, in the order of the initialiser. -/
abbrev MetadataMap := List (String × (SdrShaderProperty → Ufe.Value))

/-- Conversion stored under a key (`_metaMap.find`): the first entry with the key. The C++
container keeps one entry per key, so the table behaves as written only when its keys differ. -/
def MetadataMap.find : MetadataMap → String → Option (SdrShaderProperty → Ufe.Value)
  | [], _ => none
  | (k, f) :: rest, key => if k = key then some f else MetadataMap.find rest key

/-- Table `_metaMap` of `UsdShaderAttributeDef.cpp`. -/
def _metaMap (env : ShaderEnv) : MetadataMap :=
  [ (env.MayaUsdMetadata.UIName, MetaMap.uiName env),
    ("doc", MetaMap.doc),
    (env.MayaUsdMetadata.UIFolder, MetaMap.uiFolder),
    ("enum", MetaMap.enum),
    ("enumvalues", MetaMap.enumvalues),
    (env.MayaUsdMetadata.UISoftMin, MetaMap.uiSoftMin env),
    (env.MayaUsdMetadata.UISoftMax, MetaMap.uiSoftMax env) ]

/-- Keys of `_metaMap`, in the order of the initialiser. -/
def _metaMapKeys (env : ShaderEnv) : List String := (_metaMap env).map Prod.fst

/-- Object state of `UsdShaderAttributeDef`: the pointer `fShaderAttributeDef`. -/
structure UsdShaderAttributeDef where
  fShaderAttributeDef : Option SdrShaderProperty

namespace UsdShaderAttributeDef

/-- Constructor of `UsdShaderAttributeDef`: throws `std::runtime_error` when `TF_VERIFY` of the pointer fails. -/
def create (shaderAttributeDef : Option SdrShaderProperty) : Except String UsdShaderAttributeDef :=
  let self : UsdShaderAttributeDef := { fShaderAttributeDef := shaderAttributeDef }
  if ¬ self.fShaderAttributeDef.isSome then
    Except.error "Invalid shader attribute definition"
  else Except.ok self

/-- Method `name()`; no result is defined when the pointer it dereferences is null. -/
def name (self : UsdShaderAttributeDef) : Option String :=
  match self.fShaderAttributeDef with
  | none => none
  | some p => some p.GetName

/-- Method `type()`; no result is defined when the pointer it dereferences is null. -/
def type (env : ShaderEnv) (self : UsdShaderAttributeDef) : Option String :=
  match self.fShaderAttributeDef with
  | none => none
  | some p => some (env.usdTypeToUfe p)

/-- Method `defaultValue()`; no result is defined when the pointer it dereferences is null. -/
def defaultValue (env : ShaderEnv) (self : UsdShaderAttributeDef) : Option String :=
  match self.fShaderAttributeDef with
  | none => none
  | some p => some (env.streamValue p.GetDefaultValue)

/-- Method `ioType()`; no result is defined when the pointer it dereferences is null. -/
def ioType (self : UsdShaderAttributeDef) : Option Ufe.AttributeDef.IOType :=
  match self.fShaderAttributeDef with
  | none => none
  | some p =>
    some (if p.IsOutput then Ufe.AttributeDef.IOType.OUTPUT_ATTR
      else Ufe.AttributeDef.IOType.INPUT_ATTR)

/-- Method `getMetadata(key)`; no result is defined when the pointer it dereferences is null. -/
def getMetadata (env : ShaderEnv) (self : UsdShaderAttributeDef) (key : String) :
    Option Ufe.Value :=
  match self.fShaderAttributeDef with
  | none => none
  | some p =>
    match p.GetMetadata.find key with
    | some v => some (Ufe.Value.string v)
    | none =>
      match p.GetHints.find key with
      | some v => some (Ufe.Value.string v)
      | none =>
        match (_metaMap env).find key with
        | some mapper => some (mapper p)
        | none => some Ufe.Value.none

/-- Method `hasMetadata(key)`; no result is defined when the pointer it dereferences is null. -/
def hasMetadata (env : ShaderEnv) (self : UsdShaderAttributeDef) (key : String) : Option Bool :=
  match self.fShaderAttributeDef with
  | none => none
  | some p =>
    match p.GetMetadata.find key with
    | some _ => some true
    | none =>
      match p.GetHints.find key with
      | some _ => some true
      | none =>
        match (_metaMap env).find key with
        | some mapper => if !(mapper p).empty then some true else some false
        | none => some false

end UsdShaderAttributeDef

/-! ## Rotate command (`UsdRotateUndoableCommand.cpp`) -/

/-- Exception in flight (`std::exception_ptr` that is not null), reduced to its message. -/
abbrev Exception := String

/-- Call that may throw, over a world `W` (the stage and the state of the base classes of the
command): the value it returns or the exception it throws, and the world it leaves. -/
abbrev Effect (W α : Type) := W → Except Exception α × W

/-- What `UsdRotateUndoableCommand.cpp` calls in other files: the test
`UsdGeomXformCommonAPI(prim())`, the helper `convertToCompatibleCommonAPI(prim())`, and the
methods `perform` and `undoImp` of the base class `UsdTRSUndoableCommandBase`. -/
structure RotateEnv (W : Type) where
  isCommonAPI : Effect W Bool
  convertToCompatibleCommonAPI : Effect W Unit
  perform : ℚ → ℚ → ℚ → Effect W Unit
  undoImp : Effect W Unit

/-- Member of `UsdRotateUndoableCommand` the embedded functions use: `fFailedInit`, null as
`none`. -/
structure UsdRotateUndoableCommand where
  fFailedInit : Option Exception

namespace UsdRotateUndoableCommand

/-- Block guarded by `try` in the constructor. -/
def initBody {W : Type} (env : RotateEnv W) : Effect W Unit := fun w =>
  match env.isCommonAPI w with
  | (Except.error e, w1) => (Except.error e, w1)
  | (Except.ok true, w1) => (Except.ok (), w1)
  | (Except.ok false, w1) => env.convertToCompatibleCommonAPI w1

/-- Constructor of `UsdRotateUndoableCommand`, after the constructors of its bases: the guarded block, and the
handler `catch (...)` that stores the exception. -/
def new {W : Type} (env : RotateEnv W) : Effect W UsdRotateUndoableCommand := fun w =>
  match initBody env w with
  | (Except.ok (), w1) => (Except.ok { fFailedInit := none }, w1)
  | (Except.error e, w1) => (Except.ok { fFailedInit := some e }, w1)

/-- Method `undo()`. -/
def undo {W : Type} (env : RotateEnv W) (self : UsdRotateUndoableCommand) : Effect W Unit :=
  fun w =>
    match self.fFailedInit with
    | none => env.undoImp w
    | some _ => (Except.ok (), w)

/-- Method `set(x, y, z)`. -/
def set {W : Type} (env : RotateEnv W) (self : UsdRotateUndoableCommand) (x y z : ℚ) :
    Effect W Bool := fun w =>
  match self.fFailedInit with
  | some e => (Except.error e, w)
  | none =>
    match env.perform x y z w with
    | (Except.error e, w1) => (Except.error e, w1)
    | (Except.ok (), w1) => (Except.ok true, w1)

end UsdRotateUndoableCommand


/-! ## Vocabulary of the statements about default soft ranges -/

/-- Number of comma-separated components of a text: one more than its number of commas. -/
def commaComponents (text : String) : Nat := text.data.count ',' + 1

/-- Number of components a value of the named attribute type has, in the sense of the statement
that a default has as many components as its type: one for `Float` and `Double`, two for `Float2`,
three for `Float3` and `ColorFloat3`, four for `Float4` and `ColorFloat4`. -/
def typeComponents (typeName : String) : Nat :=
  if typeName = Ufe.Attribute.kFloat ∨ typeName = Ufe.Attribute.kDouble then 1
  else if typeName = Ufe.Attribute.kFloat2 then 2
  else if typeName = Ufe.Attribute.kFloat3 ∨ typeName = Ufe.Attribute.kColorFloat3 then 3
  else if typeName = Ufe.Attribute.kFloat4 ∨ typeName = Ufe.Attribute.kColorFloat4 then 4
  else 0

/-! ## Sample data for the checks on concrete inputs -/

namespace Sample

/-- Shape adapter at `/pCube1` whose material is the Maya node `material`. -/
def shape (material : MObject) : HdMayaShapeAdapter :=
  { GetID := SdfPath.prim ["pCube1"]
    IsSupported := true
    Get := fun _ => VtValue.empty
    HasType := fun typeId => decide (typeId = "mesh")
    GetInstancePrimvar := fun key => VtValue.held ("instance:" ++ key)
    GetVisible := true
    IsInstanced := false
    GetInstanceIndices := fun _ => [0]
    SampleTransform := fun maxSampleCount buffers =>
      (min maxSampleCount 1, (buffers.1.set 0 0, buffers.2.set 0 { rows := [[1]] }))
    GetMaterial := material
    GetDoubleSided := false
    SamplePrimvar := fun key maxSampleCount buffers =>
      (min maxSampleCount 2, (buffers.1.set 0 (1 / 2), buffers.2.set 0 (VtValue.held key))) }

/-- Material adapter with the given id. -/
def material (id : SdfPath) (supported : Bool) : HdMayaMaterialAdapter :=
  { GetID := id
    IsSupported := supported
    Get := fun _ => VtValue.empty
    HasType := fun typeId => decide (typeId = "material")
    GetMaterialResource := VtValue.held "network"
    UpdateMaterialTag := false }

/-- Context in which node 1 has a working material creator, node 2 a creator that gives an
unsupported adapter, node 3 a creator that gives null, and every other node no creator. -/
def ctx : DelegateCtx :=
  { GetMaterialPath := fun obj =>
      match obj with
      | MObject.kNullObj => SdfPath.empty
      | MObject.node n => SdfPath.prim ("materials" :: List.replicate n "I")
    GetMaterialAdapterCreator := fun obj =>
      match obj with
      | MObject.node 1 => some (fun id _ => some (material id true))
      | MObject.node 2 => some (fun id _ => some (material id false))
      | MObject.node 3 => some (fun _ _ => none)
      | _ => none }

/-- Parameters of the sample delegates. -/
def params : HdMayaParams :=
  { textureMemoryPerTexture := 4194304
    maximumShadowMapResolution := 2048
    motionSampleStart := 0
    motionSampleEnd := 0
    displaySmoothMeshes := true }

/-- Delegate with one shape adapter at `/pCube1` bound to `mat`, and the given material adapters. -/
def delegate (enable : Bool) (mat : MObject) (materials : AdapterMap HdMayaMaterialAdapter) :
    HdMayaSceneDelegate :=
  { _shapeAdapters := [(SdfPath.prim ["pCube1"], shape mat)]
    _lightAdapters := []
    _cameraAdapters := []
    _materialAdapters := materials
    _fallbackMaterial := SdfPath.prim ["delegate", "__fallback_material__"]
    _enableMaterials := enable
    calls := []
    warnings := []
    _params := params }

/-- Token strings of the sample environment for shader attributes. -/
def tokens : MayaUsdMetadataTokens :=
  { UIName := "uiname"
    UIFolder := "uifolder"
    UIMin := "uimin"
    UIMax := "uimax"
    UISoftMin := "uisoftmin"
    UISoftMax := "uisoftmax" }

/-- Environment in which the type of a property is stored in its metadata under `"ufetype"`. -/
def env : ShaderEnv :=
  { MayaUsdMetadata := tokens
    prettifyName := fun n => "Pretty " ++ n
    usdTypeToUfe := fun p => (p.GetMetadata.find "ufetype").getD "Generic"
    streamValue := fun v =>
      match v with
      | VtValue.empty => ""
      | VtValue.held s => s
    UFE_V4_FEATURES_AVAILABLE := false }

/-- Shader property named `base` with the given options, metadata and hints. -/
def property (options : List (TfToken × TfToken)) (metadata hints : NdrTokenMap) :
    SdrShaderProperty :=
  { GetName := "base"
    GetLabel := ""
    GetHelp := "The base weight"
    GetPage := ""
    GetOptions := options
    GetMetadata := metadata
    GetHints := hints
    GetDefaultValue := VtValue.held "0.8"
    IsOutput := false }

/-- Property with a soft-min metadata entry, a `doc` hint and a `uimax` metadata entry. -/
def annotated : SdrShaderProperty :=
  property [] [("uisoftmin", "0.1"), ("uimax", "10")] [("doc", "From the hints"), ("uisoftmin", "0.2")]

end Sample

namespace Sample

/-- World of the sample rotate commands: the rotations applied so far, the number of runs of the
base undo, and whether the prim can be converted to the common transform interface. -/
structure World where
  rotations : List (ℚ × ℚ × ℚ)
  undone : Nat
  convertible : Bool
  deriving DecidableEq

/-- Environment in which no prim has the common transform interface yet, the conversion throws on
a prim that is not convertible, `perform` records the rotation and `undoImp` counts its runs. -/
def rotateEnv : RotateEnv World :=
  { isCommonAPI := fun w => (Except.ok false, w)
    convertToCompatibleCommonAPI := fun w =>
      if w.convertible then (Except.ok (), w)
      else (Except.error "Incompatible xform ops", w)
    perform := fun x y z w => (Except.ok (), { w with rotations := w.rotations ++ [(x, y, z)] })
    undoImp := fun w => (Except.ok (), { w with undone := w.undone + 1 }) }

end Sample


namespace Sample

/-- DAG adapter with the given id, visible, with a `Get` that echoes the key. -/
def dag (id : SdfPath) : HdMayaDagAdapter :=
  { GetID := id
    IsSupported := true
    Get := fun key => VtValue.held ("value:" ++ key)
    HasType := fun _ => false
    GetInstancePrimvar := fun key => VtValue.held ("instance:" ++ key)
    GetVisible := true
    IsInstanced := false
    GetInstanceIndices := fun _ => [0, 1]
    SampleTransform := fun maxSampleCount buffers =>
      (min maxSampleCount 1, (buffers.1.set 0 0, buffers.2.set 0 { rows := [[1]] })) }

/-- Light adapter with the given id. -/
def light (id : SdfPath) : HdMayaLightAdapter := { toHdMayaDagAdapter := dag id }

/-- Camera adapter with the given id. -/
def camera (id : SdfPath) : HdMayaCameraAdapter := { toHdMayaDagAdapter := dag id }

/-- Delegate with a shape adapter at `/pCube1`, a light adapter at `/light1`, a camera adapter at
`/persp` and a material adapter at `/materials/I`. -/
def populated : HdMayaSceneDelegate :=
  { _shapeAdapters := [(SdfPath.prim ["pCube1"], shape (MObject.node 1))]
    _lightAdapters := [(SdfPath.prim ["light1"], light (SdfPath.prim ["light1"]))]
    _cameraAdapters := [(SdfPath.prim ["persp"], camera (SdfPath.prim ["persp"]))]
    _materialAdapters :=
      [(SdfPath.prim ["materials", "I"], material (SdfPath.prim ["materials", "I"]) true)]
    _fallbackMaterial := SdfPath.prim ["delegate", "__fallback_material__"]
    _enableMaterials := true
    calls := []
    warnings := []
    _params := params }

end Sample


namespace Sample

/-- Scene with the shape node 10, which has the master path `[10]` and, below the transform node
20, the instance path `[20, 10]` of instance number 1; the light node 40; every other node, such
as node 30, has no path. -/
def scene : MayaScene :=
  { getAPathTo := fun obj =>
      if obj = MObject.node 10 ∨ obj = MObject.node 20 ∨ obj = MObject.node 40 then
        some { nodes := [obj] }
      else none
    getAllPathsTo := fun obj =>
      if obj = MObject.node 10 then
        [{ nodes := [MObject.node 10] }, { nodes := [MObject.node 20, MObject.node 10] }]
      else [{ nodes := [obj] }]
    hasFnTransform := fun dag => decide (dag = { nodes := [MObject.node 20] })
    children := fun dag =>
      if dag = { nodes := [MObject.node 20] } then [MObject.node 10] else []
    push := fun dag child => { nodes := dag.nodes ++ [child] }
    isInstanced := fun dag => decide (dag.nodes.getLast? = some (MObject.node 10))
    instanceNumber := fun dag =>
      if dag = { nodes := [MObject.node 20, MObject.node 10] } then 1 else 0
    node := fun dag => dag.nodes.getLast?.getD MObject.kNullObj
    isValid := fun dag => !dag.nodes.isEmpty
    isIntermediateObject := fun _ => false
    ufeRuntime := fun _ => none
    getPath := fun obj => { nodes := [obj] }
    isValidHandle := fun obj => !obj.isNull }

/-- Context over `scene`: node 10 gives the prim `/pCube1` and has a shape adapter creator, node
40 gives the prim `/light1` and has a light adapter creator. -/
def sceneCtx : SceneCtx :=
  { toDelegateCtx := ctx
    scene := scene
    GetPrimPath := fun dag _ =>
      if scene.node dag = MObject.node 10 then SdfPath.prim ["pCube1"]
      else if scene.node dag = MObject.node 40 then SdfPath.prim ["light1"]
      else SdfPath.prim ["node"]
    GetLightsEnabled := true
    IsHdSt := true
    GetLightAdapterCreator := fun dag =>
      if scene.node dag = MObject.node 40 then
        some (fun _ => some (light (SdfPath.prim ["light1"])))
      else none
    GetCameraAdapterCreator := fun _ => none
    GetShapeAdapterCreator := fun dag =>
      if scene.node dag = MObject.node 10 then some (fun _ => some (shape (MObject.node 1)))
      else none
    GetProxyShapeAdapterCreator := fun _ => none
    GetRprimIds := [SdfPath.prim ["pCube1"]]
    GetRprim := fun id =>
      some { GetId := id, GetMaterialId := SdfPath.prim ["materials", "I"] }
    GetGfMatrixFromMaya := fun m => { rows := m.rows }
    RebuildFlagPrim := 2
    RebuildFlagCallbacks := 4 }

/-- Draw context with the given display style and no active light. -/
def drawContext (displayStyle : Nat) : MDrawContext :=
  { getDisplayStyle := displayStyle
    numberOfActiveLights := some 0
    getLightParameterInformation := fun _ => none }

end Sample


namespace Sample

/-- The delegate `populated` with two pending added nodes: the transform node 20, and the node 30,
whose DAG path cannot be resolved. -/
def pendingNodes : HdMayaSceneDelegate :=
  { populated with _addedNodes := [MObject.node 20, MObject.node 30] }

/-- The delegate `populated` without its light adapter, with the material `/materials/I` pending
for recreation, the shape `/pCube1` pending for a rebuild of its prim, and three pending added
nodes: the transform node 20, the node 30, whose DAG path cannot be resolved, and the light node
40, which has a light adapter creator. -/
def pendingLight : HdMayaSceneDelegate :=
  { populated with
    _lightAdapters := []
    _addedNodes := [MObject.node 20, MObject.node 30, MObject.node 40]
    _adaptersToRecreate := [(SdfPath.prim ["materials", "I"], MObject.node 1)]
    _adaptersToRebuild := [(SdfPath.prim ["pCube1"], 2)] }

end Sample


namespace Sample

/-- Values for the dirty bits of the state prims in the sample calls of `SetParams`. -/
def dirtyBits : SprimDirtyBits :=
  { HdCamera_DirtyParams := 2
    HdMaterial_AllDirty := 3
    HdLight_AllDirty := 15 }

end Sample


/-! ## Theorems -/

theorem TfMapLookupPtr_cast {S T : Type} (up : S → T) (m : AdapterMap S) (id : SdfPath) :
    TfMapLookupPtr (m.cast up) id = (TfMapLookupPtr m id).map up := by
  induction m with
  | nil => rfl
  | cons entry rest ih =>
    obtain ⟨k, v⟩ := entry
    by_cases hk : k = id
    · simp [AdapterMap.cast, TfMapLookupPtr, hk]
    · have ih2 : TfMapLookupPtr (List.map (fun entry => (entry.1, up entry.2)) rest) id
          = (TfMapLookupPtr rest id).map up := ih
      simp [AdapterMap.cast, TfMapLookupPtr, hk, ih2]

namespace HdMayaSceneDelegate

/-- C1: `GetMaterialId` gives the empty path when materials are disabled; otherwise the fallback
material path when `id` has no shape adapter or the adapter has the null material; the path of the
material when a material adapter is registered under it; in these cases the delegate is left as it
is. Otherwise it runs `_CreateMaterial` for the path of the material and gives that path when the
creation succeeds and the fallback material path when it fails: when the registry has a creator
for the material and the adapter it builds is non-null and supported, the adapter is populated,
gets its callbacks and is registered under the path of the material; when not, the delegate is left
as it is. -/
theorem GetMaterialId_contract (ctx : DelegateCtx) (self : HdMayaSceneDelegate) (id : SdfPath) :
    (self._enableMaterials = false → GetMaterialId ctx self id = (SdfPath.empty, self)) ∧
    (self._enableMaterials = true →
      (TfMapLookupPtr self._shapeAdapters id = none →
        GetMaterialId ctx self id = (self._fallbackMaterial, self)) ∧
      (∀ shapeAdapter, TfMapLookupPtr self._shapeAdapters id = some shapeAdapter →
        (shapeAdapter.GetMaterial = MObject.kNullObj →
          GetMaterialId ctx self id = (self._fallbackMaterial, self)) ∧
        (shapeAdapter.GetMaterial ≠ MObject.kNullObj →
          (TfMapLookupPtr self._materialAdapters
              (ctx.GetMaterialPath shapeAdapter.GetMaterial) ≠ none →
            GetMaterialId ctx self id = (ctx.GetMaterialPath shapeAdapter.GetMaterial, self)) ∧
          (TfMapLookupPtr self._materialAdapters
              (ctx.GetMaterialPath shapeAdapter.GetMaterial) = none →
            ((_CreateMaterial ctx self (ctx.GetMaterialPath shapeAdapter.GetMaterial)
                shapeAdapter.GetMaterial).1 = true →
              GetMaterialId ctx self id =
                (ctx.GetMaterialPath shapeAdapter.GetMaterial,
                  (_CreateMaterial ctx self (ctx.GetMaterialPath shapeAdapter.GetMaterial)
                    shapeAdapter.GetMaterial).2)) ∧
            ((_CreateMaterial ctx self (ctx.GetMaterialPath shapeAdapter.GetMaterial)
                shapeAdapter.GetMaterial).1 = false →
              GetMaterialId ctx self id = (self._fallbackMaterial, self)) ∧
            (∀ materialCreator materialAdapter,
              ctx.GetMaterialAdapterCreator shapeAdapter.GetMaterial = some materialCreator →
              materialCreator (ctx.GetMaterialPath shapeAdapter.GetMaterial)
                shapeAdapter.GetMaterial = some materialAdapter →
              materialAdapter.IsSupported = true →
              GetMaterialId ctx self id =
                (ctx.GetMaterialPath shapeAdapter.GetMaterial,
                  { self with
                    calls := self.calls ++ [(materialAdapter.GetID, AdapterMethod.Populate),
                      (materialAdapter.GetID, AdapterMethod.CreateCallbacks)]
                    _materialAdapters :=
                      self._materialAdapters.emplace
                        (ctx.GetMaterialPath shapeAdapter.GetMaterial) materialAdapter })) ∧
            ((∀ materialCreator materialAdapter,
                ctx.GetMaterialAdapterCreator shapeAdapter.GetMaterial = some materialCreator →
                materialCreator (ctx.GetMaterialPath shapeAdapter.GetMaterial)
                  shapeAdapter.GetMaterial = some materialAdapter →
                materialAdapter.IsSupported = false) →
              GetMaterialId ctx self id = (self._fallbackMaterial, self)))))) := by
  have hfail : ∀ (i : SdfPath) (o : MObject),
      (_CreateMaterial ctx self i o).1 = false → (_CreateMaterial ctx self i o).2 = self := by
    intro i o
    unfold _CreateMaterial
    split
    · intro _; rfl
    · split
      · intro _; rfl
      · split
        · intro _; rfl
        · intro h; cases h
  refine ⟨?_, ?_⟩
  · intro h
    simp [GetMaterialId, h]
  · intro h
    refine ⟨?_, ?_⟩
    · intro hs
      simp [GetMaterialId, h, hs]
    · intro shapeAdapter hs
      refine ⟨?_, ?_⟩
      · intro hm
        simp [GetMaterialId, h, hs, hm]
      · intro hm
        refine ⟨?_, ?_⟩
        · intro hreg
          have hsome : (TfMapLookupPtr self._materialAdapters
              (ctx.GetMaterialPath shapeAdapter.GetMaterial)).isSome = true :=
            Option.isSome_iff_ne_none.mpr hreg
          simp [GetMaterialId, h, hs, hm, hsome]
        · intro hreg
          have hget : GetMaterialId ctx self id =
              (if (_CreateMaterial ctx self (ctx.GetMaterialPath shapeAdapter.GetMaterial)
                  shapeAdapter.GetMaterial).1 = true
                then ctx.GetMaterialPath shapeAdapter.GetMaterial
                else (_CreateMaterial ctx self (ctx.GetMaterialPath shapeAdapter.GetMaterial)
                  shapeAdapter.GetMaterial).2._fallbackMaterial,
                (_CreateMaterial ctx self (ctx.GetMaterialPath shapeAdapter.GetMaterial)
                  shapeAdapter.GetMaterial).2) := by
            simp [GetMaterialId, h, hs, hm, hreg]
          refine ⟨?_, ?_, ?_, ?_⟩
          · intro hc
            rw [hget, if_pos hc]
          · intro hc
            rw [hget, hc, hfail _ _ hc]
            rfl
          · intro materialCreator materialAdapter hcr had hsup
            rw [hget]
            simp [_CreateMaterial, hcr, had, hsup]
          · intro hall
            have hc : (_CreateMaterial ctx self (ctx.GetMaterialPath shapeAdapter.GetMaterial)
                shapeAdapter.GetMaterial).1 = false := by
              unfold _CreateMaterial
              cases hcr : ctx.GetMaterialAdapterCreator shapeAdapter.GetMaterial with
              | none => rfl
              | some materialCreator =>
                cases had : materialCreator (ctx.GetMaterialPath shapeAdapter.GetMaterial)
                    shapeAdapter.GetMaterial with
                | none => simp [had]
                | some materialAdapter =>
                  simp [had, hall materialCreator materialAdapter hcr had]
            rw [hget, hc, hfail _ _ hc]
            rfl

end HdMayaSceneDelegate

namespace HdMayaSceneDelegate

/-- Condition under which `_CreateMaterial` reports success: a creator is registered for the
object and the adapter it builds is non-null and supported. -/
theorem _CreateMaterial_eq_true_iff (ctx : DelegateCtx) (self : HdMayaSceneDelegate)
    (id : SdfPath) (obj : MObject) :
    (_CreateMaterial ctx self id obj).1 = true ↔
      ∃ materialCreator materialAdapter, ctx.GetMaterialAdapterCreator obj = some materialCreator ∧
        materialCreator id obj = some materialAdapter ∧ materialAdapter.IsSupported = true := by
  unfold _CreateMaterial
  cases hc : ctx.GetMaterialAdapterCreator obj with
  | none => simp
  | some materialCreator =>
    cases ha : materialCreator id obj with
    | none => simp [ha]
    | some materialAdapter =>
      cases hs : materialAdapter.IsSupported <;> simp [ha, hs]

/-- Check of C1 on sample data, one call for each case of `GetMaterialId`: materials disabled, no
shape adapter, null material, registered material adapter, creation that succeeds (the adapter
`/materials/I` is populated, gets its callbacks and is registered), creator that gives an
unsupported adapter, creator that gives null, and no creator. -/
theorem GetMaterialId_contract_witness :
    GetMaterialId Sample.ctx (Sample.delegate false (MObject.node 1) [])
        (SdfPath.prim ["pCube1"]) =
      (SdfPath.empty, Sample.delegate false (MObject.node 1) []) ∧
    GetMaterialId Sample.ctx (Sample.delegate true (MObject.node 1) [])
        (SdfPath.prim ["pSphere1"]) =
      (SdfPath.prim ["delegate", "__fallback_material__"],
        Sample.delegate true (MObject.node 1) []) ∧
    GetMaterialId Sample.ctx (Sample.delegate true MObject.kNullObj [])
        (SdfPath.prim ["pCube1"]) =
      (SdfPath.prim ["delegate", "__fallback_material__"],
        Sample.delegate true MObject.kNullObj []) ∧
    GetMaterialId Sample.ctx
        (Sample.delegate true (MObject.node 4)
          [(SdfPath.prim ["materials", "I", "I", "I", "I"],
            Sample.material (SdfPath.prim ["materials", "I", "I", "I", "I"]) true)])
        (SdfPath.prim ["pCube1"]) =
      (SdfPath.prim ["materials", "I", "I", "I", "I"],
        Sample.delegate true (MObject.node 4)
          [(SdfPath.prim ["materials", "I", "I", "I", "I"],
            Sample.material (SdfPath.prim ["materials", "I", "I", "I", "I"]) true)]) ∧
    GetMaterialId Sample.ctx (Sample.delegate true (MObject.node 1) [])
        (SdfPath.prim ["pCube1"]) =
      (SdfPath.prim ["materials", "I"],
        { Sample.delegate true (MObject.node 1) [] with
          calls := [(SdfPath.prim ["materials", "I"], AdapterMethod.Populate),
            (SdfPath.prim ["materials", "I"], AdapterMethod.CreateCallbacks)]
          _materialAdapters :=
            [(SdfPath.prim ["materials", "I"],
              Sample.material (SdfPath.prim ["materials", "I"]) true)] }) ∧
    GetMaterialId Sample.ctx (Sample.delegate true (MObject.node 2) [])
        (SdfPath.prim ["pCube1"]) =
      (SdfPath.prim ["delegate", "__fallback_material__"],
        Sample.delegate true (MObject.node 2) []) ∧
    GetMaterialId Sample.ctx (Sample.delegate true (MObject.node 3) [])
        (SdfPath.prim ["pCube1"]) =
      (SdfPath.prim ["delegate", "__fallback_material__"],
        Sample.delegate true (MObject.node 3) []) ∧
    GetMaterialId Sample.ctx (Sample.delegate true (MObject.node 5) [])
        (SdfPath.prim ["pCube1"]) =
      (SdfPath.prim ["delegate", "__fallback_material__"],
        Sample.delegate true (MObject.node 5) []) :=
  ⟨(GetMaterialId_contract Sample.ctx (Sample.delegate false (MObject.node 1) [])
      (SdfPath.prim ["pCube1"])).1 rfl,
    ((GetMaterialId_contract Sample.ctx (Sample.delegate true (MObject.node 1) [])
      (SdfPath.prim ["pSphere1"])).2 rfl).1 (by simp [TfMapLookupPtr, Sample.delegate]),
    (((GetMaterialId_contract Sample.ctx (Sample.delegate true MObject.kNullObj [])
      (SdfPath.prim ["pCube1"])).2 rfl).2 (Sample.shape MObject.kNullObj) (by
        simp [TfMapLookupPtr, Sample.delegate])).1 rfl,
    ((((GetMaterialId_contract Sample.ctx
      (Sample.delegate true (MObject.node 4)
        [(SdfPath.prim ["materials", "I", "I", "I", "I"],
          Sample.material (SdfPath.prim ["materials", "I", "I", "I", "I"]) true)])
      (SdfPath.prim ["pCube1"])).2 rfl).2 (Sample.shape (MObject.node 4)) (by
        simp [TfMapLookupPtr, Sample.delegate])).2 (by simp [Sample.shape])).1 (by
          simp [TfMapLookupPtr, Sample.delegate, Sample.shape, Sample.ctx]),
    ((((((GetMaterialId_contract Sample.ctx (Sample.delegate true (MObject.node 1) [])
      (SdfPath.prim ["pCube1"])).2 rfl).2 (Sample.shape (MObject.node 1)) (by
        simp [TfMapLookupPtr, Sample.delegate])).2 (by simp [Sample.shape])).2 (by
          simp [TfMapLookupPtr, Sample.delegate])).2.2.1
            (fun id _ => some (Sample.material id true))
            (Sample.material (SdfPath.prim ["materials", "I"]) true) rfl rfl rfl),
    ((((((GetMaterialId_contract Sample.ctx (Sample.delegate true (MObject.node 2) [])
      (SdfPath.prim ["pCube1"])).2 rfl).2 (Sample.shape (MObject.node 2)) (by
        simp [TfMapLookupPtr, Sample.delegate])).2 (by simp [Sample.shape])).2 (by
          simp [TfMapLookupPtr, Sample.delegate])).2.1 (by
            simp [_CreateMaterial, Sample.shape, Sample.ctx, Sample.material])),
    ((((((GetMaterialId_contract Sample.ctx (Sample.delegate true (MObject.node 3) [])
      (SdfPath.prim ["pCube1"])).2 rfl).2 (Sample.shape (MObject.node 3)) (by
        simp [TfMapLookupPtr, Sample.delegate])).2 (by simp [Sample.shape])).2 (by
          simp [TfMapLookupPtr, Sample.delegate])).2.2.2 (by
            intro materialCreator materialAdapter hcr had
            simp [Sample.shape, Sample.ctx] at hcr
            subst hcr
            cases had)),
    ((((((GetMaterialId_contract Sample.ctx (Sample.delegate true (MObject.node 5) [])
      (SdfPath.prim ["pCube1"])).2 rfl).2 (Sample.shape (MObject.node 5)) (by
        simp [TfMapLookupPtr, Sample.delegate])).2 (by simp [Sample.shape])).2 (by
          simp [TfMapLookupPtr, Sample.delegate])).2.2.2 (by
            intro materialCreator materialAdapter hcr
            simp [Sample.shape, Sample.ctx] at hcr))⟩

end HdMayaSceneDelegate

namespace HdMayaSceneDelegate

/-- C2: `SamplePrimvar` gives 0 and leaves both buffers as they are when `maxSampleCount < 1`; for a
property path and `maxSampleCount >= 1` it gives 1, writes 0 to `times[0]` and writes to
`samples[0]` the instance primvar of the shape adapter registered at the prim path of the id (the
empty value when there is none); for every other id it does what the shape adapter registered under
the id does, and gives 0 without writing when there is none. -/
theorem SamplePrimvar_contract (self : HdMayaSceneDelegate) (id : SdfPath) (key : TfToken)
    (maxSampleCount : Nat) (buffers : SampleBuffers) :
    (maxSampleCount < 1 →
      (SamplePrimvar self id key maxSampleCount).run buffers = (0, buffers)) ∧
    (1 ≤ maxSampleCount → id.IsPropertyPath = true →
      (SamplePrimvar self id key maxSampleCount).run buffers =
        (1, (buffers.1.set 0 0,
          buffers.2.set 0
            (match TfMapLookupPtr self._shapeAdapters id.GetPrimPath with
              | some shapeAdapter => shapeAdapter.GetInstancePrimvar key
              | none => VtValue.empty))) ∧
      (buffers.1 ≠ [] →
        ((SamplePrimvar self id key maxSampleCount).run buffers).2.1.head? = some 0) ∧
      (buffers.2 ≠ [] →
        ((SamplePrimvar self id key maxSampleCount).run buffers).2.2.head? =
          some (match TfMapLookupPtr self._shapeAdapters id.GetPrimPath with
            | some shapeAdapter => shapeAdapter.GetInstancePrimvar key
            | none => VtValue.empty))) ∧
    (1 ≤ maxSampleCount → id.IsPropertyPath = false →
      (SamplePrimvar self id key maxSampleCount).run buffers =
        (match TfMapLookupPtr self._shapeAdapters id with
          | some shapeAdapter => (shapeAdapter.SamplePrimvar key maxSampleCount).run buffers
          | none => (0, buffers))) := by
  have hprop : 1 ≤ maxSampleCount → id.IsPropertyPath = true →
      (SamplePrimvar self id key maxSampleCount).run buffers =
        (1, (buffers.1.set 0 0,
          buffers.2.set 0
            (match TfMapLookupPtr self._shapeAdapters id.GetPrimPath with
              | some shapeAdapter => shapeAdapter.GetInstancePrimvar key
              | none => VtValue.empty))) := by
    intro hmax hp
    have hn : ¬ maxSampleCount < 1 := by omega
    unfold SamplePrimvar
    rw [if_neg hn, if_pos hp]
    cases hl : TfMapLookupPtr self._shapeAdapters id.GetPrimPath with
    | none =>
      simp [_GetValue, _GetDefaultValue, TfMapLookupPtr_cast, hl, StateT.run, bind, StateT.bind,
        modify, modifyGet, MonadStateOf.modifyGet, StateT.modifyGet, pure, StateT.pure, Id.run]
      rfl
    | some shapeAdapter =>
      simp [_GetValue, TfMapLookupPtr_cast, hl, StateT.run, bind, StateT.bind,
        modify, modifyGet, MonadStateOf.modifyGet, StateT.modifyGet, pure, StateT.pure, Id.run]
  refine ⟨?_, ?_, ?_⟩
  · intro hmax
    simp [SamplePrimvar, hmax, StateT.run, pure, StateT.pure]
  · intro hmax hp
    refine ⟨hprop hmax hp, ?_, ?_⟩
    · intro hne
      rw [hprop hmax hp]
      cases hb : buffers.1 with
      | nil => exact absurd hb hne
      | cons t ts => simp [List.set]
    · intro hne
      rw [hprop hmax hp]
      cases hb : buffers.2 with
      | nil => exact absurd hb hne
      | cons t ts => simp [List.set]
  · intro hmax hp
    have hn : ¬ maxSampleCount < 1 := by omega
    unfold SamplePrimvar
    rw [if_neg hn]
    cases hl : TfMapLookupPtr self._shapeAdapters id <;>
      simp [hp, _GetValue, _GetDefaultValue, hl, StateT.run, pure, StateT.pure]

end HdMayaSceneDelegate

namespace HdMayaSceneDelegate

/-- Check of C2 on sample data: a call with `maxSampleCount = 0`, calls with a property path whose
prim has and has not a shape adapter, and calls with a prim path that has and has not one. -/
theorem SamplePrimvar_contract_witness :
    (SamplePrimvar (Sample.delegate true MObject.kNullObj []) (SdfPath.prim ["pCube1"]) "points" 0).run
        ([7, 8], [VtValue.held "a", VtValue.held "b"]) =
      (0, ([7, 8], [VtValue.held "a", VtValue.held "b"])) ∧
    (SamplePrimvar (Sample.delegate true MObject.kNullObj [])
        (SdfPath.property ["pCube1"] "instanceTransform") "points" 2).run
        ([7, 8], [VtValue.held "a", VtValue.held "b"]) =
      (1, ([0, 8], [VtValue.held "instance:points", VtValue.held "b"])) ∧
    (SamplePrimvar (Sample.delegate true MObject.kNullObj [])
        (SdfPath.property ["pSphere1"] "instanceTransform") "points" 2).run
        ([7, 8], [VtValue.held "a", VtValue.held "b"]) =
      (1, ([0, 8], [VtValue.empty, VtValue.held "b"])) ∧
    (SamplePrimvar (Sample.delegate true MObject.kNullObj []) (SdfPath.prim ["pCube1"]) "points" 5).run
        ([7, 8], [VtValue.held "a", VtValue.held "b"]) =
      (2, ([1 / 2, 8], [VtValue.held "points", VtValue.held "b"])) ∧
    (SamplePrimvar (Sample.delegate true MObject.kNullObj []) (SdfPath.prim ["pSphere1"]) "points" 5).run
        ([7, 8], [VtValue.held "a", VtValue.held "b"]) =
      (0, ([7, 8], [VtValue.held "a", VtValue.held "b"])) :=
  ⟨(SamplePrimvar_contract (Sample.delegate true MObject.kNullObj []) (SdfPath.prim ["pCube1"])
      "points" 0 ([7, 8], [VtValue.held "a", VtValue.held "b"])).1 (by decide),
    ((SamplePrimvar_contract (Sample.delegate true MObject.kNullObj [])
      (SdfPath.property ["pCube1"] "instanceTransform") "points" 2
      ([7, 8], [VtValue.held "a", VtValue.held "b"])).2.1 (by decide) rfl).1,
    ((SamplePrimvar_contract (Sample.delegate true MObject.kNullObj [])
      (SdfPath.property ["pSphere1"] "instanceTransform") "points" 2
      ([7, 8], [VtValue.held "a", VtValue.held "b"])).2.1 (by decide) rfl).1,
    (SamplePrimvar_contract (Sample.delegate true MObject.kNullObj []) (SdfPath.prim ["pCube1"])
      "points" 5 ([7, 8], [VtValue.held "a", VtValue.held "b"])).2.2 (by decide) rfl,
    (SamplePrimvar_contract (Sample.delegate true MObject.kNullObj []) (SdfPath.prim ["pSphere1"])
      "points" 5 ([7, 8], [VtValue.held "a", VtValue.held "b"])).2.2 (by decide) rfl⟩

/-- C3: `IsEnabled` answers false for every option token, `parallelRprimSync` included, so the
delegate never enables parallel rprim sync. -/
theorem IsEnabled_false (option : TfToken) :
    (IsEnabled option).1 = false ∧ (IsEnabled parallelRprimSync).1 = false := by
  constructor
  · unfold IsEnabled
    split <;> rfl
  · rfl

end HdMayaSceneDelegate

/-! ### Shader attribute definitions -/


theorem MetadataMap.find_eq_none_iff (m : MetadataMap) (key : String) :
    m.find key = none ↔ key ∉ m.map Prod.fst := by
  induction m with
  | nil => simp [MetadataMap.find]
  | cons entry rest ih =>
    obtain ⟨k, f⟩ := entry
    by_cases hk : k = key
    · simp [MetadataMap.find, hk]
    · have hk2 : ¬ key = k := fun h => hk h.symm
      simp [MetadataMap.find, hk, hk2, ih]

/-- Entries of `_metaMap` found under each of its keys, when the keys differ from each other. -/
theorem _metaMap_find (env : ShaderEnv) (hkeys : (_metaMapKeys env).Nodup) :
    (_metaMap env).find env.MayaUsdMetadata.UIName = some (MetaMap.uiName env) ∧
    (_metaMap env).find "doc" = some MetaMap.doc ∧
    (_metaMap env).find env.MayaUsdMetadata.UIFolder = some MetaMap.uiFolder ∧
    (_metaMap env).find "enum" = some MetaMap.enum ∧
    (_metaMap env).find "enumvalues" = some MetaMap.enumvalues ∧
    (_metaMap env).find env.MayaUsdMetadata.UISoftMin = some (MetaMap.uiSoftMin env) ∧
    (_metaMap env).find env.MayaUsdMetadata.UISoftMax = some (MetaMap.uiSoftMax env) := by
  simp only [_metaMapKeys, _metaMap, List.map, List.nodup_cons, List.mem_cons, not_or,
    List.mem_singleton, List.not_mem_nil, not_false_eq_true, List.nodup_nil, and_true] at hkeys
  obtain ⟨⟨h12, h13, h14, h15, h16, h17⟩, ⟨h23, h24, h25, h26, h27⟩, ⟨h34, h35, h36, h37⟩,
    ⟨h45, h46, h47⟩, ⟨h56, h57⟩, h67⟩ := hkeys
  refine ⟨?_, ?_, ?_, ?_, ?_, ?_, ?_⟩ <;>
    simp [_metaMap, MetadataMap.find, h12, h13, h14, h15, h16, h17, h23, h24, h25, h26, h27, h34,
      h35, h36, h37, h45, h46, h47, h56, h57, h67]

namespace UsdShaderAttributeDef

/-- C4: `getMetadata(key)` gives, in this order of precedence, the metadata entry of the property
for the key; else its hint entry for the key; else the result of the conversion registered for the
key when the key is the UI name, `doc`, UI folder, `enum`, `enumvalues`, soft min or soft max
token; else the empty value. -/
theorem getMetadata_precedence (env : ShaderEnv) (hkeys : (_metaMapKeys env).Nodup)
    (p : SdrShaderProperty) (key : String) :
    (∀ v, p.GetMetadata.find key = some v →
      getMetadata env { fShaderAttributeDef := some p } key = some (Ufe.Value.string v)) ∧
    (∀ v, p.GetMetadata.find key = none → p.GetHints.find key = some v →
      getMetadata env { fShaderAttributeDef := some p } key = some (Ufe.Value.string v)) ∧
    (p.GetMetadata.find key = none → p.GetHints.find key = none →
      (key = env.MayaUsdMetadata.UIName →
        getMetadata env { fShaderAttributeDef := some p } key = some (MetaMap.uiName env p)) ∧
      (key = "doc" →
        getMetadata env { fShaderAttributeDef := some p } key = some (MetaMap.doc p)) ∧
      (key = env.MayaUsdMetadata.UIFolder →
        getMetadata env { fShaderAttributeDef := some p } key = some (MetaMap.uiFolder p)) ∧
      (key = "enum" →
        getMetadata env { fShaderAttributeDef := some p } key = some (MetaMap.enum p)) ∧
      (key = "enumvalues" →
        getMetadata env { fShaderAttributeDef := some p } key = some (MetaMap.enumvalues p)) ∧
      (key = env.MayaUsdMetadata.UISoftMin →
        getMetadata env { fShaderAttributeDef := some p } key = some (MetaMap.uiSoftMin env p)) ∧
      (key = env.MayaUsdMetadata.UISoftMax →
        getMetadata env { fShaderAttributeDef := some p } key = some (MetaMap.uiSoftMax env p)) ∧
      (key ∉ _metaMapKeys env →
        getMetadata env { fShaderAttributeDef := some p } key = some Ufe.Value.none)) := by
  obtain ⟨f1, f2, f3, f4, f5, f6, f7⟩ := _metaMap_find env hkeys
  refine ⟨?_, ?_, ?_⟩
  · intro v hm
    simp [getMetadata, hm]
  · intro v hm hh
    simp [getMetadata, hm, hh]
  · intro hm hh
    refine ⟨?_, ?_, ?_, ?_, ?_, ?_, ?_, ?_⟩
    · intro hk
      subst hk
      simp [getMetadata, hm, hh, f1]
    · intro hk
      subst hk
      simp [getMetadata, hm, hh, f2]
    · intro hk
      subst hk
      simp [getMetadata, hm, hh, f3]
    · intro hk
      subst hk
      simp [getMetadata, hm, hh, f4]
    · intro hk
      subst hk
      simp [getMetadata, hm, hh, f5]
    · intro hk
      subst hk
      simp [getMetadata, hm, hh, f6]
    · intro hk
      subst hk
      simp [getMetadata, hm, hh, f7]
    · intro hk
      have hnone : (_metaMap env).find key = none :=
        (MetadataMap.find_eq_none_iff (_metaMap env) key).mpr hk
      simp [getMetadata, hm, hh, hnone]

/-- C5: for every shader property and key, `hasMetadata(key)` and `getMetadata(key)` both give a
result, and `hasMetadata(key)` is true exactly when the value `getMetadata(key)` gives is not
empty. -/
theorem hasMetadata_iff_getMetadata (env : ShaderEnv) (p : SdrShaderProperty) (key : String) :
    ∃ b v, hasMetadata env { fShaderAttributeDef := some p } key = some b ∧
      getMetadata env { fShaderAttributeDef := some p } key = some v ∧
      (b = true ↔ v.empty = false) := by
  cases hm : p.GetMetadata.find key with
  | some v =>
    exact ⟨true, Ufe.Value.string v, by simp [hasMetadata, hm], by simp [getMetadata, hm],
      by simp [Ufe.Value.empty]⟩
  | none =>
    cases hh : p.GetHints.find key with
    | some v =>
      exact ⟨true, Ufe.Value.string v, by simp [hasMetadata, hm, hh],
        by simp [getMetadata, hm, hh], by simp [Ufe.Value.empty]⟩
    | none =>
      cases hf : (_metaMap env).find key with
      | none =>
        exact ⟨false, Ufe.Value.none, by simp [hasMetadata, hm, hh, hf],
          by simp [getMetadata, hm, hh, hf], by simp [Ufe.Value.empty]⟩
      | some mapper =>
        cases he : (mapper p).empty with
        | true =>
          exact ⟨false, mapper p, by simp [hasMetadata, hm, hh, hf, he],
            by simp [getMetadata, hm, hh, hf], by simp [he]⟩
        | false =>
          exact ⟨true, mapper p, by simp [hasMetadata, hm, hh, hf, he],
            by simp [getMetadata, hm, hh, hf], by simp [he]⟩

end UsdShaderAttributeDef

namespace Sample

theorem keys_nodup : (_metaMapKeys env).Nodup := by decide

end Sample

namespace UsdShaderAttributeDef

/-- Check of C4 on sample data: a key held by the metadata (and by the hints), a key held by the
hints only, a converted key held by neither, and a key that is not converted. -/
theorem getMetadata_precedence_witness :
    getMetadata Sample.env { fShaderAttributeDef := some Sample.annotated } "uisoftmin" =
      some (Ufe.Value.string "0.1") ∧
    getMetadata Sample.env { fShaderAttributeDef := some Sample.annotated } "doc" =
      some (Ufe.Value.string "From the hints") ∧
    getMetadata Sample.env { fShaderAttributeDef := some Sample.annotated } "uiname" =
      some (Ufe.Value.string "Pretty base") ∧
    getMetadata Sample.env { fShaderAttributeDef := some Sample.annotated } "uisoftmax" =
      some (Ufe.Value.string "10") ∧
    getMetadata Sample.env { fShaderAttributeDef := some Sample.annotated } "colorspace" =
      some Ufe.Value.none :=
  ⟨(getMetadata_precedence Sample.env Sample.keys_nodup Sample.annotated "uisoftmin").1
      "0.1" (by decide),
    (getMetadata_precedence Sample.env Sample.keys_nodup Sample.annotated "doc").2.1
      "From the hints" (by decide) (by decide),
    ((getMetadata_precedence Sample.env Sample.keys_nodup Sample.annotated "uiname").2.2
      (by decide) (by decide)).1 rfl,
    ((getMetadata_precedence Sample.env Sample.keys_nodup Sample.annotated "uisoftmax").2.2
      (by decide) (by decide)).2.2.2.2.2.2.1 rfl,
    ((getMetadata_precedence Sample.env Sample.keys_nodup Sample.annotated "colorspace").2.2
      (by decide) (by decide)).2.2.2.2.2.2.2 (by decide)⟩

end UsdShaderAttributeDef

theorem MetaMap.findDefault_eq_none (table : List (String × Ufe.Value)) (key : String)
    (h : key ∉ table.map Prod.fst) : MetaMap.findDefault table key = none := by
  induction table with
  | nil => rfl
  | cons entry rest ih =>
    obtain ⟨k, v⟩ := entry
    have hk : ¬ k = key := fun e => h (by simp [e])
    have hr : key ∉ rest.map Prod.fst := fun e => h (by simp [e])
    simp [MetaMap.findDefault, hk, ih hr]

theorem MetaMap.defaultSoftMax_keys (env : ShaderEnv) :
    (MetaMap.defaultSoftMax env).map Prod.fst = (MetaMap.defaultSoftMin env).map Prod.fst := by
  cases h : env.UFE_V4_FEATURES_AVAILABLE <;> simp [MetaMap.defaultSoftMax, MetaMap.defaultSoftMin, h]

namespace UsdShaderAttributeDef

/-- C6: for a property with no metadata and no hint under the soft-min token, `getMetadata` of the
soft-min token gives the UIMin metadata value of the property whenever there is one, whatever the
type of the property; and likewise for the soft-max token and UIMax. -/
theorem getMetadata_soft_range_uses_ui_range (env : ShaderEnv)
    (hkeys : (_metaMapKeys env).Nodup) (p : SdrShaderProperty) :
    (∀ v, p.GetMetadata.find env.MayaUsdMetadata.UISoftMin = none →
      p.GetHints.find env.MayaUsdMetadata.UISoftMin = none →
      p.GetMetadata.find env.MayaUsdMetadata.UIMin = some v →
      getMetadata env { fShaderAttributeDef := some p } env.MayaUsdMetadata.UISoftMin =
        some (Ufe.Value.string v)) ∧
    (∀ v, p.GetMetadata.find env.MayaUsdMetadata.UISoftMax = none →
      p.GetHints.find env.MayaUsdMetadata.UISoftMax = none →
      p.GetMetadata.find env.MayaUsdMetadata.UIMax = some v →
      getMetadata env { fShaderAttributeDef := some p } env.MayaUsdMetadata.UISoftMax =
        some (Ufe.Value.string v)) := by
  obtain ⟨-, -, -, -, -, f6, f7⟩ := _metaMap_find env hkeys
  constructor
  · intro v hm hh hui
    simp [getMetadata, hm, hh, f6, MetaMap.uiSoftMin, hui]
  · intro v hm hh hui
    simp [getMetadata, hm, hh, f7, MetaMap.uiSoftMax, hui]

/-- Check of C6 on sample data: a `Float3` property and a property of a type without default, each
with `uimin` and `uimax` metadata. -/
theorem getMetadata_soft_range_uses_ui_range_witness :
    getMetadata Sample.env
        { fShaderAttributeDef := some (Sample.property []
            [("ufetype", "Float3"), ("uimin", "-1,-1,-1"), ("uimax", "2,2,2")] []) }
        "uisoftmin" = some (Ufe.Value.string "-1,-1,-1") ∧
    getMetadata Sample.env
        { fShaderAttributeDef := some (Sample.property []
            [("ufetype", "Float3"), ("uimin", "-1,-1,-1"), ("uimax", "2,2,2")] []) }
        "uisoftmax" = some (Ufe.Value.string "2,2,2") ∧
    getMetadata Sample.env
        { fShaderAttributeDef := some (Sample.property []
            [("ufetype", "Int"), ("uimin", "3"), ("uimax", "9")] [("uimin", "4")]) }
        "uisoftmin" = some (Ufe.Value.string "3") :=
  ⟨(getMetadata_soft_range_uses_ui_range Sample.env Sample.keys_nodup
      (Sample.property [] [("ufetype", "Float3"), ("uimin", "-1,-1,-1"), ("uimax", "2,2,2")] [])).1
      "-1,-1,-1" (by decide) (by decide) (by decide),
    (getMetadata_soft_range_uses_ui_range Sample.env Sample.keys_nodup
      (Sample.property [] [("ufetype", "Float3"), ("uimin", "-1,-1,-1"), ("uimax", "2,2,2")] [])).2
      "2,2,2" (by decide) (by decide) (by decide),
    (getMetadata_soft_range_uses_ui_range Sample.env Sample.keys_nodup
      (Sample.property [] [("ufetype", "Int"), ("uimin", "3"), ("uimax", "9")] [("uimin", "4")])).1
      "3" (by decide) (by decide) (by decide)⟩

/-- C7: for a property with no metadata and no hint under the soft-min and soft-max tokens and no
UIMin and UIMax metadata, `getMetadata` gives soft min "0" and soft max "1" when the type is
`Float` or `Double`, and "0,0,0" and "1,1,1" when it is `Float3` or `ColorFloat3`; every default of
the two tables has as many comma-separated components as its type has; and when the type is not in
the table of defaults both values are empty and `hasMetadata` is false for both tokens. -/
theorem getMetadata_default_soft_range (env : ShaderEnv) (hkeys : (_metaMapKeys env).Nodup)
    (p : SdrShaderProperty)
    (hmin : p.GetMetadata.find env.MayaUsdMetadata.UISoftMin = none)
    (hminHint : p.GetHints.find env.MayaUsdMetadata.UISoftMin = none)
    (hmax : p.GetMetadata.find env.MayaUsdMetadata.UISoftMax = none)
    (hmaxHint : p.GetHints.find env.MayaUsdMetadata.UISoftMax = none)
    (huiMin : p.GetMetadata.find env.MayaUsdMetadata.UIMin = none)
    (huiMax : p.GetMetadata.find env.MayaUsdMetadata.UIMax = none) :
    (env.usdTypeToUfe p = Ufe.Attribute.kFloat ∨ env.usdTypeToUfe p = Ufe.Attribute.kDouble →
      getMetadata env { fShaderAttributeDef := some p } env.MayaUsdMetadata.UISoftMin =
        some (Ufe.Value.string "0") ∧
      getMetadata env { fShaderAttributeDef := some p } env.MayaUsdMetadata.UISoftMax =
        some (Ufe.Value.string "1")) ∧
    (env.usdTypeToUfe p = Ufe.Attribute.kFloat3 ∨
        env.usdTypeToUfe p = Ufe.Attribute.kColorFloat3 →
      getMetadata env { fShaderAttributeDef := some p } env.MayaUsdMetadata.UISoftMin =
        some (Ufe.Value.string "0,0,0") ∧
      getMetadata env { fShaderAttributeDef := some p } env.MayaUsdMetadata.UISoftMax =
        some (Ufe.Value.string "1,1,1")) ∧
    (∀ typeName text, (typeName, Ufe.Value.string text) ∈ MetaMap.defaultSoftMin env ∨
        (typeName, Ufe.Value.string text) ∈ MetaMap.defaultSoftMax env →
      commaComponents text = typeComponents typeName) ∧
    (env.usdTypeToUfe p ∉ (MetaMap.defaultSoftMin env).map Prod.fst →
      env.usdTypeToUfe p ∉ (MetaMap.defaultSoftMax env).map Prod.fst ∧
      getMetadata env { fShaderAttributeDef := some p } env.MayaUsdMetadata.UISoftMin =
        some Ufe.Value.none ∧
      getMetadata env { fShaderAttributeDef := some p } env.MayaUsdMetadata.UISoftMax =
        some Ufe.Value.none ∧
      hasMetadata env { fShaderAttributeDef := some p } env.MayaUsdMetadata.UISoftMin =
        some false ∧
      hasMetadata env { fShaderAttributeDef := some p } env.MayaUsdMetadata.UISoftMax =
        some false) := by
  obtain ⟨-, -, -, -, -, f6, f7⟩ := _metaMap_find env hkeys
  refine ⟨?_, ?_, ?_, ?_⟩
  · rintro (hty | hty) <;>
      simp [getMetadata, hmin, hminHint, hmax, hmaxHint, f6, f7, MetaMap.uiSoftMin,
        MetaMap.uiSoftMax, huiMin, huiMax, hty, MetaMap.defaultSoftMin, MetaMap.defaultSoftMax,
        MetaMap.findDefault, Ufe.Attribute.kFloat, Ufe.Attribute.kDouble, Ufe.Attribute.kFloat3,
        Ufe.Attribute.kColorFloat3]
  · rintro (hty | hty) <;>
      simp [getMetadata, hmin, hminHint, hmax, hmaxHint, f6, f7, MetaMap.uiSoftMin,
        MetaMap.uiSoftMax, huiMin, huiMax, hty, MetaMap.defaultSoftMin, MetaMap.defaultSoftMax,
        MetaMap.findDefault, Ufe.Attribute.kFloat, Ufe.Attribute.kDouble, Ufe.Attribute.kFloat3,
        Ufe.Attribute.kColorFloat3]
  · intro typeName text hmem
    cases hv : env.UFE_V4_FEATURES_AVAILABLE <;>
      simp only [MetaMap.defaultSoftMin, MetaMap.defaultSoftMax, hv, List.mem_cons,
        List.mem_append, Prod.mk.injEq, Ufe.Value.string.injEq, List.mem_singleton,
        List.not_mem_nil, or_false, if_true, if_false, Bool.false_eq_true] at hmem <;>
      casesm* _ ∨ _ <;> casesm* _ ∧ _ <;> subst_vars <;> decide
  · intro hty
    have hty2 : env.usdTypeToUfe p ∉ (MetaMap.defaultSoftMax env).map Prod.fst := by
      rw [MetaMap.defaultSoftMax_keys]; exact hty
    have e1 := MetaMap.findDefault_eq_none _ _ hty
    have e2 := MetaMap.findDefault_eq_none _ _ hty2
    refine ⟨hty2, ?_, ?_, ?_, ?_⟩ <;>
      simp [getMetadata, hasMetadata, hmin, hminHint, hmax, hmaxHint, f6, f7, MetaMap.uiSoftMin,
        MetaMap.uiSoftMax, huiMin, huiMax, e1, e2, Ufe.Value.empty]

end UsdShaderAttributeDef

namespace UsdShaderAttributeDef

/-- Check of C7 on sample data: a `Float` property, a `ColorFloat3` property and an `Int` property,
none of them with soft-range or UI-range metadata. -/
theorem getMetadata_default_soft_range_witness :
    (getMetadata Sample.env
        { fShaderAttributeDef := some (Sample.property [] [("ufetype", "Float")] []) }
        "uisoftmin" = some (Ufe.Value.string "0") ∧
      getMetadata Sample.env
        { fShaderAttributeDef := some (Sample.property [] [("ufetype", "Float")] []) }
        "uisoftmax" = some (Ufe.Value.string "1")) ∧
    (getMetadata Sample.env
        { fShaderAttributeDef := some (Sample.property [] [("ufetype", "ColorFloat3")] []) }
        "uisoftmin" = some (Ufe.Value.string "0,0,0") ∧
      getMetadata Sample.env
        { fShaderAttributeDef := some (Sample.property [] [("ufetype", "ColorFloat3")] []) }
        "uisoftmax" = some (Ufe.Value.string "1,1,1")) ∧
    commaComponents "1,1,1" = typeComponents "ColorFloat3" ∧
    (getMetadata Sample.env
        { fShaderAttributeDef := some (Sample.property [] [("ufetype", "Int")] []) }
        "uisoftmin" = some Ufe.Value.none ∧
      hasMetadata Sample.env
        { fShaderAttributeDef := some (Sample.property [] [("ufetype", "Int")] []) }
        "uisoftmax" = some false) :=
  ⟨(getMetadata_default_soft_range Sample.env Sample.keys_nodup
      (Sample.property [] [("ufetype", "Float")] [])
      (by decide) (by decide) (by decide) (by decide) (by decide) (by decide)).1
      (Or.inl (by decide)),
    (getMetadata_default_soft_range Sample.env Sample.keys_nodup
      (Sample.property [] [("ufetype", "ColorFloat3")] [])
      (by decide) (by decide) (by decide) (by decide) (by decide) (by decide)).2.1
      (Or.inr (by decide)),
    (getMetadata_default_soft_range Sample.env Sample.keys_nodup
      (Sample.property [] [("ufetype", "ColorFloat3")] [])
      (by decide) (by decide) (by decide) (by decide) (by decide) (by decide)).2.2.1
      "ColorFloat3" "1,1,1" (Or.inr (by decide)),
    ((getMetadata_default_soft_range Sample.env Sample.keys_nodup
      (Sample.property [] [("ufetype", "Int")] [])
      (by decide) (by decide) (by decide) (by decide) (by decide) (by decide)).2.2.2
      (by decide)).2.1,
    ((getMetadata_default_soft_range Sample.env Sample.keys_nodup
      (Sample.property [] [("ufetype", "Int")] [])
      (by decide) (by decide) (by decide) (by decide) (by decide) (by decide)).2.2.2
      (by decide)).2.2.2.2⟩

end UsdShaderAttributeDef

/-! ### The two enumeration loops -/

theorem String.append_eq_empty_iff (s t : String) : s ++ t = "" ↔ s = "" ∧ t = "" := by
  simp [String.ext_iff]

/-- Loop of the `"enum"` conversion from a non-empty start, over non-empty names: every round
appends the separator and the name, as `String.intercalate` does. -/
theorem MetaMap.foldl_enumStep_of_ne (options : List (TfToken × TfToken))
    (hnames : ∀ opt ∈ options, opt.1 ≠ "") (acc : String) (hacc : acc ≠ "") :
    options.foldl MetaMap.enumStep acc =
      String.intercalate.go acc ", " (options.map Prod.fst) := by
  induction options generalizing acc with
  | nil => rfl
  | cons opt rest ih =>
    have hstep : MetaMap.enumStep acc opt = acc ++ ", " ++ opt.1 := by
      simp [MetaMap.enumStep, hacc]
    have hne : acc ++ ", " ++ opt.1 ≠ "" := by
      intro h
      exact hacc ((String.append_eq_empty_iff _ _).mp
        ((String.append_eq_empty_iff _ _).mp h).1).1
    simp only [List.foldl_cons, List.map_cons, String.intercalate.go, hstep]
    exact ih (fun o ho => hnames o (List.mem_cons_of_mem _ ho)) _ hne

/-- Loop of the `"enum"` conversion over non-empty names: the names joined by the separator. -/
theorem MetaMap.foldl_enumStep (options : List (TfToken × TfToken))
    (hnames : ∀ opt ∈ options, opt.1 ≠ "") :
    options.foldl MetaMap.enumStep "" = ", ".intercalate (options.map Prod.fst) := by
  cases options with
  | nil => rfl
  | cons opt rest =>
    have hfirst : MetaMap.enumStep "" opt = opt.1 := by simp [MetaMap.enumStep]
    simp only [List.foldl_cons, List.map_cons, String.intercalate, hfirst]
    exact MetaMap.foldl_enumStep_of_ne rest
      (fun o ho => hnames o (List.mem_cons_of_mem _ ho)) _ (hnames opt (List.mem_cons_self _ _))

theorem String.intercalate_go_ne_empty (sep acc : String) (hacc : acc ≠ "")
    (rest : List String) : String.intercalate.go acc sep rest ≠ "" := by
  induction rest generalizing acc with
  | nil => simpa [String.intercalate.go] using hacc
  | cons a rest ih =>
    simp only [String.intercalate.go]
    apply ih
    intro h
    exact hacc ((String.append_eq_empty_iff _ _).mp
      ((String.append_eq_empty_iff _ _).mp h).1).1

/-- A non-empty list of non-empty texts joins to a non-empty text. -/
theorem String.intercalate_ne_empty (sep : String) (texts : List String)
    (hne : texts ≠ []) (hall : ∀ t ∈ texts, t ≠ "") : sep.intercalate texts ≠ "" := by
  cases texts with
  | nil => exact absurd rfl hne
  | cons a rest =>
    simp only [String.intercalate]
    exact String.intercalate_go_ne_empty sep a (hall a (List.mem_cons_self _ _)) rest

/-- Loop of the `"enumvalues"` conversion: the `"enum"` loop over the options with a non-empty
value, read on their values. -/
theorem MetaMap.foldl_enumvaluesStep (options : List (TfToken × TfToken)) (acc : String) :
    options.foldl MetaMap.enumvaluesStep acc =
      ((options.filter (fun opt => decide (opt.2 ≠ ""))).map
        (fun opt => (opt.2, opt.1))).foldl MetaMap.enumStep acc := by
  induction options generalizing acc with
  | nil => rfl
  | cons opt rest ih =>
    by_cases hv : opt.2 = ""
    · simp [List.filter, MetaMap.enumvaluesStep, hv, ih]
    · simp [List.filter, MetaMap.enumvaluesStep, MetaMap.enumStep, hv, ih]

/-- Loop of the `"enumvalues"` conversion: the non-empty values joined by the separator. -/
theorem MetaMap.foldl_enumvaluesStep_eq (options : List (TfToken × TfToken)) :
    options.foldl MetaMap.enumvaluesStep "" =
      ", ".intercalate ((options.map Prod.snd).filter (fun v => decide (v ≠ ""))) := by
  rw [MetaMap.foldl_enumvaluesStep, MetaMap.foldl_enumStep]
  · congr 1
    induction options with
    | nil => rfl
    | cons opt rest ih =>
      by_cases hv : opt.2 = "" <;> simp [List.filter, hv] at ih ⊢ <;> exact ih
  · intro opt hopt
    simp only [List.mem_map, List.mem_filter] at hopt
    obtain ⟨o, ⟨-, ho⟩, rfl⟩ := hopt
    simpa using ho

theorem MetaMap.nonempty_values_eq_nil_iff (options : List (TfToken × TfToken)) :
    (options.map Prod.snd).filter (fun v => decide (v ≠ "")) = [] ↔
      ∀ opt ∈ options, opt.2 = "" := by
  simp only [List.filter_eq_nil_iff, List.mem_map, decide_eq_true_eq, not_not]
  constructor
  · intro h opt hopt
    exact h opt.2 ⟨opt, hopt, rfl⟩
  · rintro h v ⟨opt, hopt, rfl⟩
    exact h opt hopt

namespace UsdShaderAttributeDef

/-- C8: for a property with no metadata and no hint named `enum`, `getMetadata("enum")` is the
empty value when the property has no options, and for a list of options whose names are all
non-empty it is the names, in the order of the options, joined by `", "`. -/
theorem getMetadata_enum (env : ShaderEnv) (hkeys : (_metaMapKeys env).Nodup)
    (p : SdrShaderProperty) (hm : p.GetMetadata.find "enum" = none)
    (hh : p.GetHints.find "enum" = none) :
    (p.GetOptions = [] →
      getMetadata env { fShaderAttributeDef := some p } "enum" = some Ufe.Value.none) ∧
    (p.GetOptions ≠ [] → (∀ opt ∈ p.GetOptions, opt.1 ≠ "") →
      getMetadata env { fShaderAttributeDef := some p } "enum" =
        some (Ufe.Value.string (", ".intercalate (p.GetOptions.map Prod.fst)))) := by
  obtain ⟨-, -, -, f4, -, -, -⟩ := _metaMap_find env hkeys
  constructor
  · intro hopts
    simp [getMetadata, hm, hh, f4, MetaMap.enum, hopts]
  · intro hopts hnames
    have hloop := MetaMap.foldl_enumStep p.GetOptions hnames
    have hne : ", ".intercalate (p.GetOptions.map Prod.fst) ≠ "" := by
      apply String.intercalate_ne_empty
      · simpa using hopts
      · intro t ht
        simp only [List.mem_map] at ht
        obtain ⟨o, ho, rfl⟩ := ht
        exact hnames o ho
    simp [getMetadata, hm, hh, f4, MetaMap.enum, hloop, hne]

/-- Check of C8 on sample data: a property without options and a property with three options. -/
theorem getMetadata_enum_witness :
    getMetadata Sample.env { fShaderAttributeDef := some (Sample.property [] [] []) } "enum" =
      some Ufe.Value.none ∧
    getMetadata Sample.env
        { fShaderAttributeDef := some
            (Sample.property [("off", "0"), ("on", ""), ("auto", "2")] [] []) } "enum" =
      some (Ufe.Value.string "off, on, auto") :=
  ⟨(getMetadata_enum Sample.env Sample.keys_nodup (Sample.property [] [] [])
      (by decide) (by decide)).1 rfl,
    (getMetadata_enum Sample.env Sample.keys_nodup
      (Sample.property [("off", "0"), ("on", ""), ("auto", "2")] [] [])
      (by decide) (by decide)).2 (by decide) (by decide)⟩

/-- C9: for a property with no metadata and no hint named `enumvalues`, `getMetadata("enumvalues")`
is the non-empty option values, in the order of the options, joined by `", "`, the options with an
empty value being skipped; it is the empty value, and `hasMetadata("enumvalues")` is false, exactly
when no option has a non-empty value. -/
theorem getMetadata_enumvalues (env : ShaderEnv) (hkeys : (_metaMapKeys env).Nodup)
    (p : SdrShaderProperty) (hm : p.GetMetadata.find "enumvalues" = none)
    (hh : p.GetHints.find "enumvalues" = none) :
    ((p.GetOptions.map Prod.snd).filter (fun v => decide (v ≠ "")) ≠ [] →
      getMetadata env { fShaderAttributeDef := some p } "enumvalues" =
        some (Ufe.Value.string
          (", ".intercalate ((p.GetOptions.map Prod.snd).filter (fun v => decide (v ≠ "")))))) ∧
    (getMetadata env { fShaderAttributeDef := some p } "enumvalues" = some Ufe.Value.none ↔
      ∀ opt ∈ p.GetOptions, opt.2 = "") ∧
    (hasMetadata env { fShaderAttributeDef := some p } "enumvalues" = some false ↔
      ∀ opt ∈ p.GetOptions, opt.2 = "") := by
  obtain ⟨-, -, -, -, f5, -, -⟩ := _metaMap_find env hkeys
  have hnil := MetaMap.nonempty_values_eq_nil_iff p.GetOptions
  have hget : getMetadata env { fShaderAttributeDef := some p } "enumvalues" =
      some (MetaMap.enumvalues p) := by
    simp [getMetadata, hm, hh, f5]
  have hhas : hasMetadata env { fShaderAttributeDef := some p } "enumvalues" =
      some (!(MetaMap.enumvalues p).empty) := by
    cases he : (MetaMap.enumvalues p).empty <;> simp [hasMetadata, hm, hh, f5, he]
  by_cases hvals : (p.GetOptions.map Prod.snd).filter (fun v => decide (v ≠ "")) = []
  · have hall := hnil.mp hvals
    have hr : p.GetOptions.foldl MetaMap.enumvaluesStep "" = "" := by
      rw [MetaMap.foldl_enumvaluesStep_eq, hvals]; rfl
    have hval : MetaMap.enumvalues p = Ufe.Value.none := by
      simp only [MetaMap.enumvalues, hr, not_true_eq_false, if_false]
    refine ⟨fun h => absurd hvals h, ?_, ?_⟩
    · rw [hget, hval]
      exact ⟨fun _ => hall, fun _ => rfl⟩
    · rw [hhas, hval]
      exact ⟨fun _ => hall, fun _ => rfl⟩
  · have hne : ", ".intercalate
        ((p.GetOptions.map Prod.snd).filter (fun v => decide (v ≠ ""))) ≠ "" := by
      apply String.intercalate_ne_empty _ _ hvals
      intro t ht
      simpa using (List.mem_filter.mp ht).2
    have hnall : ¬ ∀ opt ∈ p.GetOptions, opt.2 = "" := fun h => hvals (hnil.mpr h)
    have hval : MetaMap.enumvalues p = Ufe.Value.string (", ".intercalate
        ((p.GetOptions.map Prod.snd).filter (fun v => decide (v ≠ "")))) := by
      simp only [MetaMap.enumvalues, MetaMap.foldl_enumvaluesStep_eq, hne, not_false_eq_true,
        if_true]
    refine ⟨fun _ => ?_, ?_, ?_⟩
    · rw [hget, hval]
    · rw [hget, hval]
      constructor
      · intro h
        cases h
      · intro h
        exact absurd h hnall
    · rw [hhas, hval]
      constructor
      · intro h
        cases h
      · intro h
        exact absurd h hnall

/-- Check of C9 on sample data: options of which one has an empty value, and options whose values
are all empty. -/
theorem getMetadata_enumvalues_witness :
    getMetadata Sample.env
        { fShaderAttributeDef := some
            (Sample.property [("off", "0"), ("on", ""), ("auto", "2")] [] []) } "enumvalues" =
      some (Ufe.Value.string "0, 2") ∧
    getMetadata Sample.env
        { fShaderAttributeDef := some (Sample.property [("off", ""), ("on", "")] [] []) }
        "enumvalues" = some Ufe.Value.none ∧
    hasMetadata Sample.env
        { fShaderAttributeDef := some (Sample.property [("off", ""), ("on", "")] [] []) }
        "enumvalues" = some false :=
  ⟨(getMetadata_enumvalues Sample.env Sample.keys_nodup
      (Sample.property [("off", "0"), ("on", ""), ("auto", "2")] [] [])
      (by decide) (by decide)).1 (by decide),
    (getMetadata_enumvalues Sample.env Sample.keys_nodup
      (Sample.property [("off", ""), ("on", "")] [] []) (by decide) (by decide)).2.1.mpr
      (by decide),
    (getMetadata_enumvalues Sample.env Sample.keys_nodup
      (Sample.property [("off", ""), ("on", "")] [] []) (by decide) (by decide)).2.2.mpr
      (by decide)⟩

end UsdShaderAttributeDef

namespace UsdShaderAttributeDef

theorem getMetadata_isSome (env : ShaderEnv) (p : SdrShaderProperty) (key : String) :
    (getMetadata env { fShaderAttributeDef := some p } key).isSome = true := by
  simp only [getMetadata]
  split
  · rfl
  · split
    · rfl
    · split <;> rfl

theorem hasMetadata_isSome (env : ShaderEnv) (p : SdrShaderProperty) (key : String) :
    (hasMetadata env { fShaderAttributeDef := some p } key).isSome = true := by
  simp only [hasMetadata]
  split
  · rfl
  · split
    · rfl
    · split
      · split <;> rfl
      · rfl

/-- C10: the constructor throws, with the message "Invalid shader attribute definition", exactly
when the property pointer it is given is null; an object it builds holds the pointer it was given,
which is not null, so that `name`, `type`, `defaultValue`, `ioType`, `getMetadata` and
`hasMetadata` all have a result on it. -/
theorem create_fails_iff_null (shaderAttributeDef : Option SdrShaderProperty) :
    ((∃ message, create shaderAttributeDef = Except.error message) ↔
      shaderAttributeDef = none) ∧
    (∀ message, create shaderAttributeDef = Except.error message →
      message = "Invalid shader attribute definition") ∧
    (shaderAttributeDef ≠ none →
      create shaderAttributeDef = Except.ok { fShaderAttributeDef := shaderAttributeDef }) ∧
    (∀ self, create shaderAttributeDef = Except.ok self →
      self.fShaderAttributeDef = shaderAttributeDef ∧ self.fShaderAttributeDef ≠ none ∧
      (name self).isSome = true ∧ (ioType self).isSome = true ∧
      ∀ (env : ShaderEnv) (key : String),
        (type env self).isSome = true ∧ (defaultValue env self).isSome = true ∧
        (getMetadata env self key).isSome = true ∧ (hasMetadata env self key).isSome = true) := by
  cases shaderAttributeDef with
  | none =>
    refine ⟨⟨fun _ => rfl, fun _ => ⟨_, rfl⟩⟩, ?_, fun h => absurd rfl h, ?_⟩
    · intro message h
      simp only [create, Option.isSome_none, Bool.false_eq_true, not_false_eq_true, if_true,
        Except.error.injEq] at h
      exact h.symm
    · intro self h
      simp [create] at h
  | some p =>
    refine ⟨⟨?_, fun h => by cases h⟩, ?_, fun _ => by simp [create], ?_⟩
    · rintro ⟨message, h⟩
      simp [create] at h
    · intro message h
      simp [create] at h
    · intro self h
      simp only [create, Option.isSome_some, not_true_eq_false, if_false, Except.ok.injEq] at h
      subst h
      refine ⟨rfl, by simp, rfl, rfl, ?_⟩
      intro env key
      refine ⟨rfl, rfl, ?_, ?_⟩
      · exact getMetadata_isSome env p key
      · exact hasMetadata_isSome env p key

end UsdShaderAttributeDef

/-! ### Rotate command -/

namespace UsdRotateUndoableCommand

/-- C11: the constructor never throws; when the guarded conversion throws, the exception is stored
and every later `set(x, y, z)` throws that exception without calling `perform`, so without any
change; when the guarded block does not throw, nothing is stored and `set(x, y, z)` is `perform`
followed by the answer true; and `set` never answers false. -/
theorem set_rethrows_failed_init {W : Type} (env : RotateEnv W) (w0 : W) :
    ∃ cmd w1, new env w0 = (Except.ok cmd, w1) ∧
      (∀ e wa wb, env.isCommonAPI w0 = (Except.ok false, wa) →
        env.convertToCompatibleCommonAPI wa = (Except.error e, wb) →
        cmd.fFailedInit = some e ∧ w1 = wb ∧
          ∀ x y z w, set env cmd x y z w = (Except.error e, w)) ∧
      (∀ e wa, env.isCommonAPI w0 = (Except.error e, wa) →
        cmd.fFailedInit = some e ∧ w1 = wa ∧
          ∀ x y z w, set env cmd x y z w = (Except.error e, w)) ∧
      ((∃ wa, env.isCommonAPI w0 = (Except.ok true, wa)) ∨
          (∃ wa wb, env.isCommonAPI w0 = (Except.ok false, wa) ∧
            env.convertToCompatibleCommonAPI wa = (Except.ok (), wb)) →
        cmd.fFailedInit = none ∧
          ∀ x y z w,
            (set env cmd x y z w).2 = (env.perform x y z w).2 ∧
            (∀ w2, env.perform x y z w = (Except.ok (), w2) →
              set env cmd x y z w = (Except.ok true, w2)) ∧
            (∀ e w2, env.perform x y z w = (Except.error e, w2) →
              set env cmd x y z w = (Except.error e, w2))) ∧
      (∀ (any : UsdRotateUndoableCommand) x y z w,
        (set env any x y z w).1 ≠ Except.ok false) := by
  have hnever : ∀ (any : UsdRotateUndoableCommand) x y z w,
      (set env any x y z w).1 ≠ Except.ok false := by
    intro any x y z w
    unfold set
    cases any.fFailedInit with
    | some e => simp
    | none =>
      rcases hp : env.perform x y z w with ⟨r, w2⟩
      cases r with
      | error e => simp
      | ok u => simp
  have hstored : ∀ (e : Exception) x y z w,
      set env { fFailedInit := some e } x y z w = (Except.error e, w) := by
    intro e x y z w
    rfl
  have hfresh : ∀ x y z w,
      (set env { fFailedInit := none } x y z w).2 = (env.perform x y z w).2 ∧
      (∀ w2, env.perform x y z w = (Except.ok (), w2) →
        set env { fFailedInit := none } x y z w = (Except.ok true, w2)) ∧
      (∀ e w2, env.perform x y z w = (Except.error e, w2) →
        set env { fFailedInit := none } x y z w = (Except.error e, w2)) := by
    intro x y z w
    unfold set
    rcases hp : env.perform x y z w with ⟨r, w2⟩
    cases r with
    | error e =>
      refine ⟨rfl, ?_, ?_⟩
      · intro w3 h
        simp at h
      · intro e2 w3 h
        simp only [Prod.mk.injEq, Except.error.injEq] at h
        obtain ⟨rfl, rfl⟩ := h
        rfl
    | ok u =>
      refine ⟨rfl, ?_, ?_⟩
      · intro w3 h
        simp only [Prod.mk.injEq, true_and] at h
        subst h
        rfl
      · intro e2 w3 h
        simp at h
  rcases hc : env.isCommonAPI w0 with ⟨r, wa⟩
  cases r with
  | error e =>
    refine ⟨{ fFailedInit := some e }, wa, by simp [new, initBody, hc], ?_, ?_, ?_, hnever⟩
    · intro e2 wa2 wb h
      simp at h
    · intro e2 wa2 h
      simp only [Prod.mk.injEq, Except.error.injEq] at h
      obtain ⟨rfl, rfl⟩ := h
      exact ⟨rfl, rfl, hstored e⟩
    · rintro (⟨wa2, h⟩ | ⟨wa2, wb, h, -⟩) <;> simp at h
  | ok b =>
    cases b with
    | true =>
      refine ⟨{ fFailedInit := none }, wa, by simp [new, initBody, hc], ?_, ?_, ?_, hnever⟩
      · intro e2 wa2 wb h
        simp at h
      · intro e2 wa2 h
        simp at h
      · intro _
        exact ⟨rfl, hfresh⟩
    | false =>
      rcases hv : env.convertToCompatibleCommonAPI wa with ⟨r2, wb⟩
      cases r2 with
      | error e =>
        refine ⟨{ fFailedInit := some e }, wb, by simp [new, initBody, hc, hv], ?_, ?_, ?_,
          hnever⟩
        · intro e2 wa2 wb2 h h2
          simp only [Prod.mk.injEq, true_and] at h
          subst h
          rw [hv] at h2
          simp only [Prod.mk.injEq, Except.error.injEq] at h2
          obtain ⟨rfl, rfl⟩ := h2
          exact ⟨rfl, rfl, hstored e⟩
        · intro e2 wa2 h
          simp at h
        · rintro (⟨wa2, h⟩ | ⟨wa2, wb2, h, h2⟩)
          · simp at h
          · simp only [Prod.mk.injEq, true_and] at h
            subst h
            rw [hv] at h2
            simp at h2
      | ok u =>
        refine ⟨{ fFailedInit := none }, wb, by simp [new, initBody, hc, hv], ?_, ?_, ?_,
          hnever⟩
        · intro e2 wa2 wb2 h h2
          simp only [Prod.mk.injEq, true_and] at h
          subst h
          rw [hv] at h2
          simp at h2
        · intro e2 wa2 h
          simp at h
        · intro _
          exact ⟨rfl, hfresh⟩

/-- C12: `undo()` leaves the world as it is, without running the base undo, when a failure of the
initialisation is stored, and is one run of the base undo when none is stored. -/
theorem undo_checks_init {W : Type} (env : RotateEnv W) (self : UsdRotateUndoableCommand)
    (w : W) :
    (∀ e, self.fFailedInit = some e → undo env self w = (Except.ok (), w)) ∧
    (self.fFailedInit = none → undo env self w = env.undoImp w) := by
  constructor
  · intro e h
    simp [undo, h]
  · intro h
    simp [undo, h]

end UsdRotateUndoableCommand

namespace UsdRotateUndoableCommand

/-- Check of C11 on sample data: a command built on a prim that cannot be converted throws the
stored exception from `set` and applies no rotation; a command built on a convertible prim applies
the rotation and answers true. -/
theorem set_rethrows_failed_init_witness :
    (∃ cmd, new Sample.rotateEnv { rotations := [], undone := 0, convertible := false } =
        (Except.ok cmd, { rotations := [], undone := 0, convertible := false }) ∧
      cmd.fFailedInit = some "Incompatible xform ops" ∧
      set Sample.rotateEnv cmd 10 20 30 { rotations := [], undone := 0, convertible := false } =
        (Except.error "Incompatible xform ops",
          { rotations := [], undone := 0, convertible := false })) ∧
    (∃ cmd, new Sample.rotateEnv { rotations := [], undone := 0, convertible := true } =
        (Except.ok cmd, { rotations := [], undone := 0, convertible := true }) ∧
      cmd.fFailedInit = none ∧
      set Sample.rotateEnv cmd 10 20 30 { rotations := [], undone := 0, convertible := true } =
        (Except.ok true, { rotations := [(10, 20, 30)], undone := 0, convertible := true })) := by
  constructor
  · obtain ⟨cmd, w1, hnew, hfail, -, -, -⟩ :=
      set_rethrows_failed_init Sample.rotateEnv
        { rotations := [], undone := 0, convertible := false }
    obtain ⟨hstored, hw, hset⟩ := hfail "Incompatible xform ops"
      { rotations := [], undone := 0, convertible := false }
      { rotations := [], undone := 0, convertible := false } rfl rfl
    subst hw
    exact ⟨cmd, hnew, hstored, hset 10 20 30 _⟩
  · obtain ⟨cmd, w1, hnew, -, -, hok, -⟩ :=
      set_rethrows_failed_init Sample.rotateEnv
        { rotations := [], undone := 0, convertible := true }
    obtain ⟨hnone, hset⟩ := hok (Or.inr ⟨{ rotations := [], undone := 0, convertible := true },
      { rotations := [], undone := 0, convertible := true }, rfl, rfl⟩)
    have hw : w1 = { rotations := [], undone := 0, convertible := true } := by
      have h2 : new Sample.rotateEnv { rotations := [], undone := 0, convertible := true } =
          (Except.ok { fFailedInit := none },
            { rotations := [], undone := 0, convertible := true }) := rfl
      rw [h2] at hnew
      exact (Prod.mk.inj hnew).2.symm
    subst hw
    exact ⟨cmd, hnew, hnone,
      (hset 10 20 30 { rotations := [], undone := 0, convertible := true }).2.1 _ rfl⟩

/-- Check of C12 on sample data: `undo` of a command with a stored failure leaves the count of
base undos at 0, and `undo` of a command without one raises it to 1. -/
theorem undo_checks_init_witness :
    undo Sample.rotateEnv { fFailedInit := some "Incompatible xform ops" }
        { rotations := [(10, 20, 30)], undone := 0, convertible := false } =
      (Except.ok (), { rotations := [(10, 20, 30)], undone := 0, convertible := false }) ∧
    undo Sample.rotateEnv { fFailedInit := none }
        { rotations := [(10, 20, 30)], undone := 0, convertible := true } =
      (Except.ok (), { rotations := [(10, 20, 30)], undone := 1, convertible := true }) :=
  ⟨(undo_checks_init Sample.rotateEnv { fFailedInit := some "Incompatible xform ops" }
      { rotations := [(10, 20, 30)], undone := 0, convertible := false }).1 _ rfl,
    (undo_checks_init Sample.rotateEnv { fFailedInit := none }
      { rotations := [(10, 20, 30)], undone := 0, convertible := true }).2 rfl⟩

end UsdRotateUndoableCommand

/-! ### Adapter maps -/

theorem AdapterMap.erase_cons {T : Type} (k : SdfPath) (v : T) (rest : AdapterMap T)
    (id : SdfPath) :
    AdapterMap.erase ((k, v) :: rest) id =
      if k = id then AdapterMap.erase rest id else (k, v) :: AdapterMap.erase rest id := by
  by_cases hk : k = id <;> simp [AdapterMap.erase, List.filter, hk]

theorem TfMapLookupPtr_erase_self {T : Type} (m : AdapterMap T) (id : SdfPath) :
    TfMapLookupPtr (m.erase id) id = none := by
  induction m with
  | nil => rfl
  | cons entry rest ih =>
    obtain ⟨k, v⟩ := entry
    rw [AdapterMap.erase_cons]
    by_cases hk : k = id
    · rw [if_pos hk]; exact ih
    · rw [if_neg hk]
      simp only [TfMapLookupPtr, if_neg hk]
      exact ih

theorem TfMapLookupPtr_erase_ne {T : Type} (m : AdapterMap T) (id k : SdfPath) (hne : k ≠ id) :
    TfMapLookupPtr (m.erase id) k = TfMapLookupPtr m k := by
  induction m with
  | nil => rfl
  | cons entry rest ih =>
    obtain ⟨k2, v⟩ := entry
    rw [AdapterMap.erase_cons]
    by_cases hk : k2 = id
    · have hk2 : ¬ k2 = k := fun h => hne (h ▸ hk)
      rw [if_pos hk]
      simp only [TfMapLookupPtr, if_neg hk2]
      exact ih
    · rw [if_neg hk]
      by_cases hkk : k2 = k
      · simp only [TfMapLookupPtr, if_pos hkk]
      · simp only [TfMapLookupPtr, if_neg hkk]
        exact ih

theorem TfMapLookupPtr_append {T : Type} (m n : AdapterMap T) (id : SdfPath) :
    TfMapLookupPtr (m ++ n) id =
      (match TfMapLookupPtr m id with
        | some a => some a
        | none => TfMapLookupPtr n id) := by
  induction m with
  | nil => rfl
  | cons entry rest ih =>
    obtain ⟨k, v⟩ := entry
    by_cases hk : k = id
    · simp [TfMapLookupPtr, hk]
    · simpa [TfMapLookupPtr, hk] using ih

/-- An insertion into a map without the key stores the adapter under the key and leaves the other
keys as they are. -/
theorem TfMapLookupPtr_emplace {T : Type} (m : AdapterMap T) (id : SdfPath) (a : T)
    (habsent : TfMapLookupPtr m id = none) :
    TfMapLookupPtr (m.emplace id a) id = some a ∧
      ∀ k, k ≠ id → TfMapLookupPtr (m.emplace id a) k = TfMapLookupPtr m k := by
  constructor
  · simp [AdapterMap.emplace, habsent, TfMapLookupPtr_append, TfMapLookupPtr]
  · intro k hk
    have hk2 : ¬ id = k := fun h => hk h.symm
    cases hl : TfMapLookupPtr m k <;>
      simp [AdapterMap.emplace, habsent, TfMapLookupPtr_append, TfMapLookupPtr, hk2, hl]

/-- An insertion never leaves the key without an adapter. -/
theorem TfMapLookupPtr_emplace_ne_none {T : Type} (m : AdapterMap T) (id : SdfPath) (a : T) :
    TfMapLookupPtr (m.emplace id a) id ≠ none := by
  cases hl : TfMapLookupPtr m id with
  | none => simp [(TfMapLookupPtr_emplace m id a hl).1]
  | some b => simp [AdapterMap.emplace, hl]

namespace HdMayaSceneDelegate

/-- C13: `RemoveAdapter(id)` removes the id from the first of the shape, light and material maps
that holds it, after the calls `RemoveCallbacks` and `RemovePrim` on the adapter stored there, and
leaves the other maps and the other keys as they are; when none of the three holds the id no map
changes, no call is made and one warning is issued. The camera map is the same after every call. -/
theorem RemoveAdapter_contract (self : HdMayaSceneDelegate) (id : SdfPath) :
    (∀ a, TfMapLookupPtr self._shapeAdapters id = some a →
      TfMapLookupPtr (RemoveAdapter self id)._shapeAdapters id = none ∧
      (∀ k, k ≠ id → TfMapLookupPtr (RemoveAdapter self id)._shapeAdapters k =
        TfMapLookupPtr self._shapeAdapters k) ∧
      (RemoveAdapter self id)._lightAdapters = self._lightAdapters ∧
      (RemoveAdapter self id)._materialAdapters = self._materialAdapters ∧
      (RemoveAdapter self id).calls = self.calls ++
        [(a.GetID, AdapterMethod.RemoveCallbacks), (a.GetID, AdapterMethod.RemovePrim)] ∧
      (RemoveAdapter self id).warnings = self.warnings) ∧
    (TfMapLookupPtr self._shapeAdapters id = none →
      ∀ a, TfMapLookupPtr self._lightAdapters id = some a →
      TfMapLookupPtr (RemoveAdapter self id)._lightAdapters id = none ∧
      (∀ k, k ≠ id → TfMapLookupPtr (RemoveAdapter self id)._lightAdapters k =
        TfMapLookupPtr self._lightAdapters k) ∧
      (RemoveAdapter self id)._shapeAdapters = self._shapeAdapters ∧
      (RemoveAdapter self id)._materialAdapters = self._materialAdapters ∧
      (RemoveAdapter self id).calls = self.calls ++
        [(a.GetID, AdapterMethod.RemoveCallbacks), (a.GetID, AdapterMethod.RemovePrim)] ∧
      (RemoveAdapter self id).warnings = self.warnings) ∧
    (TfMapLookupPtr self._shapeAdapters id = none →
      TfMapLookupPtr self._lightAdapters id = none →
      ∀ a, TfMapLookupPtr self._materialAdapters id = some a →
      TfMapLookupPtr (RemoveAdapter self id)._materialAdapters id = none ∧
      (∀ k, k ≠ id → TfMapLookupPtr (RemoveAdapter self id)._materialAdapters k =
        TfMapLookupPtr self._materialAdapters k) ∧
      (RemoveAdapter self id)._shapeAdapters = self._shapeAdapters ∧
      (RemoveAdapter self id)._lightAdapters = self._lightAdapters ∧
      (RemoveAdapter self id).calls = self.calls ++
        [(a.GetID, AdapterMethod.RemoveCallbacks), (a.GetID, AdapterMethod.RemovePrim)] ∧
      (RemoveAdapter self id).warnings = self.warnings) ∧
    (TfMapLookupPtr self._shapeAdapters id = none →
      TfMapLookupPtr self._lightAdapters id = none →
      TfMapLookupPtr self._materialAdapters id = none →
      (RemoveAdapter self id)._shapeAdapters = self._shapeAdapters ∧
      (RemoveAdapter self id)._lightAdapters = self._lightAdapters ∧
      (RemoveAdapter self id)._materialAdapters = self._materialAdapters ∧
      (RemoveAdapter self id).calls = self.calls ∧
      (RemoveAdapter self id).warnings = self.warnings ++
        ["HdMayaSceneDelegate::RemoveAdapter(" ++ id.GetText ++
          ") -- Adapter does not exists"]) ∧
    (RemoveAdapter self id)._cameraAdapters = self._cameraAdapters := by
  refine ⟨?_, ?_, ?_, ?_, ?_⟩
  · intro a hs
    have hr : RemoveAdapter self id =
        { self with
          calls := self.calls ++ removeCalls a.toAdapter
          _shapeAdapters := self._shapeAdapters.erase id } := by
      simp [RemoveAdapter, _RemoveAdapter, hs]
    rw [hr]
    exact ⟨TfMapLookupPtr_erase_self _ _, fun k hk => TfMapLookupPtr_erase_ne _ _ _ hk,
      rfl, rfl, rfl, rfl⟩
  · intro hs a hl
    have hr : RemoveAdapter self id =
        { self with
          calls := self.calls ++ removeCalls a.toAdapter
          _lightAdapters := self._lightAdapters.erase id } := by
      simp [RemoveAdapter, _RemoveAdapter, hs, hl]
    rw [hr]
    exact ⟨TfMapLookupPtr_erase_self _ _, fun k hk => TfMapLookupPtr_erase_ne _ _ _ hk,
      rfl, rfl, rfl, rfl⟩
  · intro hs hl a hm
    have hr : RemoveAdapter self id =
        { self with
          calls := self.calls ++ removeCalls a.toHdMayaAdapter
          _materialAdapters := self._materialAdapters.erase id } := by
      simp [RemoveAdapter, _RemoveAdapter, hs, hl, hm]
    rw [hr]
    exact ⟨TfMapLookupPtr_erase_self _ _, fun k hk => TfMapLookupPtr_erase_ne _ _ _ hk,
      rfl, rfl, rfl, rfl⟩
  · intro hs hl hm
    have hr : RemoveAdapter self id =
        { self with
          warnings := self.warnings ++
            ["HdMayaSceneDelegate::RemoveAdapter(" ++ id.GetText ++
              ") -- Adapter does not exists"] } := by
      simp [RemoveAdapter, _RemoveAdapter, hs, hl, hm]
    rw [hr]
    exact ⟨rfl, rfl, rfl, rfl, rfl⟩
  · unfold RemoveAdapter
    split
    · rfl
    · split
      · rfl
      · split <;> rfl

/-- Check of C13 on sample data: the removal of the light `/light1`, and the call for the camera
`/persp`, which stays registered and gives a warning. -/
theorem RemoveAdapter_contract_witness :
    (TfMapLookupPtr (RemoveAdapter Sample.populated (SdfPath.prim ["light1"]))._lightAdapters
        (SdfPath.prim ["light1"]) = none ∧
      (RemoveAdapter Sample.populated (SdfPath.prim ["light1"])).calls =
        [(SdfPath.prim ["light1"], AdapterMethod.RemoveCallbacks),
          (SdfPath.prim ["light1"], AdapterMethod.RemovePrim)]) ∧
    ((RemoveAdapter Sample.populated (SdfPath.prim ["persp"])).warnings =
        ["HdMayaSceneDelegate::RemoveAdapter(/persp) -- Adapter does not exists"] ∧
      (TfMapLookupPtr (RemoveAdapter Sample.populated (SdfPath.prim ["persp"]))._cameraAdapters
        (SdfPath.prim ["persp"])).isSome = true) := by
  constructor
  · have h := (RemoveAdapter_contract Sample.populated (SdfPath.prim ["light1"])).2.1
      (by simp [TfMapLookupPtr, Sample.populated])
      (Sample.light (SdfPath.prim ["light1"])) (by simp [TfMapLookupPtr, Sample.populated])
    exact ⟨h.1, h.2.2.2.2.1⟩
  · have h := (RemoveAdapter_contract Sample.populated (SdfPath.prim ["persp"])).2.2.2.1
      (by simp [TfMapLookupPtr, Sample.populated]) (by simp [TfMapLookupPtr, Sample.populated])
      (by simp [TfMapLookupPtr, Sample.populated])
    have hc := (RemoveAdapter_contract Sample.populated (SdfPath.prim ["persp"])).2.2.2.2
    refine ⟨h.2.2.2.2, ?_⟩
    rw [hc]
    simp [TfMapLookupPtr, Sample.populated]

end HdMayaSceneDelegate

theorem SdfPath.GetPrimPath_of_not_property (id : SdfPath) (h : id.IsPropertyPath = false) :
    id.GetPrimPath = id := by
  cases id <;> simp [SdfPath.IsPropertyPath] at h ⊢ <;> rfl

namespace HdMayaSceneDelegate

/-- C14: a getter whose lookups find no adapter gives the default value of its result type.
`GetVisible` is false when the id is in neither the shape nor the light map, also when the id is
in the camera map; `GetDoubleSided` is false when the id is not in the shape map;
`SampleTransform` gives 0 and leaves both buffers as they are when the id is in none of the shape,
camera and light maps; `Get` gives the empty value when the id is in none of the four maps, or, for
a property path, when its prim path is not in the shape map; `GetInstanceIndices` gives the empty
array when the prim path of the instancer id, which is the id itself unless it is a property path,
is not in the shape map. -/
theorem getters_default (self : HdMayaSceneDelegate) (id : SdfPath) :
    (TfMapLookupPtr self._shapeAdapters id = none →
      TfMapLookupPtr self._lightAdapters id = none → GetVisible self id = false) ∧
    (TfMapLookupPtr self._shapeAdapters id = none → GetDoubleSided self id = false) ∧
    (TfMapLookupPtr self._shapeAdapters id = none →
      TfMapLookupPtr self._cameraAdapters id = none →
      TfMapLookupPtr self._lightAdapters id = none →
      ∀ maxSampleCount buffers,
        (SampleTransform self id maxSampleCount).run buffers = (0, buffers)) ∧
    (id.IsPropertyPath = false →
      TfMapLookupPtr self._shapeAdapters id = none →
      TfMapLookupPtr self._cameraAdapters id = none →
      TfMapLookupPtr self._lightAdapters id = none →
      TfMapLookupPtr self._materialAdapters id = none →
      ∀ key, Get self id key = VtValue.empty) ∧
    (id.IsPropertyPath = true →
      TfMapLookupPtr self._shapeAdapters id.GetPrimPath = none →
      ∀ key, Get self id key = VtValue.empty) ∧
    (TfMapLookupPtr self._shapeAdapters id.GetPrimPath = none →
      ∀ prototypeId, GetInstanceIndices self id prototypeId = []) ∧
    (id.IsPropertyPath = false → TfMapLookupPtr self._shapeAdapters id = none →
      ∀ prototypeId, GetInstanceIndices self id prototypeId = []) ∧
    (∀ cameraAdapter, TfMapLookupPtr self._cameraAdapters id = some cameraAdapter →
      TfMapLookupPtr self._shapeAdapters id = none →
      TfMapLookupPtr self._lightAdapters id = none → GetVisible self id = false) := by
  have hvis : TfMapLookupPtr self._shapeAdapters id = none →
      TfMapLookupPtr self._lightAdapters id = none → GetVisible self id = false := by
    intro hs hl
    simp [GetVisible, _GetValue, TfMapLookupPtr_cast, hs, hl, _GetDefaultValue, Id.run, pure]
  have hidx : TfMapLookupPtr self._shapeAdapters id.GetPrimPath = none →
      ∀ prototypeId, GetInstanceIndices self id prototypeId = [] := by
    intro hs prototypeId
    simp [GetInstanceIndices, _GetValue, TfMapLookupPtr_cast, hs, _GetDefaultValue, Id.run, pure]
    rfl
  refine ⟨hvis, ?_, ?_, ?_, ?_, hidx, ?_, fun _ _ hs hl => hvis hs hl⟩
  · intro hs
    simp [GetDoubleSided, _GetValue, hs, _GetDefaultValue, Id.run, pure]
  · intro hs hc hl maxSampleCount buffers
    simp [SampleTransform, _GetValue, TfMapLookupPtr_cast, hs, hc, hl, _GetDefaultValue,
      StateT.run, pure, StateT.pure]
  · intro hp hs hc hl hm key
    simp [Get, hp, _GetValue, TfMapLookupPtr_cast, hs, hc, hl, hm, _GetDefaultValue, Id.run, pure]
    rfl
  · intro hp hs key
    simp [Get, hp, _GetValue, TfMapLookupPtr_cast, hs, _GetDefaultValue, Id.run, pure]
    rfl
  · intro hp hs
    rw [← SdfPath.GetPrimPath_of_not_property id hp] at hs
    exact hidx hs

/-- Check of C14 on sample data: the camera `/persp` is not visible for `GetVisible`, and the
getters give their defaults for the unknown id `/pSphere1`. -/
theorem getters_default_witness :
    GetVisible Sample.populated (SdfPath.prim ["persp"]) = false ∧
    GetDoubleSided Sample.populated (SdfPath.prim ["pSphere1"]) = false ∧
    (SampleTransform Sample.populated (SdfPath.prim ["pSphere1"]) 3).run
        ([7], [{ rows := [[2]] }]) = (0, ([7], [{ rows := [[2]] }])) ∧
    Get Sample.populated (SdfPath.prim ["pSphere1"]) "points" = VtValue.empty ∧
    Get Sample.populated (SdfPath.property ["pSphere1"] "Instancer") "points" = VtValue.empty ∧
    GetInstanceIndices Sample.populated (SdfPath.property ["pSphere1"] "Instancer")
      (SdfPath.prim ["pSphere1"]) = [] :=
  ⟨(getters_default Sample.populated (SdfPath.prim ["persp"])).2.2.2.2.2.2.2
      (Sample.camera (SdfPath.prim ["persp"])) (by simp [TfMapLookupPtr, Sample.populated])
      (by simp [TfMapLookupPtr, Sample.populated]) (by simp [TfMapLookupPtr, Sample.populated]),
    (getters_default Sample.populated (SdfPath.prim ["pSphere1"])).2.1
      (by simp [TfMapLookupPtr, Sample.populated]),
    (getters_default Sample.populated (SdfPath.prim ["pSphere1"])).2.2.1
      (by simp [TfMapLookupPtr, Sample.populated]) (by simp [TfMapLookupPtr, Sample.populated])
      (by simp [TfMapLookupPtr, Sample.populated]) 3 ([7], [{ rows := [[2]] }]),
    (getters_default Sample.populated (SdfPath.prim ["pSphere1"])).2.2.2.1 rfl
      (by simp [TfMapLookupPtr, Sample.populated]) (by simp [TfMapLookupPtr, Sample.populated])
      (by simp [TfMapLookupPtr, Sample.populated]) (by simp [TfMapLookupPtr, Sample.populated])
      "points",
    (getters_default Sample.populated (SdfPath.property ["pSphere1"] "Instancer")).2.2.2.2.1 rfl
      (by simp [TfMapLookupPtr, Sample.populated, SdfPath.GetPrimPath]) "points",
    (getters_default Sample.populated (SdfPath.property ["pSphere1"] "Instancer")).2.2.2.2.2.1
      (by simp [TfMapLookupPtr, Sample.populated, SdfPath.GetPrimPath])
      (SdfPath.prim ["pSphere1"])⟩

end HdMayaSceneDelegate

namespace HdMayaSceneDelegate

/-- C15: `GetMaterialResource` gives the preview material resource for the fallback material id;
for any other id it gives the resource of the material adapter registered under the id when there
is one and its resource is not empty, and the preview material resource otherwise; so an empty
result is the preview material resource, which is then empty itself. -/
theorem GetMaterialResource_contract (GetPreviewMaterialResource : SdfPath → VtValue)
    (self : HdMayaSceneDelegate) (id : SdfPath) :
    (id = self._fallbackMaterial →
      GetMaterialResource GetPreviewMaterialResource self id = GetPreviewMaterialResource id) ∧
    (id ≠ self._fallbackMaterial →
      (∀ a, TfMapLookupPtr self._materialAdapters id = some a →
        a.GetMaterialResource.IsEmpty = false →
        GetMaterialResource GetPreviewMaterialResource self id = a.GetMaterialResource) ∧
      (∀ a, TfMapLookupPtr self._materialAdapters id = some a →
        a.GetMaterialResource.IsEmpty = true →
        GetMaterialResource GetPreviewMaterialResource self id =
          GetPreviewMaterialResource id) ∧
      (TfMapLookupPtr self._materialAdapters id = none →
        GetMaterialResource GetPreviewMaterialResource self id =
          GetPreviewMaterialResource id)) ∧
    ((GetMaterialResource GetPreviewMaterialResource self id).IsEmpty = true →
      (GetPreviewMaterialResource id).IsEmpty = true ∧
      GetMaterialResource GetPreviewMaterialResource self id = GetPreviewMaterialResource id) := by
  by_cases hid : id = self._fallbackMaterial
  · have hr : GetMaterialResource GetPreviewMaterialResource self id =
        GetPreviewMaterialResource id := by
      simp [GetMaterialResource, hid]
    refine ⟨fun _ => hr, fun h => absurd hid h, ?_⟩
    intro he
    rw [hr] at he
    exact ⟨he, hr⟩
  · cases hl : TfMapLookupPtr self._materialAdapters id with
    | none =>
      have hr : GetMaterialResource GetPreviewMaterialResource self id =
          GetPreviewMaterialResource id := by
        simp [GetMaterialResource, hid, _GetValue, hl, _GetDefaultValue, Id.run, pure]
        intro h
        have hd : (default : VtValue).IsEmpty = true := rfl
        rw [hd] at h
        cases h
      refine ⟨fun h => absurd h hid, fun _ => ⟨?_, ?_, fun _ => hr⟩, ?_⟩
      · intro a ha
        cases ha
      · intro a ha
        cases ha
      · intro he
        rw [hr] at he
        exact ⟨he, hr⟩
    | some a =>
      cases hemp : a.GetMaterialResource.IsEmpty with
      | true =>
        have hr : GetMaterialResource GetPreviewMaterialResource self id =
            GetPreviewMaterialResource id := by
          simp [GetMaterialResource, hid, _GetValue, hl, Id.run, pure, hemp]
        refine ⟨fun h => absurd h hid, fun _ => ⟨?_, ?_, ?_⟩, ?_⟩
        · intro b hb hne
          cases hb
          rw [hemp] at hne
          cases hne
        · intro b _ _
          exact hr
        · intro h
          cases h
        · intro he
          rw [hr] at he
          exact ⟨he, hr⟩
      | false =>
        have hr : GetMaterialResource GetPreviewMaterialResource self id =
            a.GetMaterialResource := by
          simp [GetMaterialResource, hid, _GetValue, hl, Id.run, pure, hemp]
        refine ⟨fun h => absurd h hid, fun _ => ⟨?_, ?_, ?_⟩, ?_⟩
        · intro b hb _
          cases hb
          exact hr
        · intro b hb he
          cases hb
          rw [hemp] at he
          cases he
        · intro h
          cases h
        · intro he
          rw [hr, hemp] at he
          cases he

/-- Check of C15 on sample data, with a preview resource that names the id: the fallback id and
an unknown id give the preview resource, the id `/materials/I` gives the resource of its
adapter. -/
theorem GetMaterialResource_contract_witness :
    GetMaterialResource (fun id => VtValue.held ("preview:" ++ id.GetText)) Sample.populated
        (SdfPath.prim ["delegate", "__fallback_material__"]) =
      VtValue.held "preview:/delegate/__fallback_material__" ∧
    GetMaterialResource (fun id => VtValue.held ("preview:" ++ id.GetText)) Sample.populated
        (SdfPath.prim ["materials", "I"]) = VtValue.held "network" ∧
    GetMaterialResource (fun id => VtValue.held ("preview:" ++ id.GetText)) Sample.populated
        (SdfPath.prim ["materials", "II"]) = VtValue.held "preview:/materials/II" :=
  ⟨(GetMaterialResource_contract (fun id => VtValue.held ("preview:" ++ id.GetText))
      Sample.populated (SdfPath.prim ["delegate", "__fallback_material__"])).1 rfl,
    ((GetMaterialResource_contract (fun id => VtValue.held ("preview:" ++ id.GetText))
      Sample.populated (SdfPath.prim ["materials", "I"])).2.1 (by decide)).1
      (Sample.material (SdfPath.prim ["materials", "I"]) true)
      (by simp [TfMapLookupPtr, Sample.populated]) rfl,
    ((GetMaterialResource_contract (fun id => VtValue.held ("preview:" ++ id.GetText))
      Sample.populated (SdfPath.prim ["materials", "II"])).2.1 (by decide)).2.2
      (by simp [TfMapLookupPtr, Sample.populated])⟩

/-- C16: when `GetMaterialId` gives a path that is neither the empty path nor the fallback material
path, the material map holds an adapter under that path when the call returns. -/
theorem GetMaterialId_registered (ctx : DelegateCtx) (self : HdMayaSceneDelegate) (id : SdfPath)
    (hempty : (GetMaterialId ctx self id).1 ≠ SdfPath.empty)
    (hfallback : (GetMaterialId ctx self id).1 ≠ self._fallbackMaterial) :
    TfMapLookupPtr (GetMaterialId ctx self id).2._materialAdapters (GetMaterialId ctx self id).1
      ≠ none := by
  unfold GetMaterialId at hempty hfallback ⊢
  cases hen : self._enableMaterials with
  | false => simp [hen] at hempty
  | true =>
    cases hs : TfMapLookupPtr self._shapeAdapters id with
    | none => simp [hen, hs] at hfallback
    | some shapeAdapter =>
      by_cases hm : shapeAdapter.GetMaterial = MObject.kNullObj
      · simp [hen, hs, hm] at hfallback
      · cases hreg : TfMapLookupPtr self._materialAdapters
            (ctx.GetMaterialPath shapeAdapter.GetMaterial) with
        | some a => simp [hen, hs, hm, hreg]
        | none =>
          simp only [hen, hs, hm, hreg, Bool.not_true, Bool.false_eq_true, if_false,
            Option.isSome_none] at hfallback ⊢
          unfold _CreateMaterial at hfallback ⊢
          cases hc : ctx.GetMaterialAdapterCreator shapeAdapter.GetMaterial with
          | none => simp [hc] at hfallback
          | some materialCreator =>
            cases ha : materialCreator (ctx.GetMaterialPath shapeAdapter.GetMaterial)
                shapeAdapter.GetMaterial with
            | none => simp [hc, ha] at hfallback
            | some materialAdapter =>
              cases hsup : materialAdapter.IsSupported with
              | false => simp [hc, ha, hsup] at hfallback
              | true =>
                simp only [hc, ha, hsup, Bool.not_true, Bool.false_eq_true, if_false, if_true]
                exact TfMapLookupPtr_emplace_ne_none _ _ _

/-- Check of C16 on sample data: the call that creates the material adapter `/materials/I`. -/
theorem GetMaterialId_registered_witness :
    (TfMapLookupPtr
      (GetMaterialId Sample.ctx (Sample.delegate true (MObject.node 1) [])
        (SdfPath.prim ["pCube1"])).2._materialAdapters (SdfPath.prim ["materials", "I"])).isSome
      = true :=
  Option.isSome_iff_ne_none.mpr
    (GetMaterialId_registered Sample.ctx (Sample.delegate true (MObject.node 1) [])
      (SdfPath.prim ["pCube1"])
      (by simp [GetMaterialId, TfMapLookupPtr, Sample.delegate, Sample.shape, Sample.ctx,
        _CreateMaterial, Sample.material])
      (by simp [GetMaterialId, TfMapLookupPtr, Sample.delegate, Sample.shape, Sample.ctx,
        _CreateMaterial, Sample.material]))

end HdMayaSceneDelegate

namespace HdMayaSceneDelegate

/-- C19: `Create` gives null, leaves the map as it is and makes no call when the creator is empty,
when the prim path of the DAG path is a key of the map, when the creator gives null and when the
adapter it gives is not supported; otherwise it gives the new adapter, calls `Populate` and then
`CreateCallbacks` on it, and adds the one entry from the prim path to the adapter. In every case an
adapter that was in the map is still in it under its key. -/
theorem Create_contract {A : Type} (up : A → HdMayaAdapter) (ctx : SceneCtx) (dag : MDagPath)
    (adapterCreator : Option (AdapterCreator A)) (adapterMap : AdapterMap A) (isSprim : Bool) :
    (adapterCreator = none →
      Create up ctx dag adapterCreator adapterMap isSprim = (none, adapterMap, [])) ∧
    (TfMapLookupPtr adapterMap (ctx.GetPrimPath dag isSprim) ≠ none →
      Create up ctx dag adapterCreator adapterMap isSprim = (none, adapterMap, [])) ∧
    (∀ creator, adapterCreator = some creator → creator dag = none →
      Create up ctx dag adapterCreator adapterMap isSprim = (none, adapterMap, [])) ∧
    (∀ creator adapter, adapterCreator = some creator → creator dag = some adapter →
      (up adapter).IsSupported = false →
      Create up ctx dag adapterCreator adapterMap isSprim = (none, adapterMap, [])) ∧
    (∀ creator adapter, adapterCreator = some creator →
      TfMapLookupPtr adapterMap (ctx.GetPrimPath dag isSprim) = none →
      creator dag = some adapter → (up adapter).IsSupported = true →
      Create up ctx dag adapterCreator adapterMap isSprim =
        (some adapter, adapterMap ++ [(ctx.GetPrimPath dag isSprim, adapter)],
          [((up adapter).GetID, AdapterMethod.Populate),
            ((up adapter).GetID, AdapterMethod.CreateCallbacks)])) ∧
    (∀ k a, TfMapLookupPtr adapterMap k = some a →
      TfMapLookupPtr (Create up ctx dag adapterCreator adapterMap isSprim).2.1 k = some a) := by
  have hkey : TfMapLookupPtr adapterMap (ctx.GetPrimPath dag isSprim) ≠ none →
      Create up ctx dag adapterCreator adapterMap isSprim = (none, adapterMap, []) := by
    intro hk
    have hsome := Option.isSome_iff_ne_none.mpr hk
    unfold Create
    cases adapterCreator with
    | none => rfl
    | some creator => simp [hsome]
  have hnew : ∀ creator adapter, adapterCreator = some creator →
      TfMapLookupPtr adapterMap (ctx.GetPrimPath dag isSprim) = none →
      creator dag = some adapter → (up adapter).IsSupported = true →
      Create up ctx dag adapterCreator adapterMap isSprim =
        (some adapter, adapterMap ++ [(ctx.GetPrimPath dag isSprim, adapter)],
          [((up adapter).GetID, AdapterMethod.Populate),
            ((up adapter).GetID, AdapterMethod.CreateCallbacks)]) := by
    intro creator adapter hc hk ha hs
    simp [Create, hc, hk, ha, hs, AdapterMap.emplace]
  refine ⟨?_, hkey, ?_, ?_, hnew, ?_⟩
  · intro hc
    simp [Create, hc]
  · intro creator hc ha
    subst hc
    unfold Create
    by_cases hk : (TfMapLookupPtr adapterMap (ctx.GetPrimPath dag isSprim)).isSome = true
    · simp [hk]
    · simp [hk, ha]
  · intro creator adapter hc ha hs
    subst hc
    unfold Create
    by_cases hk : (TfMapLookupPtr adapterMap (ctx.GetPrimPath dag isSprim)).isSome = true
    · simp [hk]
    · simp [hk, ha, hs]
  · intro k a hka
    cases hc : adapterCreator with
    | none => simpa [Create] using hka
    | some creator =>
      cases hk : TfMapLookupPtr adapterMap (ctx.GetPrimPath dag isSprim) with
      | some b =>
        rw [← hc, hkey (by simp [hk])]
        exact hka
      | none =>
        cases ha : creator dag with
        | none =>
          simpa [Create, hk, ha] using hka
        | some adapter =>
          cases hs : (up adapter).IsSupported with
          | false => simpa [Create, hk, ha, hs] using hka
          | true =>
            rw [← hc, hnew creator adapter hc hk ha hs]
            simp [TfMapLookupPtr_append, hka]

/-- Check of C19 on sample data: the light node 40 gets its adapter in an empty map, and gets
none in a map that holds `/light1`; the node 10, which has no light creator, gets none. -/
theorem Create_contract_witness :
    ((Create HdMayaLightAdapter.toAdapter Sample.sceneCtx { nodes := [MObject.node 40] }
        (Sample.sceneCtx.GetLightAdapterCreator { nodes := [MObject.node 40] }) [] true).1.isSome
        = true ∧
      (Create HdMayaLightAdapter.toAdapter Sample.sceneCtx { nodes := [MObject.node 40] }
        (Sample.sceneCtx.GetLightAdapterCreator { nodes := [MObject.node 40] }) [] true).2.2 =
        [(SdfPath.prim ["light1"], AdapterMethod.Populate),
          (SdfPath.prim ["light1"], AdapterMethod.CreateCallbacks)]) ∧
    (Create HdMayaLightAdapter.toAdapter Sample.sceneCtx { nodes := [MObject.node 40] }
        (Sample.sceneCtx.GetLightAdapterCreator { nodes := [MObject.node 40] })
        Sample.populated._lightAdapters true).1.isSome = false ∧
    (Create HdMayaLightAdapter.toAdapter Sample.sceneCtx { nodes := [MObject.node 10] }
        (Sample.sceneCtx.GetLightAdapterCreator { nodes := [MObject.node 10] }) [] true).1.isSome
        = false := by
  refine ⟨?_, ?_, ?_⟩
  · have h := (Create_contract HdMayaLightAdapter.toAdapter Sample.sceneCtx
      { nodes := [MObject.node 40] }
      (Sample.sceneCtx.GetLightAdapterCreator { nodes := [MObject.node 40] }) [] true).2.2.2.2.1
      (fun _ => some (Sample.light (SdfPath.prim ["light1"])))
      (Sample.light (SdfPath.prim ["light1"])) rfl rfl rfl rfl
    rw [h]
    exact ⟨rfl, rfl⟩
  · have h := (Create_contract HdMayaLightAdapter.toAdapter Sample.sceneCtx
      { nodes := [MObject.node 40] }
      (Sample.sceneCtx.GetLightAdapterCreator { nodes := [MObject.node 40] })
      Sample.populated._lightAdapters true).2.1
      (by simp [TfMapLookupPtr, Sample.populated, Sample.sceneCtx, Sample.scene])
    rw [h]
    rfl
  · have h := (Create_contract HdMayaLightAdapter.toAdapter Sample.sceneCtx
      { nodes := [MObject.node 10] }
      (Sample.sceneCtx.GetLightAdapterCreator { nodes := [MObject.node 10] }) [] true).1 rfl
    rw [h]
    rfl

end HdMayaSceneDelegate

/-! ### Work that leaves the pending work pending -/

namespace HdMayaSceneDelegate

theorem LeftPending.left_refl (s : HdMayaSceneDelegate) : LeftPending s s :=
  ⟨rfl, List.prefix_refl _, List.prefix_refl _, [], by simp, by simp⟩

theorem LeftPending.left_trans {s1 s2 s3 : HdMayaSceneDelegate} (h12 : LeftPending s1 s2)
    (h23 : LeftPending s2 s3) : LeftPending s1 s3 := by
  obtain ⟨a1, b1, c1, m1, d1, e1⟩ := h12
  obtain ⟨a2, b2, c2, m2, d2, e2⟩ := h23
  refine ⟨a2.trans a1, b1.trans b2, c1.trans c2, m1 ++ m2, ?_, ?_⟩
  · rw [d2, d1, List.append_assoc]
  · intro call hc
    rcases List.mem_append.mp hc with h | h
    · exact e1 call h
    · exact e2 call h

theorem LeftPending.left_foldl {α : Type} (f : HdMayaSceneDelegate → α → HdMayaSceneDelegate)
    (hf : ∀ s x, LeftPending s (f s x)) (l : List α) (s : HdMayaSceneDelegate) :
    LeftPending s (l.foldl f s) := by
  induction l generalizing s with
  | nil => exact LeftPending.left_refl s
  | cons x rest ih => exact (hf s x).left_trans (ih (f s x))

/-- Work that changes the maps and adds calls of the kinds allowed. -/
theorem LeftPending.left_of_calls (s s' : HdMayaSceneDelegate) (made : List AdapterCall)
    (hadded : s'._addedNodes = s._addedNodes)
    (hrecreate : s'._adaptersToRecreate = s._adaptersToRecreate)
    (hrebuild : s'._adaptersToRebuild = s._adaptersToRebuild)
    (hcalls : s'.calls = s.calls ++ made)
    (hmade : ∀ call ∈ made, call.2.removesOrShadows = false) : LeftPending s s' :=
  ⟨hadded, by rw [hrecreate], by rw [hrebuild], made, hcalls, hmade⟩

theorem recreateOnIdle_ids (pending : List (SdfPath × MObject)) (id : SdfPath) (obj : MObject) :
    pending.map Prod.fst <+: (recreateOnIdle pending id obj).map Prod.fst := by
  induction pending with
  | nil => exact List.nil_prefix
  | cons entry rest ih =>
    obtain ⟨k, o⟩ := entry
    by_cases hk : k = id
    · simp [recreateOnIdle, hk]
    · simpa [recreateOnIdle, hk, List.cons_prefix_cons] using ih

theorem rebuildOnIdle_ids (pending : List (SdfPath × Nat)) (id : SdfPath) (flags : Nat) :
    pending.map Prod.fst <+: (rebuildOnIdle pending id flags).map Prod.fst := by
  induction pending with
  | nil => exact List.nil_prefix
  | cons entry rest ih =>
    obtain ⟨k, o⟩ := entry
    by_cases hk : k = id
    · simp [rebuildOnIdle, hk]
    · simpa [rebuildOnIdle, hk, List.cons_prefix_cons] using ih

theorem LeftPending.left_RecreateAdapterOnIdle (s : HdMayaSceneDelegate) (id : SdfPath)
    (obj : MObject) : LeftPending s (RecreateAdapterOnIdle s id obj) :=
  ⟨rfl, recreateOnIdle_ids _ _ _, List.prefix_refl _, [], by
    simp [HdMayaSceneDelegate.RecreateAdapterOnIdle],
    by simp⟩

theorem LeftPending.left_RebuildAdapterOnIdle (s : HdMayaSceneDelegate) (id : SdfPath)
    (flags : Nat) : LeftPending s (RebuildAdapterOnIdle s id flags) :=
  ⟨rfl, List.prefix_refl _, rebuildOnIdle_ids _ _ _, [], by
    simp [HdMayaSceneDelegate.RebuildAdapterOnIdle],
    by simp⟩

end HdMayaSceneDelegate

namespace HdMayaSceneDelegate

theorem LeftPending.left_CreateMaterial (ctx : DelegateCtx) (s : HdMayaSceneDelegate) (id : SdfPath)
    (obj : MObject) : LeftPending s (_CreateMaterial ctx s id obj).2 := by
  unfold HdMayaSceneDelegate._CreateMaterial
  split
  · exact LeftPending.left_refl s
  · split
    · exact LeftPending.left_refl s
    · split
      · exact LeftPending.left_refl s
      · refine LeftPending.left_of_calls _ _ _ rfl rfl rfl rfl ?_
        intro call hc
        simp only [List.mem_cons, List.mem_singleton, List.not_mem_nil, or_false] at hc
        rcases hc with h | h <;> rw [h] <;> rfl

theorem Create_calls {A : Type} (up : A → HdMayaAdapter) (ctx : SceneCtx) (dag : MDagPath)
    (adapterCreator : Option (AdapterCreator A)) (adapterMap : AdapterMap A) (isSprim : Bool) :
    ∀ call ∈ (Create up ctx dag adapterCreator adapterMap isSprim).2.2,
      call.2.removesOrShadows = false := by
  intro call hc
  cases hcr : adapterCreator with
  | none => simp [Create, hcr] at hc
  | some creator =>
    by_cases hk : (TfMapLookupPtr adapterMap (ctx.GetPrimPath dag isSprim)).isSome = true
    · simp [Create, hcr, hk] at hc
    · cases ha : creator dag with
      | none => simp [Create, hcr, hk, ha] at hc
      | some adapter =>
        cases hs : (up adapter).IsSupported with
        | false => simp [Create, hcr, hk, ha, hs] at hc
        | true =>
          simp only [Create, hcr, hk, ha, hs, Bool.not_true, Bool.false_eq_true, if_false,
            List.mem_cons, List.mem_singleton, List.not_mem_nil, or_false] at hc
          rcases hc with h | h <;> rw [h] <;> rfl

theorem _CreateMaterial_enableMaterials (ctx : DelegateCtx) (s : HdMayaSceneDelegate)
    (id : SdfPath) (obj : MObject) :
    (_CreateMaterial ctx s id obj).2._enableMaterials = s._enableMaterials := by
  unfold _CreateMaterial
  split
  · rfl
  · split
    · rfl
    · split <;> rfl

/-- Insertion of a DAG path keeps the flag for materials and leaves the pending work pending. -/
theorem InsertDag_scheduled (ctx : SceneCtx) (s : HdMayaSceneDelegate) (dag : MDagPath) :
    Scheduled s (InsertDag ctx s dag) := by
  by_cases ht : ctx.scene.hasFnTransform dag = true
  · have hI : InsertDag ctx s dag = s := by simp [InsertDag, ht]
    rw [hI]
    exact ⟨rfl, LeftPending.left_refl s⟩
  by_cases hi : ctx.scene.isIntermediateObject dag = true
  · have hI : InsertDag ctx s dag = s := by simp [InsertDag, ht, hi]
    rw [hI]
    exact ⟨rfl, LeftPending.left_refl s⟩
  by_cases hu : ctx.scene.ufeRuntime dag = some "USD"
  · have hI : InsertDag ctx s dag = s := by
      simp [InsertDag, ht, hi, hu]
    rw [hI]
    exact ⟨rfl, LeftPending.left_refl s⟩
  simp only [InsertDag, ht, hi, hu, Bool.false_eq_true, if_false]
  have hL : ∀ call ∈ (if ctx.GetLightsEnabled = true then
        Create HdMayaLightAdapter.toAdapter ctx dag (ctx.GetLightAdapterCreator dag)
          s._lightAdapters true
      else (none, s._lightAdapters, [])).2.2, call.2.removesOrShadows = false := by
    by_cases hle : ctx.GetLightsEnabled = true
    · simp only [hle, if_true]
      exact Create_calls _ _ _ _ _ _
    · simp [hle]
  generalize (if ctx.GetLightsEnabled = true then
        Create HdMayaLightAdapter.toAdapter ctx dag (ctx.GetLightAdapterCreator dag)
          s._lightAdapters true
      else (none, s._lightAdapters, [])) = L at hL ⊢
  have hC := Create_calls HdMayaCameraAdapter.toAdapter ctx dag (ctx.GetCameraAdapterCreator dag)
    s._cameraAdapters true
  generalize Create HdMayaCameraAdapter.toAdapter ctx dag (ctx.GetCameraAdapterCreator dag)
    s._cameraAdapters true = C at hC ⊢
  have hS := Create_calls HdMayaShapeAdapter.toAdapter ctx dag (ctx.GetShapeAdapterCreator dag)
    s._shapeAdapters false
  generalize Create HdMayaShapeAdapter.toAdapter ctx dag (ctx.GetShapeAdapterCreator dag)
    s._shapeAdapters false = S at hS ⊢
  have hP : ∀ call ∈ (if S.1.isSome = true then (S.1, S.2.1, [])
      else Create HdMayaShapeAdapter.toAdapter ctx dag (ctx.GetProxyShapeAdapterCreator dag)
        S.2.1 false).2.2, call.2.removesOrShadows = false := by
    by_cases hs : S.1.isSome = true
    · simp [hs]
    · simp only [hs, Bool.false_eq_true, if_false]
      exact Create_calls _ _ _ _ _ _
  generalize (if S.1.isSome = true then (S.1, S.2.1, [])
      else Create HdMayaShapeAdapter.toAdapter ctx dag (ctx.GetProxyShapeAdapterCreator dag)
        S.2.1 false) = P at hP ⊢
  have hLC : ∀ call ∈ L.2.2 ++ C.2.2, call.2.removesOrShadows = false := by
    intro call hc
    rcases List.mem_append.mp hc with h | h
    · exact hL call h
    · exact hC call h
  have hAll : ∀ call ∈ L.2.2 ++ C.2.2 ++ S.2.2 ++ P.2.2, call.2.removesOrShadows = false := by
    intro call hc
    rcases List.mem_append.mp hc with h | h
    · rcases List.mem_append.mp h with h | h
      · exact hLC call h
      · exact hS call h
    · exact hP call h
  have hstep : ∀ (made : List AdapterCall) (s4 : HdMayaSceneDelegate),
      (∀ call ∈ made, call.2.removesOrShadows = false) →
      s4._enableMaterials = s._enableMaterials →
      s4._addedNodes = s._addedNodes → s4._adaptersToRecreate = s._adaptersToRecreate →
      s4._adaptersToRebuild = s._adaptersToRebuild →
      s4.calls = s.calls ++ made →
      Scheduled s s4 :=
    fun made s4 hmade he ha hr hb hcalls =>
      ⟨he, LeftPending.left_of_calls _ _ made ha hr hb hcalls hmade⟩
  by_cases hl : L.1.isSome = true
  · simp only [hl, if_true]
    refine hstep L.2.2 _ hL ?_ ?_ ?_ ?_ ?_ <;> rfl
  simp only [hl, Bool.false_eq_true, if_false]
  by_cases hc : C.1.isSome = true
  · simp only [hc, if_true]
    refine hstep (L.2.2 ++ C.2.2) _ hLC ?_ ?_ ?_ ?_ ?_ <;>
      first | rfl | simp only [List.append_assoc]
  simp only [hc, Bool.false_eq_true, if_false]
  by_cases hinst : (ctx.scene.isInstanced dag && decide (ctx.scene.instanceNumber dag > 0)) = true
  · simp only [hinst, if_true]
    refine hstep (L.2.2 ++ C.2.2) _ hLC ?_ ?_ ?_ ?_ ?_ <;>
      first | rfl | simp only [List.append_assoc]
  simp only [hinst, Bool.false_eq_true, if_false]
  cases hp : P.1 with
  | none =>
    refine hstep (L.2.2 ++ C.2.2 ++ S.2.2 ++ P.2.2) _ hAll ?_ ?_ ?_ ?_ ?_ <;>
      first | rfl | simp only [List.append_assoc]
  | some adapter =>
    simp only []
    by_cases hm : adapter.GetMaterial = MObject.kNullObj
    · simp only [hm, if_true]
      refine hstep (L.2.2 ++ C.2.2 ++ S.2.2 ++ P.2.2) _ hAll ?_ ?_ ?_ ?_ ?_ <;>
        first | rfl | simp only [List.append_assoc]
    · simp only [hm, Bool.false_eq_true, if_false]
      by_cases hreg : (TfMapLookupPtr s._materialAdapters
          (ctx.GetMaterialPath adapter.GetMaterial)).isSome = true
      · simp only [hreg, if_true]
        refine hstep (L.2.2 ++ C.2.2 ++ S.2.2 ++ P.2.2) _ hAll ?_ ?_ ?_ ?_ ?_ <;>
          first | rfl | simp only [List.append_assoc]
      · simp only [hreg, Bool.false_eq_true, if_false]
        have h4 :=
          hstep (L.2.2 ++ C.2.2 ++ S.2.2 ++ P.2.2)
            { s with
              _lightAdapters := L.2.1
              _cameraAdapters := C.2.1
              _shapeAdapters := P.2.1
              calls := s.calls ++ L.2.2 ++ C.2.2 ++ S.2.2 ++ P.2.2 } hAll rfl rfl rfl rfl
            (by simp only [List.append_assoc])
        exact ⟨(_CreateMaterial_enableMaterials _ _ _ _).trans h4.1,
          h4.2.left_trans (LeftPending.left_CreateMaterial _ _ _ _)⟩

end HdMayaSceneDelegate

namespace HdMayaSceneDelegate

theorem Scheduled.sched_refl (s : HdMayaSceneDelegate) : Scheduled s s :=
  ⟨rfl, LeftPending.left_refl s⟩

theorem Scheduled.sched_trans {s1 s2 s3 : HdMayaSceneDelegate} (h12 : Scheduled s1 s2)
    (h23 : Scheduled s2 s3) : Scheduled s1 s3 :=
  ⟨h23.1.trans h12.1, h12.2.left_trans h23.2⟩

theorem Scheduled.sched_foldl {α : Type} (f : HdMayaSceneDelegate → α → HdMayaSceneDelegate)
    (hf : ∀ s x, Scheduled s (f s x)) (l : List α) (s : HdMayaSceneDelegate) :
    Scheduled s (l.foldl f s) := by
  induction l generalizing s with
  | nil => exact Scheduled.sched_refl s
  | cons x rest ih => exact (hf s x).sched_trans (ih (f s x))

theorem AddNewInstance_scheduled (ctx : SceneCtx) (s : HdMayaSceneDelegate) (dag : MDagPath) :
    Scheduled s (AddNewInstance ctx s dag) := by
  unfold AddNewInstance
  cases hd : ctx.scene.getAllPathsTo (ctx.scene.node dag) with
  | nil => exact Scheduled.sched_refl s
  | cons masterDag others =>
    simp only []
    cases hl : TfMapLookupPtr s._shapeAdapters (ctx.GetPrimPath masterDag false) with
    | none => exact Scheduled.sched_refl s
    | some masterAdapter =>
      simp only []
      split
      · exact ⟨rfl, LeftPending.left_RecreateAdapterOnIdle _ _ _⟩
      · refine ⟨rfl, (LeftPending.left_RebuildAdapterOnIdle s (ctx.GetPrimPath masterDag false)
          ctx.RebuildFlagCallbacks).left_trans ?_⟩
        refine LeftPending.left_of_calls _ _ _ rfl rfl rfl rfl ?_
        intro call hc
        simp only [List.mem_singleton] at hc
        rw [hc]
        rfl

theorem addNode_scheduled (ctx : SceneCtx) (s : HdMayaSceneDelegate) (dag : MDagPath) :
    Scheduled s (PreFrame.addNode ctx s dag) := by
  unfold PreFrame.addNode
  split
  · apply Scheduled.sched_foldl
    intro acc child
    simp only []
    split
    · exact AddNewInstance_scheduled ctx acc _
    · exact Scheduled.sched_refl acc
  · exact InsertDag_scheduled ctx s dag

theorem addedNodesLoop_scheduled (ctx : SceneCtx) (nodes : List MObject)
    (s : HdMayaSceneDelegate) : Scheduled s (PreFrame.addedNodesLoop ctx nodes s).2 := by
  induction nodes generalizing s with
  | nil => exact Scheduled.sched_refl s
  | cons obj rest ih =>
    unfold PreFrame.addedNodesLoop
    split
    · exact ih s
    · split
      · exact Scheduled.sched_refl s
      · exact (addNode_scheduled ctx s _).sched_trans (ih _)

theorem materialTag_scheduled (ctx : SceneCtx) (s : HdMayaSceneDelegate) (id : SdfPath) :
    Scheduled s (PreFrame.materialTag ctx s id) := by
  unfold PreFrame.materialTag
  split
  · exact Scheduled.sched_refl s
  · rename_i a _
    have h1 : Scheduled s
        { s with calls := s.calls ++ [(a.GetID, AdapterMethod.UpdateMaterialTag)] } := by
      refine ⟨rfl, LeftPending.left_of_calls _ _ _ rfl rfl rfl rfl ?_⟩
      intro call hc
      simp only [List.mem_singleton] at hc
      rw [hc]
      rfl
    simp only []
    split
    · refine h1.sched_trans ?_
      apply Scheduled.sched_foldl
      intro acc rprimId
      split
      · exact Scheduled.sched_refl acc
      · split
        · exact ⟨rfl, LeftPending.left_RebuildAdapterOnIdle _ _ _⟩
        · exact Scheduled.sched_refl acc
    · exact h1

theorem materialTags_scheduled (ctx : SceneCtx) (s : HdMayaSceneDelegate) :
    Scheduled s (PreFrame.materialTags ctx s) := by
  unfold PreFrame.materialTags
  split
  · have h : Scheduled s
        (if ctx.IsHdSt = true then s._materialTagsChanged.foldl (PreFrame.materialTag ctx) s
          else s) := by
      split
      · exact Scheduled.sched_foldl _ (materialTag_scheduled ctx) _ _
      · exact Scheduled.sched_refl s
    obtain ⟨he, ha, hr, hb, made, hc, hm⟩ := h
    exact ⟨he, ha, hr, hb, made, hc, hm⟩
  · exact Scheduled.sched_refl s

theorem materials_leftPending (s : HdMayaSceneDelegate) (context : MDrawContext) :
    LeftPending s (PreFrame.materials s context) := by
  unfold PreFrame.materials
  split
  · refine LeftPending.left_of_calls _ _ _ rfl rfl rfl rfl ?_
    intro call hc
    simp only [List.mem_map] at hc
    obtain ⟨shape, -, rfl⟩ := hc
    rfl
  · exact LeftPending.left_refl s

end HdMayaSceneDelegate

namespace HdMayaSceneDelegate

/-- The loop over the added nodes leaves `PreFrame` when the path of one of the nodes, not null,
cannot be resolved. -/
theorem addedNodesLoop_returns (ctx : SceneCtx) (nodes : List MObject)
    (s : HdMayaSceneDelegate)
    (hfail : ∃ obj ∈ nodes, obj.isNull = false ∧ ctx.scene.getAPathTo obj = none) :
    (PreFrame.addedNodesLoop ctx nodes s).1 = false := by
  induction nodes generalizing s with
  | nil =>
    obtain ⟨obj, hmem, -⟩ := hfail
    cases hmem
  | cons head rest ih =>
    obtain ⟨obj, hmem, hnull, hpath⟩ := hfail
    unfold PreFrame.addedNodesLoop
    by_cases hh : head.isNull = true
    · simp only [hh, if_true]
      rcases List.mem_cons.mp hmem with h | h
      · rw [h, hh] at hnull
        cases hnull
      · exact ih s ⟨obj, h, hnull, hpath⟩
    · simp only [hh, Bool.false_eq_true, if_false]
      cases hp : ctx.scene.getAPathTo head with
      | none => rfl
      | some dag =>
        simp only []
        rcases List.mem_cons.mp hmem with h | h
        · rw [h, hp] at hpath
          cases hpath
        · exact ih _ ⟨obj, h, hnull, hpath⟩

/-- The loop over the added nodes, on a list whose first node that is not null and has no path is
`obj`: the nodes before `obj` are handled in order, and the loop leaves `PreFrame` at `obj`. -/
theorem addedNodesLoop_append_unresolved (ctx : SceneCtx) (pre : List MObject) (obj : MObject)
    (post : List MObject) (s : HdMayaSceneDelegate)
    (hpre : ∀ o ∈ pre, o.isNull = true ∨ ctx.scene.getAPathTo o ≠ none)
    (hnull : obj.isNull = false) (hpath : ctx.scene.getAPathTo obj = none) :
    PreFrame.addedNodesLoop ctx (pre ++ obj :: post) s =
      (false, (resolvedPaths ctx pre).foldl (PreFrame.addNode ctx) s) := by
  induction pre generalizing s with
  | nil =>
    simp [PreFrame.addedNodesLoop, resolvedPaths, hnull, hpath]
  | cons head rest ih =>
    have hrest : ∀ o ∈ rest, o.isNull = true ∨ ctx.scene.getAPathTo o ≠ none :=
      fun o ho => hpre o (List.mem_cons_of_mem _ ho)
    rw [List.cons_append]
    unfold PreFrame.addedNodesLoop
    by_cases hh : head.isNull = true
    · simp only [hh, if_true]
      rw [ih s hrest]
      simp [resolvedPaths, hh]
    · simp only [hh, Bool.false_eq_true, if_false]
      cases hp : ctx.scene.getAPathTo head with
      | none =>
        rcases hpre head (List.mem_cons_self _ _) with h | h
        · exact absurd h hh
        · exact absurd hp h
      | some dag =>
        simp only []
        rw [ih _ hrest]
        simp [resolvedPaths, hh, hp]

/-- A list that holds a node that is not null and has no path splits at the first such node. -/
theorem exists_first_unresolved (ctx : SceneCtx) (nodes : List MObject)
    (hfail : ∃ obj ∈ nodes, obj.isNull = false ∧ ctx.scene.getAPathTo obj = none) :
    ∃ pre obj post, nodes = pre ++ obj :: post ∧
      (∀ o ∈ pre, o.isNull = true ∨ ctx.scene.getAPathTo o ≠ none) ∧
      obj.isNull = false ∧ ctx.scene.getAPathTo obj = none := by
  induction nodes with
  | nil =>
    obtain ⟨obj, hmem, -⟩ := hfail
    cases hmem
  | cons head rest ih =>
    by_cases hh : head.isNull = false ∧ ctx.scene.getAPathTo head = none
    · refine ⟨[], head, rest, rfl, ?_, hh.1, hh.2⟩
      intro o ho
      cases ho
    · obtain ⟨obj, hmem, hnull, hpath⟩ := hfail
      rcases List.mem_cons.mp hmem with h | h
      · rw [h] at hnull hpath
        exact absurd ⟨hnull, hpath⟩ hh
      · obtain ⟨pre, o, post, hsplit, hpre, hn, hp⟩ := ih ⟨obj, h, hnull, hpath⟩
        refine ⟨head :: pre, o, post, by rw [hsplit, List.cons_append], ?_, hn, hp⟩
        intro x hx
        rcases List.mem_cons.mp hx with hx | hx
        · rw [hx]
          by_cases hn2 : head.isNull = true
          · exact Or.inl hn2
          · right
            intro hp2
            apply hh
            refine ⟨?_, hp2⟩
            cases hv : head.isNull
            · rfl
            · exact absurd hv hn2
        · exact hpre x hx

/-- C17, as the code has it: when `PreFrame` cannot resolve the DAG path of a pending added node
that is not null, it returns from the loop over the added nodes, so that it is the first two blocks
followed by that loop. It returns at the first such node: the pending nodes split at it, and
`PreFrame` is the first two blocks followed by the handling, in order, of the nodes before it that
have a path, and of nothing else, whatever nodes follow it. The pending added nodes are the same as
before the call; every id pending for recreation or for rebuild before the call is still pending,
at the same place, ids being added at the end only; and none of the calls made removes callbacks or
a prim or updates a shadow matrix. -/
theorem PreFrame_returns_early (ctx : SceneCtx) (self : HdMayaSceneDelegate)
    (context : MDrawContext)
    (hfail : ∃ obj ∈ self._addedNodes, obj.isNull = false ∧ ctx.scene.getAPathTo obj = none) :
    PreFrame ctx self context =
      (PreFrame.addedNodesLoop ctx self._addedNodes
        (PreFrame.materialTags ctx (PreFrame.materials self context))).2 ∧
    (∃ pre obj post, self._addedNodes = pre ++ obj :: post ∧
      (∀ o ∈ pre, o.isNull = true ∨ ctx.scene.getAPathTo o ≠ none) ∧
      obj.isNull = false ∧ ctx.scene.getAPathTo obj = none) ∧
    (∀ pre obj post, self._addedNodes = pre ++ obj :: post →
      (∀ o ∈ pre, o.isNull = true ∨ ctx.scene.getAPathTo o ≠ none) →
      obj.isNull = false → ctx.scene.getAPathTo obj = none →
      PreFrame ctx self context =
        (resolvedPaths ctx pre).foldl (PreFrame.addNode ctx)
          (PreFrame.materialTags ctx (PreFrame.materials self context))) ∧
    (PreFrame ctx self context)._addedNodes = self._addedNodes ∧
    self._adaptersToRecreate.map Prod.fst <+:
      (PreFrame ctx self context)._adaptersToRecreate.map Prod.fst ∧
    self._adaptersToRebuild.map Prod.fst <+:
      (PreFrame ctx self context)._adaptersToRebuild.map Prod.fst ∧
    ∃ made, (PreFrame ctx self context).calls = self.calls ++ made ∧
      ∀ call ∈ made, call.2 ≠ AdapterMethod.RemoveCallbacks ∧
        call.2 ≠ AdapterMethod.RemovePrim ∧
        ∀ matrix, call.2 ≠ AdapterMethod.SetShadowProjectionMatrix matrix := by
  have h12 : LeftPending self (PreFrame.materialTags ctx (PreFrame.materials self context)) :=
    (materials_leftPending self context).left_trans (materialTags_scheduled ctx _).2
  have hadded : (PreFrame.materialTags ctx (PreFrame.materials self context))._addedNodes =
      self._addedNodes := h12.1
  have hne : (PreFrame.materialTags ctx (PreFrame.materials self context))._addedNodes ≠ [] := by
    rw [hadded]
    obtain ⟨obj, hmem, -⟩ := hfail
    exact List.ne_nil_of_mem hmem
  have hloop := addedNodesLoop_returns ctx self._addedNodes
    (PreFrame.materialTags ctx (PreFrame.materials self context)) hfail
  have hpre : PreFrame ctx self context =
      (PreFrame.addedNodesLoop ctx self._addedNodes
        (PreFrame.materialTags ctx (PreFrame.materials self context))).2 := by
    have hne2 : ¬ self._addedNodes = [] := by
      rw [← hadded]
      exact hne
    unfold PreFrame PreFrame.addedNodes
    simp only [hadded, ne_eq]
    rw [if_pos hne2]
    rcases hres : PreFrame.addedNodesLoop ctx self._addedNodes
        (PreFrame.materialTags ctx (PreFrame.materials self context)) with ⟨b, s3⟩
    rw [hres] at hloop
    simp only at hloop
    subst hloop
    rfl
  have hall : LeftPending self (PreFrame ctx self context) := by
    rw [hpre]
    exact h12.left_trans (addedNodesLoop_scheduled ctx _ _).2
  obtain ⟨ha, hr, hb, made, hc, hm⟩ := hall
  refine ⟨hpre, exists_first_unresolved ctx self._addedNodes hfail, ?_, ha, hr, hb, made, hc, ?_⟩
  · intro pre obj post hsplit hresolved hnull hpath
    rw [hpre, hsplit, addedNodesLoop_append_unresolved ctx pre obj post _ hresolved hnull hpath]
  · intro call hcall
    have h := hm call hcall
    refine ⟨?_, ?_, ?_⟩
    · intro he
      rw [he] at h
      cases h
    · intro he
      rw [he] at h
      cases h
    · intro matrix he
      rw [he] at h
      cases h

/-- Check of C17 as the code has it, on the sample delegate with the pending nodes 20, 30 and 40,
of which 30 has no path: the call returns with the three nodes still pending; the instance below
the transform node 20, handled before node 30, has scheduled `/pCube1` for recreation behind the
entry that was pending; the pending rebuild is as it was; and the light node 40, which follows node
30, is not handled, so that no call is made on an adapter and no light adapter is registered. -/
theorem PreFrame_returns_early_witness :
    (PreFrame Sample.sceneCtx Sample.pendingLight (Sample.drawContext 0))._addedNodes =
      [MObject.node 20, MObject.node 30, MObject.node 40] ∧
    (PreFrame Sample.sceneCtx Sample.pendingLight (Sample.drawContext 0))._adaptersToRecreate =
      [(SdfPath.prim ["materials", "I"], MObject.node 1),
        (SdfPath.prim ["pCube1"], MObject.node 10)] ∧
    (PreFrame Sample.sceneCtx Sample.pendingLight (Sample.drawContext 0))._adaptersToRebuild =
      [(SdfPath.prim ["pCube1"], 2)] ∧
    (PreFrame Sample.sceneCtx Sample.pendingLight (Sample.drawContext 0)).calls = [] ∧
    (PreFrame Sample.sceneCtx Sample.pendingLight (Sample.drawContext 0))._lightAdapters.map
      Prod.fst = [] := by
  have h := PreFrame_returns_early Sample.sceneCtx Sample.pendingLight (Sample.drawContext 0)
    ⟨MObject.node 30, by decide, rfl, rfl⟩
  have heq := h.2.2.1 [MObject.node 20] (MObject.node 30) [MObject.node 40] rfl (by decide) rfl rfl
  refine ⟨h.2.2.2.1, ?_, ?_, ?_, ?_⟩
  · rw [heq]
    decide
  · rw [heq]
    decide
  · rw [heq]
    decide
  · rw [heq]
    decide

/-- Counterexample to C17 as stated: node 30 of the sample delegate is pending, not null, and has
no DAG path, yet the list of pending recreations, empty before the call, holds `/pCube1` after it,
scheduled by the instance found below the transform node 20, which is handled first. -/
theorem PreFrame_returns_early_counterexample :
    (MObject.node 30 ∈ Sample.pendingNodes._addedNodes ∧
      (MObject.node 30).isNull = false ∧
      Sample.sceneCtx.scene.getAPathTo (MObject.node 30) = none) ∧
    Sample.pendingNodes._adaptersToRecreate = [] ∧
    (PreFrame Sample.sceneCtx Sample.pendingNodes (Sample.drawContext 0))._adaptersToRecreate =
      [(SdfPath.prim ["pCube1"], MObject.node 10)] ∧
    (PreFrame Sample.sceneCtx Sample.pendingNodes (Sample.drawContext 0))._adaptersToRecreate ≠
      Sample.pendingNodes._adaptersToRecreate := by
  refine ⟨⟨by decide, rfl, rfl⟩, rfl, ?_, ?_⟩
  · decide
  · decide

end HdMayaSceneDelegate

namespace HdMayaSceneDelegate

/-- The loop over added nodes that do not include `obj` never asks for the DAG path of `obj`. -/
theorem addedNodesLoop_withPathTo (ctx : SceneCtx) (obj : MObject) (path : Option MDagPath)
    (nodes : List MObject) (hobj : obj ∉ nodes) (s : HdMayaSceneDelegate) :
    PreFrame.addedNodesLoop (ctx.withPathTo obj path) nodes s =
      PreFrame.addedNodesLoop ctx nodes s := by
  induction nodes generalizing s with
  | nil => rfl
  | cons head rest ih =>
    have hhead : ¬ head = obj := fun h => hobj (by simp [h])
    have hrest : obj ∉ rest := fun h => hobj (List.mem_cons_of_mem _ h)
    have hpath : (ctx.withPathTo obj path).scene.getAPathTo head = ctx.scene.getAPathTo head := by
      simp [SceneCtx.withPathTo, hhead]
    unfold PreFrame.addedNodesLoop
    rw [hpath]
    split
    · exact ih hrest s
    · split
      · rfl
      · exact ih hrest _

/-- C18: `NodeAdded` appends the node to the pending added nodes, whether or not it is there
already; `NodeRemoved(obj)` leaves no entry equal to `obj`, and keeps the other entries, as many as
before and in their order; so after `NodeAdded(obj)` followed by `NodeRemoved(obj)` the delegate is
as after `NodeRemoved(obj)` alone, no pending entry is `obj`, and the next `PreFrame` is the same
whatever DAG path `obj` has: it does not insert `obj`. -/
theorem NodeAdded_NodeRemoved (self : HdMayaSceneDelegate) (obj : MObject) :
    (NodeAdded self obj)._addedNodes = self._addedNodes ++ [obj] ∧
    obj ∉ (NodeRemoved self obj)._addedNodes ∧
    List.Sublist (NodeRemoved self obj)._addedNodes self._addedNodes ∧
    (∀ item, item ≠ obj →
      (NodeRemoved self obj)._addedNodes.count item = self._addedNodes.count item) ∧
    NodeRemoved (NodeAdded self obj) obj = NodeRemoved self obj ∧
    obj ∉ (NodeRemoved (NodeAdded self obj) obj)._addedNodes ∧
    (obj ∉ self._addedNodes → NodeRemoved (NodeAdded self obj) obj = self) ∧
    (∀ (ctx : SceneCtx) (path : Option MDagPath) (context : MDrawContext),
      PreFrame (ctx.withPathTo obj path) (NodeRemoved (NodeAdded self obj) obj) context =
        PreFrame ctx (NodeRemoved (NodeAdded self obj) obj) context) := by
  have hnot : ∀ s : HdMayaSceneDelegate, obj ∉ (NodeRemoved s obj)._addedNodes := by
    intro s h
    simp [NodeRemoved, List.mem_filter] at h
  have hsame : NodeRemoved (NodeAdded self obj) obj = NodeRemoved self obj := by
    simp [NodeRemoved, NodeAdded, List.filter_append]
  refine ⟨rfl, hnot self, ?_, ?_, hsame, hnot _, ?_, ?_⟩
  · exact List.filter_sublist _
  · intro item hitem
    simp only [NodeRemoved]
    rw [List.count_filter]
    simp [hitem]
  · intro hfresh
    rw [hsame]
    have hfilter : self._addedNodes.filter (fun item => !decide (item = obj)) =
        self._addedNodes := by
      rw [List.filter_eq_self]
      intro item hitem
      have hne : ¬ item = obj := fun h => hfresh (h ▸ hitem)
      simp [hne]
    simp only [NodeRemoved, hfilter]
  · intro ctx path context
    have hmem := hnot (NodeAdded self obj)
    generalize NodeRemoved (NodeAdded self obj) obj = s at hmem
    have hadded : (PreFrame.materialTags ctx (PreFrame.materials s context))._addedNodes =
        s._addedNodes :=
      ((materials_leftPending s context).left_trans (materialTags_scheduled ctx _).2).1
    have hblock : PreFrame.addedNodes (ctx.withPathTo obj path)
        (PreFrame.materialTags ctx (PreFrame.materials s context)) =
        PreFrame.addedNodes ctx (PreFrame.materialTags ctx (PreFrame.materials s context)) := by
      unfold PreFrame.addedNodes
      rw [hadded, addedNodesLoop_withPathTo ctx obj path _ hmem]
    have htags : PreFrame.materialTags (ctx.withPathTo obj path) (PreFrame.materials s context) =
        PreFrame.materialTags ctx (PreFrame.materials s context) := rfl
    unfold PreFrame
    simp only []
    rw [htags, hblock]
    rfl

/-- Check of C18 on sample data: the node 30 added to the pending nodes 20 and 30 and then removed
leaves the node 20 alone. -/
theorem NodeAdded_NodeRemoved_witness :
    (NodeAdded Sample.pendingNodes (MObject.node 30))._addedNodes =
      [MObject.node 20, MObject.node 30, MObject.node 30] ∧
    (NodeRemoved (NodeAdded Sample.pendingNodes (MObject.node 30)) (MObject.node 30))._addedNodes =
      [MObject.node 20] :=
  ⟨(NodeAdded_NodeRemoved Sample.pendingNodes (MObject.node 30)).1,
    congrArg HdMayaSceneDelegate._addedNodes
      (NodeAdded_NodeRemoved Sample.pendingNodes (MObject.node 30)).2.2.2.2.1⟩

end HdMayaSceneDelegate

/-! ### Work that keeps the flag for materials -/

namespace HdMayaSceneDelegate

theorem KeepsMaterialsFlag.keeps_refl (s : HdMayaSceneDelegate) : KeepsMaterialsFlag s s :=
  ⟨rfl, List.prefix_refl _⟩

theorem KeepsMaterialsFlag.keeps_trans {s1 s2 s3 : HdMayaSceneDelegate}
    (h12 : KeepsMaterialsFlag s1 s2) (h23 : KeepsMaterialsFlag s2 s3) :
    KeepsMaterialsFlag s1 s3 :=
  ⟨h23.1.trans h12.1, h12.2.trans h23.2⟩

theorem KeepsMaterialsFlag.keeps_foldl {α : Type}
    (f : HdMayaSceneDelegate → α → HdMayaSceneDelegate)
    (hf : ∀ s x, KeepsMaterialsFlag s (f s x)) (l : List α) (s : HdMayaSceneDelegate) :
    KeepsMaterialsFlag s (l.foldl f s) := by
  induction l generalizing s with
  | nil => exact KeepsMaterialsFlag.keeps_refl s
  | cons x rest ih => exact (hf s x).keeps_trans (ih (f s x))

theorem KeepsMaterialsFlag.of_scheduled {s s' : HdMayaSceneDelegate} (h : Scheduled s s') :
    KeepsMaterialsFlag s s' := by
  obtain ⟨he, -, -, -, made, hc, -⟩ := h
  exact ⟨he, by rw [hc]; exact List.prefix_append _ _⟩

/-- Work that adds calls and keeps the flag. -/
theorem KeepsMaterialsFlag.keeps_of_calls (s s' : HdMayaSceneDelegate) (made : List AdapterCall)
    (he : s'._enableMaterials = s._enableMaterials) (hc : s'.calls = s.calls ++ made) :
    KeepsMaterialsFlag s s' :=
  ⟨he, by rw [hc]; exact List.prefix_append _ _⟩

theorem reinsert_keeps (ctx : SceneCtx) (s : HdMayaSceneDelegate) (obj : MObject) :
    KeepsMaterialsFlag s (RecreateAdapter.reinsert ctx s obj) := by
  unfold RecreateAdapter.reinsert
  simp only []
  split
  · exact KeepsMaterialsFlag.of_scheduled (InsertDag_scheduled ctx s _)
  · exact KeepsMaterialsFlag.keeps_refl s

theorem RecreateAdapter_keeps (ctx : SceneCtx) (s : HdMayaSceneDelegate) (id : SdfPath)
    (obj : MObject) : KeepsMaterialsFlag s (RecreateAdapter ctx s id obj) := by
  unfold RecreateAdapter
  split
  · rename_i made m _
    exact (KeepsMaterialsFlag.keeps_of_calls s
      { s with calls := s.calls ++ made, _shapeAdapters := m } made rfl rfl).keeps_trans
      (reinsert_keeps ctx _ obj)
  · split
    · rename_i made m _
      exact (KeepsMaterialsFlag.keeps_of_calls s
        { s with calls := s.calls ++ made, _lightAdapters := m } made rfl rfl).keeps_trans
        (reinsert_keeps ctx _ obj)
    · split
      · rename_i made m _
        have h1 : KeepsMaterialsFlag s
            { s with
              calls := s.calls ++ made ++ RecreateAdapter.markRprims ctx id
              _materialAdapters := m } :=
          KeepsMaterialsFlag.keeps_of_calls s _ (made ++ RecreateAdapter.markRprims ctx id) rfl
            (by simp only [List.append_assoc])
        simp only []
        split
        · exact h1.keeps_trans (KeepsMaterialsFlag.of_scheduled
            ⟨_CreateMaterial_enableMaterials _ _ _ _, LeftPending.left_CreateMaterial _ _ _ _⟩)
        · exact h1
      · exact KeepsMaterialsFlag.keeps_of_calls s _ [] rfl (by simp)

theorem recreate_keeps (ctx : SceneCtx) (s : HdMayaSceneDelegate) :
    KeepsMaterialsFlag s (PreFrame.recreate ctx s) := by
  unfold PreFrame.recreate
  split
  · have h : KeepsMaterialsFlag s (s._adaptersToRecreate.foldl (fun acc it =>
          let s1 := RecreateAdapter ctx acc it.1 it.2
          { s1 with _adaptersToRebuild := PreFrame.eraseRebuild s1._adaptersToRebuild it.1 })
          s) := by
      apply KeepsMaterialsFlag.keeps_foldl
      intro acc it
      exact (RecreateAdapter_keeps ctx acc it.1 it.2).keeps_trans
        (KeepsMaterialsFlag.keeps_of_calls _ _ [] rfl (by simp))
    exact h.keeps_trans (KeepsMaterialsFlag.keeps_of_calls _ _ [] rfl (by simp))
  · exact KeepsMaterialsFlag.keeps_refl s

theorem rebuildOne_keeps (ctx : SceneCtx) (s : HdMayaSceneDelegate) (it : SdfPath × Nat) :
    KeepsMaterialsFlag s (PreFrame.rebuildOne ctx s it) := by
  unfold PreFrame.rebuildOne
  split
  · exact KeepsMaterialsFlag.keeps_of_calls s _ _ rfl rfl
  · split
    · exact KeepsMaterialsFlag.keeps_of_calls s _ _ rfl rfl
    · split
      · exact KeepsMaterialsFlag.keeps_of_calls s _ _ rfl rfl
      · exact KeepsMaterialsFlag.keeps_refl s

theorem rebuild_keeps (ctx : SceneCtx) (s : HdMayaSceneDelegate) :
    KeepsMaterialsFlag s (PreFrame.rebuild ctx s) := by
  unfold PreFrame.rebuild
  split
  · exact (KeepsMaterialsFlag.keeps_foldl _ (rebuildOne_keeps ctx) _ s).keeps_trans
      (KeepsMaterialsFlag.keeps_of_calls _ _ [] rfl (by simp))
  · exact KeepsMaterialsFlag.keeps_refl s

theorem shadowOne_keeps (ctx : SceneCtx) (context : MDrawContext) (s : HdMayaSceneDelegate)
    (i : Nat) : KeepsMaterialsFlag s (PreFrame.shadowOne ctx context s i) := by
  unfold PreFrame.shadowOne
  split
  · exact KeepsMaterialsFlag.keeps_refl s
  · split
    · exact KeepsMaterialsFlag.keeps_refl s
    · split
      · exact KeepsMaterialsFlag.keeps_refl s
      · split
        · exact KeepsMaterialsFlag.keeps_refl s
        · split
          · exact KeepsMaterialsFlag.keeps_refl s
          · split
            · exact KeepsMaterialsFlag.keeps_of_calls s _ _ rfl rfl
            · exact KeepsMaterialsFlag.keeps_refl s

theorem shadows_keeps (ctx : SceneCtx) (context : MDrawContext) (s : HdMayaSceneDelegate) :
    KeepsMaterialsFlag s (PreFrame.shadows ctx context s) := by
  unfold PreFrame.shadows
  split
  · exact KeepsMaterialsFlag.keeps_refl s
  · split
    · exact KeepsMaterialsFlag.keeps_refl s
    · split
      · exact KeepsMaterialsFlag.keeps_refl s
      · exact KeepsMaterialsFlag.keeps_foldl _ (shadowOne_keeps ctx context) _ s

theorem addedNodes_keeps (ctx : SceneCtx) (s : HdMayaSceneDelegate) :
    KeepsMaterialsFlag s (PreFrame.addedNodes ctx s).2 := by
  unfold PreFrame.addedNodes
  split
  · have h := KeepsMaterialsFlag.of_scheduled (addedNodesLoop_scheduled ctx s._addedNodes s)
    rcases hres : PreFrame.addedNodesLoop ctx s._addedNodes s with ⟨b, s3⟩
    rw [hres] at h
    cases b with
    | false => exact h
    | true => exact h.keeps_trans (KeepsMaterialsFlag.keeps_of_calls _ _ [] rfl (by simp))
  · exact KeepsMaterialsFlag.keeps_refl s

/-- The blocks of `PreFrame` after the first keep the flag for materials and only add calls. -/
theorem PreFrame_keeps (ctx : SceneCtx) (self : HdMayaSceneDelegate) (context : MDrawContext) :
    KeepsMaterialsFlag (PreFrame.materials self context) (PreFrame ctx self context) := by
  have h2 := KeepsMaterialsFlag.of_scheduled
    (materialTags_scheduled ctx (PreFrame.materials self context))
  have h3 := addedNodes_keeps ctx (PreFrame.materialTags ctx (PreFrame.materials self context))
  unfold PreFrame
  simp only []
  rcases hres : PreFrame.addedNodes ctx
      (PreFrame.materialTags ctx (PreFrame.materials self context)) with ⟨b, s3⟩
  rw [hres] at h3
  cases b with
  | false => exact h2.keeps_trans h3
  | true =>
    exact ((h2.keeps_trans h3).keeps_trans (recreate_keeps ctx s3)).keeps_trans
      ((rebuild_keeps ctx _).keeps_trans (shadows_keeps ctx context _))

end HdMayaSceneDelegate

namespace HdMayaSceneDelegate

/-- C20: with `enableMaterials` the display style not having the default-material bit, the first
block of `PreFrame` stores the flag and marks every shape adapter dirty for its material id, once
each and in the order of the map, when `enableMaterials` differs from the stored flag, and does
nothing when it is equal; the rest of `PreFrame` keeps the flag and only adds calls after those;
so after `PreFrame` the stored flag is `enableMaterials`, and the first block of a next `PreFrame`
with the same display style does nothing. -/
theorem PreFrame_materials_flag (ctx : SceneCtx) (self : HdMayaSceneDelegate)
    (context : MDrawContext) :
    (PreFrame.enableMaterials context = true ↔
      context.getDisplayStyle &&& MFrameContext.kDefaultMaterial = 0) ∧
    (PreFrame.enableMaterials context ≠ self._enableMaterials →
      (PreFrame.materials self context)._enableMaterials = PreFrame.enableMaterials context ∧
      (PreFrame.materials self context).calls = self.calls ++
        self._shapeAdapters.map (fun shape =>
          (shape.2.GetID, AdapterMethod.MarkDirty HdChangeTracker.DirtyMaterialId)) ∧
      ((PreFrame.materials self context).calls.drop self.calls.length).length =
        self._shapeAdapters.length) ∧
    (PreFrame.enableMaterials context = self._enableMaterials →
      PreFrame.materials self context = self) ∧
    (PreFrame ctx self context)._enableMaterials = PreFrame.enableMaterials context ∧
    (PreFrame.materials self context).calls <+: (PreFrame ctx self context).calls ∧
    (∀ next : MDrawContext, next.getDisplayStyle = context.getDisplayStyle →
      PreFrame.materials (PreFrame ctx self context) next = PreFrame ctx self context) := by
  have hflag : (PreFrame.materials self context)._enableMaterials =
      PreFrame.enableMaterials context := by
    unfold PreFrame.materials
    split
    · rfl
    · rename_i h
      exact (not_not.mp h).symm
  have hkeep := PreFrame_keeps ctx self context
  have hafter : (PreFrame ctx self context)._enableMaterials =
      PreFrame.enableMaterials context := hkeep.1.trans hflag
  refine ⟨by simp [PreFrame.enableMaterials], ?_, ?_, hafter, hkeep.2, ?_⟩
  · intro hne
    have hm : PreFrame.materials self context =
        { self with
          _enableMaterials := PreFrame.enableMaterials context
          calls := self.calls ++
            self._shapeAdapters.map (fun shape =>
              (shape.2.GetID, AdapterMethod.MarkDirty HdChangeTracker.DirtyMaterialId)) } := by
      simp only [PreFrame.materials, hne, ne_eq, not_false_eq_true, if_true]
    rw [hm]
    exact ⟨rfl, rfl, by simp⟩
  · intro heq
    simp [PreFrame.materials, heq]
  · intro next hnext
    have he : PreFrame.enableMaterials next = PreFrame.enableMaterials context := by
      simp [PreFrame.enableMaterials, hnext]
    unfold PreFrame.materials
    rw [he, hafter]
    simp

/-- Check of C20 on sample data: the delegate `populated`, whose flag is set, gets a display
style with the default-material bit; the flag is cleared and the shape adapter `/pCube1` is marked
once; a second `PreFrame` with the same display style leaves the log of calls as it is. -/
theorem PreFrame_materials_flag_witness :
    (PreFrame Sample.sceneCtx Sample.populated (Sample.drawContext 16))._enableMaterials = false ∧
    (PreFrame Sample.sceneCtx Sample.populated (Sample.drawContext 16)).calls =
      [(SdfPath.prim ["pCube1"], AdapterMethod.MarkDirty HdChangeTracker.DirtyMaterialId)] ∧
    (PreFrame Sample.sceneCtx
      (PreFrame Sample.sceneCtx Sample.populated (Sample.drawContext 16))
      (Sample.drawContext 16)).calls =
      [(SdfPath.prim ["pCube1"], AdapterMethod.MarkDirty HdChangeTracker.DirtyMaterialId)] ∧
    PreFrame.materials (PreFrame Sample.sceneCtx Sample.populated (Sample.drawContext 16))
      (Sample.drawContext 16) =
      PreFrame Sample.sceneCtx Sample.populated (Sample.drawContext 16) :=
  ⟨(PreFrame_materials_flag Sample.sceneCtx Sample.populated (Sample.drawContext 16)).2.2.2.1,
    by decide, by decide,
    (PreFrame_materials_flag Sample.sceneCtx Sample.populated (Sample.drawContext 16)).2.2.2.2.2
      (Sample.drawContext 16) rfl⟩

end HdMayaSceneDelegate

/-! ### Parameters -/

theorem _MapAdapter_singleton {T : Type} (g : T → AdapterCall) (m : AdapterMap T) :
    _MapAdapter (fun a => [g a]) [m] = m.map (fun it => g it.2) := by
  simp only [_MapAdapter, List.append_nil]
  induction m with
  | nil => rfl
  | cons entry rest ih =>
    simp only [List.map_cons, List.flatten_cons, List.singleton_append, ih]

namespace HdMayaSceneDelegate

/-- C21: `SetParams` is, in every case, the call of the base `SetParams` with the new parameters
on the delegate with some calls added to its log, so that the new parameters are stored and no
adapter map changes. When the new parameters equal the stored ones in the five members compared,
no call is added. When only `textureMemoryPerTexture` differs, the calls added are one
`MarkDirty(HdMaterial::AllDirty)` for every material adapter and nothing else; when only
`maximumShadowMapResolution` differs, one `MarkDirty(HdLight::AllDirty)` for every light adapter
and nothing else; when only `displaySmoothMeshes` differs, the calls of the first block on the
shape adapters and nothing else. -/
theorem SetParams_marks_changed (bits : SprimDirtyBits) (self : HdMayaSceneDelegate)
    (params : HdMayaParams) :
    (∃ made, SetParams bits self params =
      HdMayaDelegate.SetParams { self with calls := self.calls ++ made } params) ∧
    HdMayaDelegate.GetParams (SetParams bits self params) = params ∧
    ((SetParams bits self params)._shapeAdapters = self._shapeAdapters ∧
      (SetParams bits self params)._lightAdapters = self._lightAdapters ∧
      (SetParams bits self params)._cameraAdapters = self._cameraAdapters ∧
      (SetParams bits self params)._materialAdapters = self._materialAdapters) ∧
    (self._params.displaySmoothMeshes = params.displaySmoothMeshes →
      self._params.motionSampleStart = params.motionSampleStart →
      self._params.motionSampleEnd = params.motionSampleEnd →
      self._params.textureMemoryPerTexture = params.textureMemoryPerTexture →
      self._params.maximumShadowMapResolution = params.maximumShadowMapResolution →
      (SetParams bits self params).calls = self.calls ∧
      SetParams bits self params = HdMayaDelegate.SetParams self params) ∧
    (self._params.displaySmoothMeshes = params.displaySmoothMeshes →
      self._params.motionSampleStart = params.motionSampleStart →
      self._params.motionSampleEnd = params.motionSampleEnd →
      self._params.textureMemoryPerTexture ≠ params.textureMemoryPerTexture →
      self._params.maximumShadowMapResolution = params.maximumShadowMapResolution →
      (SetParams bits self params).calls = self.calls ++
        self._materialAdapters.map (fun it =>
          (it.2.GetID, AdapterMethod.MarkDirty bits.HdMaterial_AllDirty))) ∧
    (self._params.displaySmoothMeshes = params.displaySmoothMeshes →
      self._params.motionSampleStart = params.motionSampleStart →
      self._params.motionSampleEnd = params.motionSampleEnd →
      self._params.textureMemoryPerTexture = params.textureMemoryPerTexture →
      self._params.maximumShadowMapResolution ≠ params.maximumShadowMapResolution →
      (SetParams bits self params).calls = self.calls ++
        self._lightAdapters.map (fun it =>
          (it.2.GetID, AdapterMethod.MarkDirty bits.HdLight_AllDirty))) ∧
    (self._params.displaySmoothMeshes ≠ params.displaySmoothMeshes →
      self._params.motionSampleStart = params.motionSampleStart →
      self._params.motionSampleEnd = params.motionSampleEnd →
      self._params.textureMemoryPerTexture = params.textureMemoryPerTexture →
      self._params.maximumShadowMapResolution = params.maximumShadowMapResolution →
      (SetParams bits self params).calls = self.calls ++
        _MapAdapter SetParams.smoothMeshes
          [self._shapeAdapters.cast HdMayaShapeAdapter.toHdMayaDagAdapter]) := by
  refine ⟨?_, rfl, ⟨rfl, rfl, rfl, rfl⟩, ?_, ?_, ?_, ?_⟩
  · unfold SetParams
    simp only [List.append_assoc]
    exact ⟨_, rfl⟩
  · intro h1 h2 h3 h4 h5
    have hc : (SetParams bits self params).calls = self.calls := by
      simp [SetParams, HdMayaDelegate.SetParams, HdMayaDelegate.GetParams, h1, h2, h3, h4, h5]
    refine ⟨hc, ?_⟩
    simp [SetParams, HdMayaDelegate.SetParams, HdMayaDelegate.GetParams, h1, h2, h3, h4, h5]
  · intro h1 h2 h3 h4 h5
    have hm := _MapAdapter_singleton
      (fun a : HdMayaMaterialAdapter =>
        (a.GetID, AdapterMethod.MarkDirty bits.HdMaterial_AllDirty)) self._materialAdapters
    simp [SetParams, HdMayaDelegate.SetParams, HdMayaDelegate.GetParams, h1, h2, h3, h4, h5]
    exact hm
  · intro h1 h2 h3 h4 h5
    have hm := _MapAdapter_singleton
      (fun a : HdMayaLightAdapter =>
        (a.GetID, AdapterMethod.MarkDirty bits.HdLight_AllDirty)) self._lightAdapters
    simp [SetParams, HdMayaDelegate.SetParams, HdMayaDelegate.GetParams, h1, h2, h3, h4, h5]
    exact hm
  · intro h1 h2 h3 h4 h5
    simp [SetParams, HdMayaDelegate.SetParams, HdMayaDelegate.GetParams, h1, h2, h3, h4, h5]

end HdMayaSceneDelegate

namespace HdMayaSceneDelegate

/-- Check of C21 on the sample delegate `populated`: the same parameters add no call; another
`textureMemoryPerTexture` marks the material adapter `/materials/I` alone; another
`maximumShadowMapResolution` marks the light adapter `/light1` alone; and the new parameters are
stored. -/
theorem SetParams_marks_changed_witness :
    (SetParams Sample.dirtyBits Sample.populated Sample.params).calls = [] ∧
    (SetParams Sample.dirtyBits Sample.populated
      { Sample.params with textureMemoryPerTexture := 1048576 }).calls =
      [(SdfPath.prim ["materials", "I"], AdapterMethod.MarkDirty 3)] ∧
    (SetParams Sample.dirtyBits Sample.populated
      { Sample.params with maximumShadowMapResolution := 4096 }).calls =
      [(SdfPath.prim ["light1"], AdapterMethod.MarkDirty 15)] ∧
    HdMayaDelegate.GetParams (SetParams Sample.dirtyBits Sample.populated
      { Sample.params with maximumShadowMapResolution := 4096 }) =
      { Sample.params with maximumShadowMapResolution := 4096 } :=
  ⟨((SetParams_marks_changed Sample.dirtyBits Sample.populated Sample.params).2.2.2.1
      rfl rfl rfl rfl rfl).1,
    (SetParams_marks_changed Sample.dirtyBits Sample.populated
      { Sample.params with textureMemoryPerTexture := 1048576 }).2.2.2.2.1
      rfl rfl rfl (by decide) rfl,
    (SetParams_marks_changed Sample.dirtyBits Sample.populated
      { Sample.params with maximumShadowMapResolution := 4096 }).2.2.2.2.2.1
      rfl rfl rfl rfl (by decide),
    (SetParams_marks_changed Sample.dirtyBits Sample.populated
      { Sample.params with maximumShadowMapResolution := 4096 }).2.1⟩

end HdMayaSceneDelegate
